import Mathlib

/-!
nRF24L01 driver (`src/lib/wireless/rf24.c`): embedding and verification

The driver talks to the radio chip through three injected operations
(`spi_xfer`, `csn`, `ce`) and two delay primitives.  The embedding threads an
explicit `World`: the state of the chip behind the transport together with the
trace of every transport event the driver produced.  Machine integers are
natural numbers, reduced modulo `2^8` wherever the C code narrows to `uint8_t`.
-/

namespace RF24

/-! ## Constants of `lib/nRF24L01.h` and `lib/RF24.h` -/

/-- Modelled from the spec: `lib/nRF24L01.h` is not among the sources; register
addresses, bit offsets and command bytes are the datasheet's (spec §6). -/
def CONFIG : Nat := 0x00
/-- Modelled from the spec: register address from the datasheet map (`lib/nRF24L01.h` is missing). -/
def EN_AA : Nat := 0x01
/-- Modelled from the spec: register address from the datasheet map (`lib/nRF24L01.h` is missing). -/
def EN_RXADDR : Nat := 0x02
/-- Modelled from the spec: register address from the datasheet map (`lib/nRF24L01.h` is missing). -/
def SETUP_RETR : Nat := 0x04
/-- Modelled from the spec: register address from the datasheet map (`lib/nRF24L01.h` is missing). -/
def RF_CH : Nat := 0x05
/-- Modelled from the spec: register address from the datasheet map (`lib/nRF24L01.h` is missing). -/
def RF_SETUP : Nat := 0x06
/-- Modelled from the spec: register address from the datasheet map (`lib/nRF24L01.h` is missing). -/
def STATUS : Nat := 0x07
/-- Modelled from the spec: register address from the datasheet map (`lib/nRF24L01.h` is missing). -/
def OBSERVE_TX : Nat := 0x08
/-- Modelled from the spec: register address from the datasheet map (`lib/nRF24L01.h` is missing). -/
def RX_ADDR_P0 : Nat := 0x0A
/-- Modelled from the spec: register address from the datasheet map (`lib/nRF24L01.h` is missing). -/
def RX_ADDR_P1 : Nat := 0x0B
/-- Modelled from the spec: register address from the datasheet map (`lib/nRF24L01.h` is missing). -/
def RX_ADDR_P2 : Nat := 0x0C
/-- Modelled from the spec: register address from the datasheet map (`lib/nRF24L01.h` is missing). -/
def RX_ADDR_P3 : Nat := 0x0D
/-- Modelled from the spec: register address from the datasheet map (`lib/nRF24L01.h` is missing). -/
def RX_ADDR_P4 : Nat := 0x0E
/-- Modelled from the spec: register address from the datasheet map (`lib/nRF24L01.h` is missing). -/
def RX_ADDR_P5 : Nat := 0x0F
/-- Modelled from the spec: register address from the datasheet map (`lib/nRF24L01.h` is missing). -/
def TX_ADDR : Nat := 0x10
/-- Modelled from the spec: register address from the datasheet map (`lib/nRF24L01.h` is missing). -/
def RX_PW_P0 : Nat := 0x11
/-- Modelled from the spec: register address from the datasheet map (`lib/nRF24L01.h` is missing). -/
def RX_PW_P1 : Nat := 0x12
/-- Modelled from the spec: register address from the datasheet map (`lib/nRF24L01.h` is missing). -/
def RX_PW_P2 : Nat := 0x13
/-- Modelled from the spec: register address from the datasheet map (`lib/nRF24L01.h` is missing). -/
def RX_PW_P3 : Nat := 0x14
/-- Modelled from the spec: register address from the datasheet map (`lib/nRF24L01.h` is missing). -/
def RX_PW_P4 : Nat := 0x15
/-- Modelled from the spec: register address from the datasheet map (`lib/nRF24L01.h` is missing). -/
def RX_PW_P5 : Nat := 0x16
/-- Modelled from the spec: register address from the datasheet map (`lib/nRF24L01.h` is missing). -/
def FIFO_STATUS : Nat := 0x17
/-- Modelled from the spec: register address from the datasheet map (`lib/nRF24L01.h` is missing). -/
def DYNPD : Nat := 0x1C
/-- Modelled from the spec: register address from the datasheet map (`lib/nRF24L01.h` is missing). -/
def FEATURE : Nat := 0x1D

/-- Modelled from the spec: bit offset in CONFIG, from the datasheet (`lib/nRF24L01.h` is missing). -/
def PWR_UP : Nat := 1
/-- Modelled from the spec: bit offset in CONFIG, from the datasheet (`lib/nRF24L01.h` is missing). -/
def PRIM_RX : Nat := 0
/-- Modelled from the spec: bit offset in STATUS, from the datasheet (`lib/nRF24L01.h` is missing). -/
def RX_DR : Nat := 6
/-- Modelled from the spec: bit offset in STATUS, from the datasheet (`lib/nRF24L01.h` is missing). -/
def TX_DS : Nat := 5
/-- Modelled from the spec: bit offset in STATUS, from the datasheet (`lib/nRF24L01.h` is missing). -/
def MAX_RT : Nat := 4
/-- Modelled from the spec: bit offset in FIFO_STATUS, from the datasheet (`lib/nRF24L01.h` is missing). -/
def RX_EMPTY : Nat := 0
/-- Modelled from the spec: bit offset in EN_RXADDR, from the datasheet (`lib/nRF24L01.h` is missing). -/
def ERX_P0 : Nat := 0
/-- Modelled from the spec: bit offset in EN_RXADDR, from the datasheet (`lib/nRF24L01.h` is missing). -/
def ERX_P1 : Nat := 1
/-- Modelled from the spec: bit offset in EN_RXADDR, from the datasheet (`lib/nRF24L01.h` is missing). -/
def ERX_P2 : Nat := 2
/-- Modelled from the spec: bit offset in EN_RXADDR, from the datasheet (`lib/nRF24L01.h` is missing). -/
def ERX_P3 : Nat := 3
/-- Modelled from the spec: bit offset in EN_RXADDR, from the datasheet (`lib/nRF24L01.h` is missing). -/
def ERX_P4 : Nat := 4
/-- Modelled from the spec: bit offset in EN_RXADDR, from the datasheet (`lib/nRF24L01.h` is missing). -/
def ERX_P5 : Nat := 5

/-- Modelled from the spec: command byte "read register" base opcode (`lib/nRF24L01.h` is missing). -/
def R_REGISTER : Nat := 0x00
/-- Modelled from the spec: command byte "write register" base opcode (`lib/nRF24L01.h` is missing). -/
def W_REGISTER : Nat := 0x20
/-- Modelled from the spec: mask of the register address inside a command byte (`lib/nRF24L01.h` is missing). -/
def REGISTER_MASK : Nat := 0x1F
/-- Modelled from the spec: the feature-unlock opcode (`lib/nRF24L01.h` is missing). -/
def ACTIVATE : Nat := 0x50
/-- Modelled from the spec: the read-dynamic-payload-width opcode (`lib/nRF24L01.h` is missing). -/
def R_RX_PL_WID : Nat := 0x60
/-- Modelled from the spec: the read-payload opcode (`lib/nRF24L01.h` is missing). -/
def R_RX_PAYLOAD : Nat := 0x61
/-- Modelled from the spec: the write-payload opcode (`lib/nRF24L01.h` is missing). -/
def W_TX_PAYLOAD : Nat := 0xA0
/-- Modelled from the spec: the flush-TX opcode (`lib/nRF24L01.h` is missing). -/
def FLUSH_TX : Nat := 0xE1
/-- Modelled from the spec: the flush-RX opcode (`lib/nRF24L01.h` is missing). -/
def FLUSH_RX : Nat := 0xE2
/-- Modelled from the spec: the no-operation opcode, 0xFF (`lib/nRF24L01.h` is missing). -/
def NOP : Nat := 0xFF

/-- Modelled from the spec: `lib/RF24.h` is not among the sources; the flag set of
the device instance is {wide-band, P-variant, dynamic-payload} (spec §3), one bit each. -/
def RF24_WIDE_BAND : Nat := 1
/-- Modelled from the spec: flag bit "P-variant detected" of the device instance (`lib/RF24.h` is missing). -/
def RF24_P_VARIANT : Nat := 2
/-- Modelled from the spec: flag bit "dynamic payload enabled" of the device instance (`lib/RF24.h` is missing). -/
def RF24_DYNAMIC_PAYLOAD : Nat := 4

/-- Modelled from the spec: bit offset in RF_SETUP, from the datasheet (`lib/nRF24L01.h` is missing). -/
def RF_PWR_LOW : Nat := 1
/-- Modelled from the spec: bit offset in RF_SETUP, from the datasheet (`lib/nRF24L01.h` is missing). -/
def RF_PWR_HIGH : Nat := 2
/-- Modelled from the spec: bit offset in RF_SETUP, from the datasheet (`lib/nRF24L01.h` is missing). -/
def RF_DR_LOW : Nat := 5
/-- Modelled from the spec: bit offset in RF_SETUP, from the datasheet (`lib/nRF24L01.h` is missing). -/
def RF_DR_HIGH : Nat := 3
/-- Modelled from the spec: bit offset in CONFIG, from the datasheet (`lib/nRF24L01.h` is missing). -/
def EN_CRC : Nat := 3
/-- Modelled from the spec: bit offset in CONFIG, from the datasheet (`lib/nRF24L01.h` is missing). -/
def CRCO : Nat := 2
/-- Modelled from the spec: bit offset of the retry delay in SETUP_RETR (`lib/nRF24L01.h` is missing). -/
def ARD : Nat := 4
/-- Modelled from the spec: bit offset of the retry count in SETUP_RETR (`lib/nRF24L01.h` is missing). -/
def ARC : Nat := 0
/-- Modelled from the spec: bit offset of the 3-bit pipe number in STATUS (`lib/nRF24L01.h` is missing). -/
def RX_P_NO : Nat := 1

/-- Modelled from the spec: the enumeration `rf24_pa_dbm_e` of `lib/RF24.h` (missing):
four levels MIN, LOW, HIGH, MAX and an error value, numbered in that order. -/
def RF24_PA_MIN : Nat := 0
/-- Modelled from the spec: second value of `rf24_pa_dbm_e` (`lib/RF24.h` is missing). -/
def RF24_PA_LOW : Nat := 1
/-- Modelled from the spec: third value of `rf24_pa_dbm_e` (`lib/RF24.h` is missing). -/
def RF24_PA_HIGH : Nat := 2
/-- Modelled from the spec: fourth value of `rf24_pa_dbm_e` (`lib/RF24.h` is missing). -/
def RF24_PA_MAX : Nat := 3
/-- Modelled from the spec: the error value of `rf24_pa_dbm_e` (`lib/RF24.h` is missing). -/
def RF24_PA_ERROR : Nat := 4

/-- Modelled from the spec: the enumeration `rf24_datarate_e` of `lib/RF24.h` (missing):
1 Mbps, 2 Mbps, 250 kbps. -/
def RF24_1MBPS : Nat := 0
/-- Modelled from the spec: second value of `rf24_datarate_e` (`lib/RF24.h` is missing). -/
def RF24_2MBPS : Nat := 1
/-- Modelled from the spec: third value of `rf24_datarate_e` (`lib/RF24.h` is missing). -/
def RF24_250KBPS : Nat := 2

/-- Modelled from the spec: the enumeration `rf24_crclength_e` of `lib/RF24.h` (missing):
disabled, 8-bit, 16-bit. -/
def RF24_CRC_DISABLED : Nat := 0
/-- Modelled from the spec: second value of `rf24_crclength_e` (`lib/RF24.h` is missing). -/
def RF24_CRC_8 : Nat := 1
/-- Modelled from the spec: third value of `rf24_crclength_e` (`lib/RF24.h` is missing). -/
def RF24_CRC_16 : Nat := 2

/-- Modelled from the spec: bit offset in FEATURE, from the datasheet (`lib/nRF24L01.h` is missing). -/
def EN_DPL : Nat := 2
/-- Modelled from the spec: bit offset in FEATURE, from the datasheet (`lib/nRF24L01.h` is missing). -/
def EN_ACK_PAY : Nat := 1
/-- Modelled from the spec: bit offset in DYNPD, from the datasheet (`lib/nRF24L01.h` is missing). -/
def DPL_P0 : Nat := 0
/-- Modelled from the spec: bit offset in DYNPD, from the datasheet (`lib/nRF24L01.h` is missing). -/
def DPL_P1 : Nat := 1
/-- Modelled from the spec: bit offset in DYNPD, from the datasheet (`lib/nRF24L01.h` is missing). -/
def DPL_P2 : Nat := 2
/-- Modelled from the spec: bit offset in DYNPD, from the datasheet (`lib/nRF24L01.h` is missing). -/
def DPL_P3 : Nat := 3
/-- Modelled from the spec: bit offset in DYNPD, from the datasheet (`lib/nRF24L01.h` is missing). -/
def DPL_P4 : Nat := 4
/-- Modelled from the spec: bit offset in DYNPD, from the datasheet (`lib/nRF24L01.h` is missing). -/
def DPL_P5 : Nat := 5

/-! ## Transport, chip and device instance -/

/-- One observable action of the driver on its platform: the two control lines,
one byte exchange (byte sent, byte answered), the two delay primitives, and
the fatal-failure hook `panic`. -/
inductive Event where
  | csn (level : Nat)
  | ce (level : Nat)
  | xfer (out inp : Nat)
  | delay_ms (n : Nat)
  | delay_us (n : Nat)
  | panic
  deriving DecidableEq, Repr

/-- Behaviour of the platform behind the injected function pointers of
`struct rf24` (`spi_xfer`, `csn`, `ce`) and behind `delay_ms` / `delay_us`:
an arbitrary deterministic machine over a state `σ`. -/
structure Chip (σ : Type) where
  spi_xfer : σ → Nat → σ × Nat
  csn : σ → Nat → σ
  ce : σ → Nat → σ
  delay_ms : σ → Nat → σ
  delay_us : σ → Nat → σ

/-- The chip state together with the trace of transport events so far. -/
structure World (σ : Type) where
  chip : σ
  trace : List Event

/-- Modelled from the spec: `struct rf24` is declared in `lib/RF24.h`, which is not
among the sources; these are the data fields the driver code reads and writes
(the function pointers are the `Chip`). -/
structure rf24 where
  flags : Nat
  payload_size : Nat
  pipe0_reading_address : List Nat
  ack_payload_length : Nat
  deriving DecidableEq, Repr

/-- Modelled from the spec: the macro `rf24_has_dynamic_payload` of `lib/RF24.h`
tests the dynamic-payload flag of the device instance. -/
def rf24_has_dynamic_payload (r : rf24) : Bool :=
  r.flags &&& RF24_DYNAMIC_PAYLOAD != 0

/-- Modelled from the spec: `min_t(uint8_t, a, b)` of `arch/antares.h`: both
operands are converted to `uint8_t` and the smaller is taken. -/
def min_t_u8 (a b : Nat) : Nat :=
  if a % 256 < b % 256 then a % 256 else b % 256

variable {σ : Type}

/-- Call of `r->csn(level)`. -/
def csn (c : Chip σ) (w : World σ) (level : Nat) : World σ :=
  { chip := c.csn w.chip level, trace := w.trace ++ [Event.csn level] }

/-- Call of `r->ce(level)`. -/
def ce (c : Chip σ) (w : World σ) (level : Nat) : World σ :=
  { chip := c.ce w.chip level, trace := w.trace ++ [Event.ce level] }

/-- Call of `r->spi_xfer(data)`: a `uint8_t` goes out, a `uint8_t` comes back. -/
def spi_xfer (c : Chip σ) (w : World σ) (data : Nat) : World σ × Nat :=
  let a := c.spi_xfer w.chip (data % 256)
  ({ chip := a.1, trace := w.trace ++ [Event.xfer (data % 256) (a.2 % 256)] }, a.2 % 256)

/-- Call of `delay_ms(n)`. -/
def delay_ms (c : Chip σ) (w : World σ) (n : Nat) : World σ :=
  { chip := c.delay_ms w.chip n, trace := w.trace ++ [Event.delay_ms n] }

/-- Call of `delay_us(n)`. -/
def delay_us (c : Chip σ) (w : World σ) (n : Nat) : World σ :=
  { chip := c.delay_us w.chip n, trace := w.trace ++ [Event.delay_us n] }

/-- Call of `panic(...)`: the fatal-failure hook is recorded in the trace. -/
def panic (w : World σ) : World σ :=
  { w with trace := w.trace ++ [Event.panic] }

/-! ## Transfer loops

A buffer is the memory behind a pointer: `buf i` is the byte at `buf + i`. -/

/-- The loop `while ( n-- ) *buf++ = r->spi_xfer(0xff);` with `buf` at offset `i`. -/
def xfer_in (c : Chip σ) : Nat → World σ → (Nat → Nat) → Nat → World σ × (Nat → Nat)
  | 0, w, buf, _ => (w, buf)
  | n + 1, w, buf, i =>
    let a := spi_xfer c w 0xff
    xfer_in c n a.1 (Function.update buf i a.2) (i + 1)

/-- The loop `while ( n-- ) r->spi_xfer(*buf++);` with `buf` at offset `i`. -/
def xfer_out (c : Chip σ) : Nat → World σ → (Nat → Nat) → Nat → World σ
  | 0, w, _, _ => w
  | n + 1, w, buf, i => xfer_out c n (spi_xfer c w (buf i)).1 buf (i + 1)

/-- The loop `while ( n-- ) r->spi_xfer(v);`. -/
def xfer_fill (c : Chip σ) : Nat → World σ → Nat → World σ
  | 0, w, _ => w
  | n + 1, w, v => xfer_fill c n (spi_xfer c w v).1 v

/-! ## Register access -/

/-- `rf24_readout_register`: returns the status and the buffer after the call. -/
def rf24_readout_register (c : Chip σ) (w : World σ) (reg : Nat) (buf : Nat → Nat) (len : Nat) :
    World σ × Nat × (Nat → Nat) :=
  let w := csn c w 0
  let a := spi_xfer c w (R_REGISTER ||| (REGISTER_MASK &&& reg))
  let b := xfer_in c (len % 256) a.1 buf 0
  let w := csn c b.1 1
  (w, a.2, b.2)

/-- `rf24_read_register`: returns the register value. -/
def rf24_read_register (c : Chip σ) (w : World σ) (reg : Nat) : World σ × Nat :=
  let w := csn c w 0
  let a := spi_xfer c w (R_REGISTER ||| (REGISTER_MASK &&& reg))
  let b := spi_xfer c a.1 0xff
  let w := csn c b.1 1
  (w, b.2)

/-- `rf24_writeout_register`: returns the status. -/
def rf24_writeout_register (c : Chip σ) (w : World σ) (reg : Nat) (buf : Nat → Nat) (len : Nat) :
    World σ × Nat :=
  let w := csn c w 0
  let a := spi_xfer c w (W_REGISTER ||| (REGISTER_MASK &&& reg))
  let w := xfer_out c (len % 256) a.1 buf 0
  let w := csn c w 1
  (w, a.2)

/-- `rf24_write_register`: returns the status. -/
def rf24_write_register (c : Chip σ) (w : World σ) (reg value : Nat) : World σ × Nat :=
  let w := csn c w 0
  let a := spi_xfer c w (W_REGISTER ||| (REGISTER_MASK &&& reg))
  let b := spi_xfer c a.1 value
  let w := csn c b.1 1
  (w, a.2)

/-! ## Payload I/O -/

/-- `rf24_write_payload`: returns the status. -/
def rf24_write_payload (c : Chip σ) (r : rf24) (w : World σ) (buf : Nat → Nat) (len : Nat) :
    World σ × Nat :=
  let data_len := min_t_u8 len r.payload_size
  let blank_len := if rf24_has_dynamic_payload r then 0 else (r.payload_size + 256 - data_len) % 256
  let w := csn c w 0
  let a := spi_xfer c w W_TX_PAYLOAD
  let w := xfer_out c data_len a.1 buf 0
  let w := xfer_fill c blank_len w 0
  let w := csn c w 1
  (w, a.2)

/-- `rf24_read_payload`: returns the status and the buffer after the call. -/
def rf24_read_payload (c : Chip σ) (r : rf24) (w : World σ) (buf : Nat → Nat) (len : Nat) :
    World σ × Nat × (Nat → Nat) :=
  let data_len := min_t_u8 len r.payload_size
  let blank_len := if rf24_has_dynamic_payload r then 0 else (r.payload_size + 256 - data_len) % 256
  let w := csn c w 0
  let a := spi_xfer c w R_RX_PAYLOAD
  let b := xfer_in c data_len a.1 buf 0
  let w := xfer_fill c blank_len b.1 0xff
  let w := csn c w 1
  (w, a.2, b.2)

/-- `rf24_flush_rx`: returns the status. -/
def rf24_flush_rx (c : Chip σ) (w : World σ) : World σ × Nat :=
  let w := csn c w 0
  let a := spi_xfer c w FLUSH_RX
  let w := csn c a.1 1
  (w, a.2)

/-- `rf24_flush_tx`: returns the status. -/
def rf24_flush_tx (c : Chip σ) (w : World σ) : World σ × Nat :=
  let w := csn c w 0
  let a := spi_xfer c w FLUSH_TX
  let w := csn c a.1 1
  (w, a.2)

/-- `rf24_get_status`. -/
def rf24_get_status (c : Chip σ) (w : World σ) : World σ × Nat :=
  let w := csn c w 0
  let a := spi_xfer c w NOP
  let w := csn c a.1 1
  (w, a.2)

/-- `rf24_toggle_features`. -/
def rf24_toggle_features (c : Chip σ) (w : World σ) : World σ :=
  let w := csn c w 0
  let a := spi_xfer c w ACTIVATE
  let b := spi_xfer c a.1 0x73
  csn c b.1 1

/-- `rf24_get_dynamic_payload_size`. -/
def rf24_get_dynamic_payload_size (c : Chip σ) (w : World σ) : World σ × Nat :=
  let w := csn c w 0
  let a := spi_xfer c w R_RX_PL_WID
  let b := spi_xfer c a.1 0xff
  let w := csn c b.1 1
  (w, b.2)

/-! ## Power state and outcome decoding -/

/-- `rf24_power_down`; `~(1<<PWR_UP)` narrowed to the byte that is written. -/
def rf24_power_down (c : Chip σ) (w : World σ) : World σ :=
  let a := rf24_read_register c w CONFIG
  (rf24_write_register c a.1 CONFIG (a.2 &&& (255 ^^^ (1 <<< PWR_UP)))).1

/-- `rf24_what_happened`: returns `(tx_ok, tx_fail, rx_ready)`. -/
def rf24_what_happened (c : Chip σ) (w : World σ) : World σ × Nat × Nat × Nat :=
  let a := rf24_write_register c w STATUS ((1 <<< RX_DR) ||| (1 <<< TX_DS) ||| (1 <<< MAX_RT))
  (a.1, a.2 &&& (1 <<< TX_DS), a.2 &&& (1 <<< MAX_RT), a.2 &&& (1 <<< RX_DR))

/-! ## Receive logic -/

/-- `rf24_start_listening`. -/
def rf24_start_listening (c : Chip σ) (r : rf24) (w : World σ) : World σ :=
  let a := rf24_read_register c w CONFIG
  let w := (rf24_write_register c a.1 CONFIG (a.2 ||| (1 <<< PWR_UP) ||| (1 <<< PRIM_RX))).1
  let w := (rf24_write_register c w STATUS ((1 <<< RX_DR) ||| (1 <<< TX_DS) ||| (1 <<< MAX_RT))).1
  let w := (rf24_writeout_register c w RX_ADDR_P0 (fun i => r.pipe0_reading_address.getD i 0) 5).1
  let w := (rf24_flush_rx c w).1
  let w := (rf24_flush_tx c w).1
  let w := ce c w 1
  delay_us c w 130

/-- `rf24_read`: returns the masked FIFO status and the buffer after the call. -/
def rf24_read (c : Chip σ) (r : rf24) (w : World σ) (buf : Nat → Nat) (len : Nat) :
    World σ × Nat × (Nat → Nat) :=
  let a := rf24_read_payload c r w buf len
  let b := rf24_read_register c a.1 FIFO_STATUS
  (b.1, b.2 &&& (1 <<< RX_EMPTY), a.2.2)

/-! ## Pipe manager -/

/-- `rf24_open_writing_pipe`. -/
def rf24_open_writing_pipe (c : Chip σ) (r : rf24) (w : World σ) (address : Nat → Nat) : World σ :=
  let w := (rf24_writeout_register c w RX_ADDR_P0 address 5).1
  let w := (rf24_writeout_register c w TX_ADDR address 5).1
  let max_payload_size := 32
  (rf24_write_register c w RX_PW_P0 (min_t_u8 r.payload_size max_payload_size)).1

/-- The table `child_pipe[]` of `rf24_open_reading_pipe`. -/
def child_pipe : List Nat :=
  [RX_ADDR_P0, RX_ADDR_P1, RX_ADDR_P2, RX_ADDR_P3, RX_ADDR_P4, RX_ADDR_P5]

/-- The table `child_payload_size[]` of `rf24_open_reading_pipe`. -/
def child_payload_size : List Nat :=
  [RX_PW_P0, RX_PW_P1, RX_PW_P2, RX_PW_P3, RX_PW_P4, RX_PW_P5]

/-- The table `child_pipe_enable[]` of `rf24_open_reading_pipe`. -/
def child_pipe_enable : List Nat :=
  [1 <<< ERX_P0, 1 <<< ERX_P1, 1 <<< ERX_P2, 1 <<< ERX_P3, 1 <<< ERX_P4, 1 <<< ERX_P5]

/-- `rf24_open_reading_pipe`.  A lookup past the end of one of the three
6-entry tables has no defined result: the function then yields `none`. -/
def rf24_open_reading_pipe (c : Chip σ) (r : rf24) (w : World σ) (child : Nat)
    (address : Nat → Nat) : Option (World σ × rf24) :=
  let r := if child % 256 = 0 then
      { r with pipe0_reading_address := (List.range 5).map (fun i => address i % 256) }
    else r
  if child % 256 ≤ 6 then
    match child_pipe.get? (child % 256), child_payload_size.get? (child % 256),
        child_pipe_enable.get? (child % 256) with
    | some pipe, some pw, some en =>
      let w := if child % 256 < 2 then (rf24_writeout_register c w pipe address 5).1
        else (rf24_writeout_register c w pipe address 1).1
      let w := (rf24_write_register c w pw r.payload_size).1
      let a := rf24_read_register c w EN_RXADDR
      some ((rf24_write_register c a.1 EN_RXADDR (a.2 ||| en)).1, r)
    | _, _, _ => none
  else some (w, r)

/-! ## Configuration -/

/-- `rf24_set_channel`. -/
def rf24_set_channel (c : Chip σ) (w : World σ) (channel : Nat) : World σ :=
  let max_channel := 127
  (rf24_write_register c w RF_CH (min_t_u8 channel max_channel)).1

/-- `rf24_set_payload_size`. -/
def rf24_set_payload_size (r : rf24) (size : Nat) : rf24 :=
  let max_payload_size := 32
  { r with payload_size := min_t_u8 size max_payload_size }

/-- `write_feature`; the `dbg` lines print nothing (`DEBUG_LEVEL` is not defined). -/
def write_feature (c : Chip σ) (w : World σ) (v : Nat) : World σ :=
  let w := (rf24_write_register c w FEATURE v).1
  let a := rf24_read_register c w FEATURE
  let w := if a.2 = 0 then
      let w := rf24_toggle_features c a.1
      (rf24_write_register c w FEATURE v).1
    else a.1
  let b := rf24_read_register c w FEATURE
  if b.2 = 0 then panic b.1 else b.1

/-! ## Transmit engine -/

/-- `rf24_start_write`; `~(1<<PRIM_RX)` narrowed to the byte that is written. -/
def rf24_start_write (c : Chip σ) (r : rf24) (w : World σ) (buf : Nat → Nat) (len : Nat) :
    World σ :=
  let a := rf24_read_register c w CONFIG
  let w := (rf24_write_register c a.1 CONFIG
    ((a.2 ||| (1 <<< PWR_UP)) &&& (255 ^^^ (1 <<< PRIM_RX)))).1
  let w := delay_us c w 150
  let w := (rf24_write_payload c r w buf len).1
  let w := ce c w 1
  let w := delay_us c w 15
  ce c w 0

/-- The `do { ... } while` poll loop of `rf24_write`, entered with the value of
`timeout`; returns the last `status`.  The body runs first; the loop goes on
while neither TX_DS nor MAX_RT is set in `status` and `timeout--` is non-zero. -/
def rf24_write_poll (c : Chip σ) : Nat → World σ → World σ × Nat
  | timeout, w0 =>
    let w := delay_ms c w0 1
    let a := rf24_readout_register c w OBSERVE_TX (fun _ => 0) 1
    if a.2.1 &&& ((1 <<< TX_DS) ||| (1 <<< MAX_RT)) = 0 then
      match timeout with
      | 0 => (a.1, a.2.1)
      | t + 1 => rf24_write_poll c t a.1
    else (a.1, a.2.1)

/-- `rf24_write`: returns the device instance and `ret`. -/
def rf24_write (c : Chip σ) (r : rf24) (w : World σ) (buf : Nat → Nat) (len : Nat) :
    World σ × rf24 × Nat :=
  let timeout := 500
  let w := rf24_start_write c r w buf len
  let p := rf24_write_poll c timeout w
  let h := rf24_what_happened c p.1
  let ret := h.2.1
  let ack_payload_available := h.2.2.2
  let a := if ack_payload_available ≠ 0 then
      let d := rf24_get_dynamic_payload_size c h.1
      (d.1, { r with ack_payload_length := d.2 })
    else (h.1, r)
  let w := rf24_power_down c a.1
  let w := (rf24_flush_tx c w).1
  (w, a.2, ret)

/-! ## Configuration: retries, PA level, data rate, CRC, bring-up -/

/-- The C expression `x & ~m` on an unsigned field, written without a width:
the bits of `m` are removed from `x`. -/
def clear_bits (x m : Nat) : Nat :=
  x ^^^ (x &&& m)

/-- `rf24_set_retries`. -/
def rf24_set_retries (c : Chip σ) (w : World σ) (delay count : Nat) : World σ :=
  (rf24_write_register c w SETUP_RETR
    ((((delay % 256) &&& 0xf) <<< ARD) ||| (((count % 256) &&& 0xf) <<< ARC))).1

/-- `rf24_set_pa_level`; `setup` is a `uint8_t`. -/
def rf24_set_pa_level (c : Chip σ) (w : World σ) (level : Nat) : World σ :=
  let a := rf24_read_register c w RF_SETUP
  let setup := a.2 &&& (255 ^^^ ((1 <<< RF_PWR_LOW) ||| (1 <<< RF_PWR_HIGH)))
  let setup :=
    if level = RF24_PA_MAX then setup ||| ((1 <<< RF_PWR_LOW) ||| (1 <<< RF_PWR_HIGH))
    else if level = RF24_PA_HIGH then setup ||| (1 <<< RF_PWR_HIGH)
    else if level = RF24_PA_LOW then setup ||| (1 <<< RF_PWR_LOW)
    else if level = RF24_PA_MIN then setup
    else if level = RF24_PA_ERROR then setup ||| ((1 <<< RF_PWR_LOW) ||| (1 <<< RF_PWR_HIGH))
    else setup
  (rf24_write_register c a.1 RF_SETUP setup).1

/-- `rf24_get_pa_level`. -/
def rf24_get_pa_level (c : Chip σ) (w : World σ) : World σ × Nat :=
  let a := rf24_read_register c w RF_SETUP
  let power := a.2 &&& ((1 <<< RF_PWR_LOW) ||| (1 <<< RF_PWR_HIGH))
  if power = ((1 <<< RF_PWR_LOW) ||| (1 <<< RF_PWR_HIGH)) then (a.1, RF24_PA_MAX)
  else if power = (1 <<< RF_PWR_HIGH) then (a.1, RF24_PA_HIGH)
  else if power = (1 <<< RF_PWR_LOW) then (a.1, RF24_PA_LOW)
  else (a.1, RF24_PA_MIN)

/-- `rf24_set_data_rate`: returns the device instance and `result`. -/
def rf24_set_data_rate (c : Chip σ) (r : rf24) (w : World σ) (speed : Nat) :
    World σ × rf24 × Nat :=
  let a := rf24_read_register c w RF_SETUP
  let r := { r with flags := clear_bits r.flags RF24_WIDE_BAND }
  let setup := a.2 &&& (255 ^^^ ((1 <<< RF_DR_LOW) ||| (1 <<< RF_DR_HIGH)))
  let rs : rf24 × Nat :=
    if speed = RF24_250KBPS then
      ({ r with flags := clear_bits r.flags RF24_WIDE_BAND }, setup ||| (1 <<< RF_DR_LOW))
    else if speed = RF24_2MBPS then
      ({ r with flags := r.flags ||| RF24_WIDE_BAND }, setup ||| (1 <<< RF_DR_HIGH))
    else
      ({ r with flags := r.flags ||| RF24_WIDE_BAND }, setup)
  let w := (rf24_write_register c a.1 RF_SETUP rs.2).1
  let b := rf24_read_register c w RF_SETUP
  if b.2 = rs.2 then (b.1, rs.1, 1)
  else (b.1, { rs.1 with flags := clear_bits rs.1.flags RF24_WIDE_BAND }, 0)

/-- `rf24_get_data_rate`. -/
def rf24_get_data_rate (c : Chip σ) (w : World σ) : World σ × Nat :=
  let a := rf24_read_register c w RF_SETUP
  let dr := a.2 &&& ((1 <<< RF_DR_LOW) ||| (1 <<< RF_DR_HIGH))
  if dr = (1 <<< RF_DR_LOW) then (a.1, RF24_250KBPS)
  else if dr = (1 <<< RF_DR_HIGH) then (a.1, RF24_2MBPS)
  else (a.1, RF24_1MBPS)

/-- `rf24_set_crc_length`; `config` is a `uint8_t`. -/
def rf24_set_crc_length (c : Chip σ) (w : World σ) (length : Nat) : World σ :=
  let a := rf24_read_register c w CONFIG
  let config := a.2 &&& (255 ^^^ ((1 <<< CRCO) ||| (1 <<< EN_CRC)))
  let config :=
    if length = RF24_CRC_DISABLED then config
    else if length = RF24_CRC_8 then config ||| (1 <<< EN_CRC)
    else (config ||| (1 <<< EN_CRC)) ||| (1 <<< CRCO)
  (rf24_write_register c a.1 CONFIG config).1

/-- `rf24_init`: returns the device instance after bring-up. -/
def rf24_init (c : Chip σ) (r : rf24) (w : World σ) : World σ × rf24 :=
  let r := { r with flags := RF24_WIDE_BAND }
  let r := { r with payload_size := 32 }
  let r := { r with pipe0_reading_address := (List.range 5).map (fun _ => 0) }
  let r := { r with ack_payload_length := 0 }
  let w := ce c w 0
  let w := delay_ms c w 5
  let w := (rf24_write_register c w SETUP_RETR ((0b0100 <<< ARD) ||| (0b1111 <<< ARC))).1
  let w := rf24_set_pa_level c w RF24_PA_MAX
  let d := rf24_set_data_rate c r w RF24_250KBPS
  let r := if d.2.2 ≠ 0 then { d.2.1 with flags := d.2.1.flags ||| RF24_P_VARIANT } else d.2.1
  let e := rf24_set_data_rate c r d.1 RF24_1MBPS
  let w := rf24_set_crc_length c e.1 RF24_CRC_16
  let w := (rf24_write_register c w DYNPD 0).1
  let w := (rf24_write_register c w STATUS ((1 <<< RX_DR) ||| (1 <<< TX_DS) ||| (1 <<< MAX_RT))).1
  let w := rf24_set_channel c w 76
  let w := (rf24_flush_rx c w).1
  let w := (rf24_flush_tx c w).1
  (w, e.2.1)

/-- `rf24_available`; `pipe_num` is `none` for a null pointer, else the byte it
points to.  Returns `result` and the byte behind `pipe_num` after the call. -/
def rf24_available (c : Chip σ) (w : World σ) (pipe_num : Option Nat) :
    World σ × Nat × Option Nat :=
  let a := rf24_get_status c w
  let status := a.2
  let result := status &&& (1 <<< RX_DR)
  if result ≠ 0 then
    let pipe_num := pipe_num.map (fun _ => (status >>> RX_P_NO) &&& 0b111)
    let w := (rf24_write_register c a.1 STATUS (1 <<< RX_DR)).1
    let w := if status &&& (1 <<< TX_DS) ≠ 0 then
        (rf24_write_register c w STATUS (1 <<< TX_DS)).1
      else w
    (w, result, pipe_num)
  else (a.1, result, pipe_num)

/-! ## Power-up, per-pipe auto-ack, dynamic payloads, operation sequences -/

/-- `rf24_power_up`. -/
def rf24_power_up (c : Chip σ) (w : World σ) : World σ :=
  let a := rf24_read_register c w CONFIG
  (rf24_write_register c a.1 CONFIG (a.2 ||| (1 <<< PWR_UP))).1

/-- `rf24_set_pipe_auto_ack`; `en_aa` is a `uint8_t`, `enable` an `int`. -/
def rf24_set_pipe_auto_ack (c : Chip σ) (w : World σ) (pipe enable : Nat) : World σ :=
  if pipe % 256 ≤ 6 then
    let a := rf24_read_register c w EN_AA
    let en_aa :=
      if enable ≠ 0 then (a.2 ||| (1 <<< (pipe % 256))) % 256
      else a.2 &&& (255 ^^^ (1 <<< (pipe % 256)))
    (rf24_write_register c a.1 EN_AA en_aa).1
  else w

/-- `rf24_enable_dynamic_payloads`; the fatal-failure hook of `write_feature`
is recorded in the trace and the function goes on. -/
def rf24_enable_dynamic_payloads (c : Chip σ) (r : rf24) (w : World σ) : World σ × rf24 :=
  let a := rf24_read_register c w FEATURE
  let w := write_feature c a.1 (a.2 ||| (1 <<< EN_DPL))
  let b := rf24_read_register c w DYNPD
  let w := (rf24_write_register c b.1 DYNPD
    (b.2 ||| (1 <<< DPL_P5) ||| (1 <<< DPL_P4) ||| (1 <<< DPL_P3) ||| (1 <<< DPL_P2) |||
      (1 <<< DPL_P1) ||| (1 <<< DPL_P0))).1
  (w, { r with flags := r.flags ||| RF24_DYNAMIC_PAYLOAD })

/-- The operations of `rf24.c` that assign a field of the device instance
(`rf24_init`, `rf24_set_payload_size`, `rf24_open_reading_pipe`,
`rf24_set_data_rate`, `rf24_write`, `rf24_enable_dynamic_payloads`), and
`transport` for every other operation: those only act on the transport. -/
inductive DriverOp (σ : Type) where
  | init
  | set_payload_size (size : Nat)
  | open_reading_pipe (child : Nat) (address : Nat → Nat)
  | set_data_rate (speed : Nat)
  | write (buf : Nat → Nat) (len : Nat)
  | enable_dynamic_payloads
  | transport (f : World σ → World σ)

/-- One driver operation applied to the world and the device instance; `none`
when the operation has no defined result. -/
def applyOp (c : Chip σ) : DriverOp σ → World σ × rf24 → Option (World σ × rf24)
  | DriverOp.init, s => some (rf24_init c s.2 s.1)
  | DriverOp.set_payload_size size, s => some (s.1, rf24_set_payload_size s.2 size)
  | DriverOp.open_reading_pipe child address, s => rf24_open_reading_pipe c s.2 s.1 child address
  | DriverOp.set_data_rate speed, s =>
    some ((rf24_set_data_rate c s.2 s.1 speed).1, (rf24_set_data_rate c s.2 s.1 speed).2.1)
  | DriverOp.write buf len, s =>
    some ((rf24_write c s.2 s.1 buf len).1, (rf24_write c s.2 s.1 buf len).2.1)
  | DriverOp.enable_dynamic_payloads, s => some (rf24_enable_dynamic_payloads c s.2 s.1)
  | DriverOp.transport f, s => some (f s.1, s.2)

/-- A sequence of driver operations, applied in order. -/
def runOps (c : Chip σ) : List (DriverOp σ) → World σ × rf24 → Option (World σ × rf24)
  | [], s => some s
  | op :: ops, s =>
    match applyOp c op s with
    | some s1 => runOps c ops s1
    | none => none

/-! ## Chip models used to state the claims -/

/-- State of a chip model that stores register writes: the register file
(register address, byte index), the command byte of the frame in progress
(`none` right after chip-select goes low) and the number of data bytes
exchanged in that frame. -/
structure RegChip where
  regs : Nat → Nat → Nat
  cmd : Option Nat
  idx : Nat

/-- A chip model that stores register writes.  The first byte after
chip-select is the command and is answered with the STATUS register; after
`W_REGISTER | reg` every data byte is stored in `reg`, after `R_REGISTER | reg`
every exchange answers the next stored byte of `reg`; other commands store
nothing. -/
def regChip : Chip RegChip where
  csn s _ := { s with cmd := none, idx := 0 }
  ce s _ := s
  delay_ms s _ := s
  delay_us s _ := s
  spi_xfer s b :=
    match s.cmd with
    | none => ({ s with cmd := some b, idx := 0 }, s.regs STATUS 0)
    | some k =>
      if k / 32 = 1 then
        ({ s with
            regs := fun reg i => if reg = k % 32 ∧ i = s.idx then b else s.regs reg i,
            idx := s.idx + 1 }, 0)
      else if k / 32 = 0 then
        ({ s with idx := s.idx + 1 }, s.regs (k % 32) s.idx)
      else ({ s with idx := s.idx + 1 }, 0)

/-- A stateless mock chip that answers the byte `k` to every exchange. -/
def constChip (k : Nat) : Chip Unit where
  csn _ _ := ()
  ce _ _ := ()
  delay_ms _ _ := ()
  delay_us _ _ := ()
  spi_xfer _ _ := ((), k)

/-- The chip states that the platform can be in after any further transport
activity (control lines, byte exchanges, delays) starting from state `s`. -/
inductive Reach (c : Chip σ) (s : σ) : σ → Prop where
  | refl : Reach c s s
  | csn (t : σ) (level : Nat) : Reach c s t → Reach c s (c.csn t level)
  | ce (t : σ) (level : Nat) : Reach c s t → Reach c s (c.ce t level)
  | spi_xfer (t : σ) (b : Nat) : Reach c s t → Reach c s (c.spi_xfer t b).1
  | delay_ms (t : σ) (n : Nat) : Reach c s t → Reach c s (c.delay_ms t n)
  | delay_us (t : σ) (n : Nat) : Reach c s t → Reach c s (c.delay_us t n)

/-- The status byte the chip in state `s` answers to the command byte `b` of a
frame opened now (chip-select low, then the first exchange). -/
def statusAt (c : Chip σ) (s : σ) (b : Nat) : Nat :=
  (c.spi_xfer (c.csn s 0) (b % 256)).2 % 256

/-- The transport events of one iteration of the poll loop of `rf24_write` with
status `st` and OBSERVE_TX value `o`. -/
def pollFrame (st o : Nat) : List Event :=
  [Event.delay_ms 1, Event.csn 0,
   Event.xfer (R_REGISTER ||| (REGISTER_MASK &&& OBSERVE_TX)) st, Event.xfer 255 o, Event.csn 1]

/-- The transport events of a single-byte register write: status `st` answered
to the command byte, data byte `v` answered with `x`. -/
def writeFrame (reg st v x : Nat) : List Event :=
  [Event.csn 0, Event.xfer (W_REGISTER ||| (REGISTER_MASK &&& reg)) st, Event.xfer v x,
   Event.csn 1]

/-- The transport events of a single-byte register read: status `st` answered
to the command byte, register value `v` answered to the dummy byte. -/
def readFrame (reg st v : Nat) : List Event :=
  [Event.csn 0, Event.xfer (R_REGISTER ||| (REGISTER_MASK &&& reg)) st, Event.xfer 255 v,
   Event.csn 1]

/-- The transport events of a command without data (FLUSH_TX, FLUSH_RX, NOP). -/
def commandFrame (cmd st : Nat) : List Event :=
  [Event.csn 0, Event.xfer cmd st, Event.csn 1]

/-- The transport events of the R_RX_PL_WID query answering width `b`. -/
def widthFrame (a b : Nat) : List Event :=
  [Event.csn 0, Event.xfer R_RX_PL_WID a, Event.xfer 255 b, Event.csn 1]

/-- The RF_SETUP byte `rf24_set_data_rate` writes for `speed` after reading `s0`:
both rate bits removed, then RF_DR_LOW for 250 kbps, RF_DR_HIGH for 2 Mbps,
neither otherwise. -/
def dataRateByte (s0 speed : Nat) : Nat :=
  if speed = RF24_250KBPS then
    (s0 &&& (255 ^^^ ((1 <<< RF_DR_LOW) ||| (1 <<< RF_DR_HIGH)))) ||| (1 <<< RF_DR_LOW)
  else if speed = RF24_2MBPS then
    (s0 &&& (255 ^^^ ((1 <<< RF_DR_LOW) ||| (1 <<< RF_DR_HIGH)))) ||| (1 <<< RF_DR_HIGH)
  else s0 &&& (255 ^^^ ((1 <<< RF_DR_LOW) ||| (1 <<< RF_DR_HIGH)))

/-- The flags `rf24_set_data_rate` leaves for `speed` before it verifies the
write: wide-band removed for 250 kbps, added otherwise. -/
def dataRateFlags (flags speed : Nat) : Nat :=
  if speed = RF24_250KBPS then clear_bits (clear_bits flags RF24_WIDE_BAND) RF24_WIDE_BAND
  else clear_bits flags RF24_WIDE_BAND ||| RF24_WIDE_BAND

/-- The RF_SETUP byte `rf24_set_pa_level` writes for `level` after reading `s0`. -/
def paLevelByte (s0 level : Nat) : Nat :=
  if level = RF24_PA_MAX then
    (s0 &&& (255 ^^^ ((1 <<< RF_PWR_LOW) ||| (1 <<< RF_PWR_HIGH)))) |||
      ((1 <<< RF_PWR_LOW) ||| (1 <<< RF_PWR_HIGH))
  else if level = RF24_PA_HIGH then
    (s0 &&& (255 ^^^ ((1 <<< RF_PWR_LOW) ||| (1 <<< RF_PWR_HIGH)))) ||| (1 <<< RF_PWR_HIGH)
  else if level = RF24_PA_LOW then
    (s0 &&& (255 ^^^ ((1 <<< RF_PWR_LOW) ||| (1 <<< RF_PWR_HIGH)))) ||| (1 <<< RF_PWR_LOW)
  else if level = RF24_PA_MIN then
    s0 &&& (255 ^^^ ((1 <<< RF_PWR_LOW) ||| (1 <<< RF_PWR_HIGH)))
  else if level = RF24_PA_ERROR then
    (s0 &&& (255 ^^^ ((1 <<< RF_PWR_LOW) ||| (1 <<< RF_PWR_HIGH)))) |||
      ((1 <<< RF_PWR_LOW) ||| (1 <<< RF_PWR_HIGH))
  else s0 &&& (255 ^^^ ((1 <<< RF_PWR_LOW) ||| (1 <<< RF_PWR_HIGH)))

/-- The CONFIG byte `rf24_set_crc_length` writes for `length` after reading `c0`. -/
def crcByte (c0 length : Nat) : Nat :=
  if length = RF24_CRC_DISABLED then c0 &&& (255 ^^^ ((1 <<< CRCO) ||| (1 <<< EN_CRC)))
  else if length = RF24_CRC_8 then
    (c0 &&& (255 ^^^ ((1 <<< CRCO) ||| (1 <<< EN_CRC)))) ||| (1 <<< EN_CRC)
  else ((c0 &&& (255 ^^^ ((1 <<< CRCO) ||| (1 <<< EN_CRC)))) ||| (1 <<< EN_CRC)) ||| (1 <<< CRCO)

/-- The transport events of a multi-byte register write: status `st` answered
to the command byte, then the bytes `outs` sent in order and answered by `rs`. -/
def burstWriteFrame (reg st : Nat) (outs rs : List Nat) : List Event :=
  Event.csn 0 :: Event.xfer (W_REGISTER ||| (REGISTER_MASK &&& reg)) st ::
    (List.zipWith Event.xfer outs rs ++ [Event.csn 1])

/-- The transport events of a multi-byte register read: status `st` answered
to the command byte, then one dummy byte 0xff per reply in `rs`. -/
def burstReadFrame (reg st : Nat) (rs : List Nat) : List Event :=
  Event.csn 0 :: Event.xfer (R_REGISTER ||| (REGISTER_MASK &&& reg)) st ::
    (List.zipWith Event.xfer (List.replicate rs.length 255) rs ++ [Event.csn 1])

/-- The transport events of the payload write: status `st` answered to
W_TX_PAYLOAD, then the bytes `outs` sent in order and answered by `rs`. -/
def payloadFrame (st : Nat) (outs rs : List Nat) : List Event :=
  Event.csn 0 :: Event.xfer W_TX_PAYLOAD st ::
    (List.zipWith Event.xfer outs rs ++ [Event.csn 1])

/-- Scan of a trace for command bytes; the flag says whether chip-select has
just been lowered, so that the next exchange is a command byte. -/
def commandBytesAux : Bool → List Event → List Nat
  | _, [] => []
  | _, Event.csn level :: rest => commandBytesAux (level == 0) rest
  | true, Event.xfer out _ :: rest => out :: commandBytesAux false rest
  | false, Event.xfer _ _ :: rest => commandBytesAux false rest
  | b, Event.ce _ :: rest => commandBytesAux b rest
  | b, Event.delay_ms _ :: rest => commandBytesAux b rest
  | b, Event.delay_us _ :: rest => commandBytesAux b rest
  | b, Event.panic :: rest => commandBytesAux b rest

/-- The command bytes of a trace: the byte sent in the first exchange after
each lowering of chip-select. -/
def commandBytes (tr : List Event) : List Nat :=
  commandBytesAux false tr

/-! ## Theorems -/

/-! ### The storing chip model -/

theorem write_cmd_byte : ∀ reg, reg < 32 →
    (W_REGISTER ||| (REGISTER_MASK &&& reg)) % 256 / 32 = 1 ∧
    (W_REGISTER ||| (REGISTER_MASK &&& reg)) % 256 % 32 = reg := by
  decide

theorem read_cmd_byte : ∀ reg, reg < 32 →
    (R_REGISTER ||| (REGISTER_MASK &&& reg)) % 256 / 32 = 0 ∧
    (R_REGISTER ||| (REGISTER_MASK &&& reg)) % 256 % 32 = reg := by
  decide

/-- Data bytes sent to the storing chip inside a write-register frame land in
the addressed register, one after the other. -/
theorem regChip_xfer_out (n : Nat) : ∀ (w : World RegChip) (buf : Nat → Nat) (j k : Nat),
    w.chip.cmd = some k → k / 32 = 1 →
    (xfer_out regChip n w buf j).chip.cmd = some k ∧
    (xfer_out regChip n w buf j).chip.idx = w.chip.idx + n ∧
    ∀ reg i, (xfer_out regChip n w buf j).chip.regs reg i =
      if reg = k % 32 ∧ w.chip.idx ≤ i ∧ i < w.chip.idx + n then buf (j + (i - w.chip.idx)) % 256
      else w.chip.regs reg i := by
  induction n with
  | zero =>
    intro w buf j k hk _
    refine ⟨by simpa [xfer_out] using hk, by simp [xfer_out], ?_⟩
    intro reg i
    have : ¬ (reg = k % 32 ∧ w.chip.idx ≤ i ∧ i < w.chip.idx + 0) := by omega
    simp only [xfer_out]
    rw [if_neg this]
  | succ n ih =>
    intro w buf j k hk hk1
    have hc : (spi_xfer regChip w (buf j)).1.chip.cmd = some k := by
      simp [spi_xfer, regChip, hk, hk1]
    have hi : (spi_xfer regChip w (buf j)).1.chip.idx = w.chip.idx + 1 := by
      simp [spi_xfer, regChip, hk, hk1]
    have hr : ∀ reg i, (spi_xfer regChip w (buf j)).1.chip.regs reg i =
        if reg = k % 32 ∧ i = w.chip.idx then buf j % 256 else w.chip.regs reg i := by
      intro reg i
      simp [spi_xfer, regChip, hk, hk1]
    obtain ⟨h1, h2, h3⟩ := ih (spi_xfer regChip w (buf j)).1 buf (j + 1) k hc hk1
    refine ⟨by simpa [xfer_out] using h1, by simp only [xfer_out]; omega, ?_⟩
    intro reg i
    simp only [xfer_out]
    rw [h3, hi, hr]
    split_ifs with a1 a2 a3 a4 a5
    all_goals first
      | rfl
      | (exfalso; omega)
      | (congr 2; omega)

/-- A multi-byte register write on the storing chip. -/
theorem regChip_writeout_register (w : World RegChip) (reg : Nat) (buf : Nat → Nat) (len : Nat)
    (hreg : reg < 32) (hlen : len < 256) (r i : Nat) :
    (rf24_writeout_register regChip w reg buf len).1.chip.regs r i =
      if r = reg ∧ i < len then buf i % 256 else w.chip.regs r i := by
  obtain ⟨hk1, hk2⟩ := write_cmd_byte reg hreg
  have hc : (spi_xfer regChip (csn regChip w 0) (W_REGISTER ||| (REGISTER_MASK &&& reg))).1.chip.cmd
      = some ((W_REGISTER ||| (REGISTER_MASK &&& reg)) % 256) := by
    simp [spi_xfer, csn, regChip]
  obtain ⟨-, -, h3⟩ := regChip_xfer_out (len % 256) _ buf 0 _ hc hk1
  have e : (rf24_writeout_register regChip w reg buf len).1.chip.regs r i =
      (xfer_out regChip (len % 256)
        (spi_xfer regChip (csn regChip w 0) (W_REGISTER ||| (REGISTER_MASK &&& reg))).1
        buf 0).chip.regs r i := by
    simp [rf24_writeout_register, csn, regChip]
  rw [e, h3, hk2, Nat.mod_eq_of_lt hlen]
  simp [spi_xfer, csn, regChip]

/-- A single-byte register write on the storing chip. -/
theorem regChip_write_register (w : World RegChip) (reg v : Nat) (hreg : reg < 32) (r i : Nat) :
    (rf24_write_register regChip w reg v).1.chip.regs r i =
      if r = reg ∧ i = 0 then v % 256 else w.chip.regs r i := by
  obtain ⟨hk1, hk2⟩ := write_cmd_byte reg hreg
  simp [rf24_write_register, spi_xfer, csn, regChip, hk1, hk2]

/-- Reading a register leaves the register file of the storing chip alone. -/
theorem regChip_read_register (w : World RegChip) (reg : Nat) (hreg : reg < 32) :
    (rf24_read_register regChip w reg).1.chip.regs = w.chip.regs := by
  obtain ⟨hk1, hk2⟩ := read_cmd_byte reg hreg
  simp [rf24_read_register, spi_xfer, csn, regChip, hk1, hk2]

/-- The flush commands leave the register file of the storing chip alone. -/
theorem regChip_flush (w : World RegChip) :
    (rf24_flush_rx regChip w).1.chip.regs = w.chip.regs ∧
    (rf24_flush_tx regChip w).1.chip.regs = w.chip.regs := by
  simp [rf24_flush_rx, rf24_flush_tx, spi_xfer, csn, regChip]

/-- The control line CE and the delays leave the storing chip alone. -/
theorem regChip_ce_delay (w : World RegChip) (n : Nat) :
    (ce regChip w n).chip = w.chip ∧ (delay_us regChip w n).chip = w.chip ∧
    (delay_ms regChip w n).chip = w.chip :=
  ⟨rfl, rfl, rfl⟩

/-- On the storing chip `rf24_start_listening` leaves the cached pipe-0
address in RX_ADDR_P0. -/
theorem regChip_start_listening (r : rf24) (w : World RegChip) (i : Nat) (hi : i < 5) :
    (rf24_start_listening regChip r w).chip.regs RX_ADDR_P0 i
      = r.pipe0_reading_address.getD i 0 % 256 := by
  simp only [rf24_start_listening, (regChip_ce_delay _ _).1, (regChip_ce_delay _ _).2.1,
    (regChip_flush _).1, (regChip_flush _).2]
  rw [regChip_writeout_register _ _ _ _ (by decide) (by decide)]
  simp [hi]

/-! ### Traces of the primitives -/

theorem csn_trace (c : Chip σ) (w : World σ) (l : Nat) :
    (csn c w l).trace = w.trace ++ [Event.csn l] := rfl

theorem ce_trace (c : Chip σ) (w : World σ) (l : Nat) :
    (ce c w l).trace = w.trace ++ [Event.ce l] := rfl

theorem delay_ms_trace (c : Chip σ) (w : World σ) (n : Nat) :
    (delay_ms c w n).trace = w.trace ++ [Event.delay_ms n] := rfl

theorem delay_us_trace (c : Chip σ) (w : World σ) (n : Nat) :
    (delay_us c w n).trace = w.trace ++ [Event.delay_us n] := rfl

theorem spi_xfer_trace (c : Chip σ) (w : World σ) (d : Nat) :
    (spi_xfer c w d).1.trace = w.trace ++ [Event.xfer (d % 256) (spi_xfer c w d).2] := rfl

/-! ### Traces of the transfer loops, for every chip -/

theorem xfer_out_trace (c : Chip σ) (n : Nat) : ∀ (w : World σ) (buf : Nat → Nat) (i : Nat),
    ∃ rs : List Nat, rs.length = n ∧
      (xfer_out c n w buf i).trace =
        w.trace ++ List.zipWith Event.xfer ((List.range n).map (fun j => buf (i + j) % 256)) rs := by
  induction n with
  | zero => intro w buf i; exact ⟨[], rfl, by simp [xfer_out]⟩
  | succ n ih =>
    intro w buf i
    obtain ⟨rs, hlen, htr⟩ := ih (spi_xfer c w (buf i)).1 buf (i + 1)
    refine ⟨(c.spi_xfer w.chip (buf i % 256)).2 % 256 :: rs, by simp [hlen], ?_⟩
    simp only [xfer_out]
    rw [htr, List.range_succ_eq_map]
    simp [spi_xfer, Function.comp_def, Nat.add_assoc, Nat.add_comm 1]

theorem xfer_fill_trace (c : Chip σ) (n : Nat) : ∀ (w : World σ) (v : Nat),
    ∃ rs : List Nat, rs.length = n ∧
      (xfer_fill c n w v).trace =
        w.trace ++ List.zipWith Event.xfer (List.replicate n (v % 256)) rs := by
  induction n with
  | zero => intro w v; exact ⟨[], rfl, by simp [xfer_fill]⟩
  | succ n ih =>
    intro w v
    obtain ⟨rs, hlen, htr⟩ := ih (spi_xfer c w v).1 v
    refine ⟨(c.spi_xfer w.chip (v % 256)).2 % 256 :: rs, by simp [hlen], ?_⟩
    simp only [xfer_fill]
    rw [htr]
    simp [spi_xfer, List.replicate_succ]

theorem xfer_in_trace (c : Chip σ) (n : Nat) : ∀ (w : World σ) (buf : Nat → Nat) (i : Nat),
    ∃ rs : List Nat, rs.length = n ∧
      (xfer_in c n w buf i).1.trace =
        w.trace ++ List.zipWith Event.xfer (List.replicate n 255) rs ∧
      (∀ j, j < n → (xfer_in c n w buf i).2 (i + j) = rs.getD j 0) ∧
      (∀ k, k < i ∨ i + n ≤ k → (xfer_in c n w buf i).2 k = buf k) := by
  induction n with
  | zero =>
    intro w buf i
    exact ⟨[], rfl, by simp [xfer_in], by intro j hj; omega, by intro k _; simp [xfer_in]⟩
  | succ n ih =>
    intro w buf i
    obtain ⟨rs, hlen, htr, hin, hout⟩ :=
      ih (spi_xfer c w 0xff).1 (Function.update buf i (spi_xfer c w 0xff).2) (i + 1)
    refine ⟨(spi_xfer c w 0xff).2 :: rs, by simp [hlen], ?_, ?_, ?_⟩
    · simp only [xfer_in]
      rw [htr]
      simp [spi_xfer, List.replicate_succ]
    · intro j hj
      simp only [xfer_in]
      cases j with
      | zero =>
        have h0 := hout i (Or.inl (by omega))
        simpa using h0
      | succ j =>
        have := hin j (by omega)
        rw [show i + (j + 1) = i + 1 + j by omega, this]
        simp
    · intro k hk
      simp only [xfer_in]
      rw [hout k (by omega)]
      exact Function.update_noteq (by omega) _ _

/-! ### Register-access frames, for every chip -/

theorem min_t_u8_eq (a b : Nat) (ha : a < 256) (hb : b < 256) : min_t_u8 a b = min a b := by
  unfold min_t_u8
  rw [Nat.mod_eq_of_lt ha, Nat.mod_eq_of_lt hb]
  split_ifs with h
  · exact (Nat.min_eq_left (Nat.le_of_lt h)).symm
  · exact (Nat.min_eq_right (Nat.le_of_not_lt h)).symm

theorem write_cmd_lt (reg : Nat) :
    (W_REGISTER ||| (REGISTER_MASK &&& reg)) % 256 = W_REGISTER ||| (REGISTER_MASK &&& reg) := by
  apply Nat.mod_eq_of_lt
  have h1 : REGISTER_MASK &&& reg < 2 ^ 8 :=
    lt_of_le_of_lt Nat.and_le_left (by decide)
  exact Nat.or_lt_two_pow (by decide) h1

theorem read_cmd_lt (reg : Nat) :
    (R_REGISTER ||| (REGISTER_MASK &&& reg)) % 256 = R_REGISTER ||| (REGISTER_MASK &&& reg) := by
  apply Nat.mod_eq_of_lt
  have h1 : REGISTER_MASK &&& reg < 2 ^ 8 :=
    lt_of_le_of_lt Nat.and_le_left (by decide)
  exact Nat.or_lt_two_pow (by decide) h1

theorem write_register_trace (c : Chip σ) (w : World σ) (reg v : Nat) :
    ∃ x, (rf24_write_register c w reg v).1.trace = w.trace ++
      [Event.csn 0,
       Event.xfer (W_REGISTER ||| (REGISTER_MASK &&& reg)) (rf24_write_register c w reg v).2,
       Event.xfer (v % 256) x, Event.csn 1] := by
  refine ⟨(spi_xfer c (spi_xfer c (csn c w 0) (W_REGISTER ||| (REGISTER_MASK &&& reg))).1 v).2, ?_⟩
  simp only [rf24_write_register, spi_xfer, csn, write_cmd_lt, List.append_assoc,
    List.singleton_append, List.cons_append, List.nil_append]

theorem read_register_trace (c : Chip σ) (w : World σ) (reg : Nat) :
    ∃ st, (rf24_read_register c w reg).1.trace = w.trace ++
      [Event.csn 0, Event.xfer (R_REGISTER ||| (REGISTER_MASK &&& reg)) st,
       Event.xfer 255 (rf24_read_register c w reg).2, Event.csn 1] := by
  refine ⟨(spi_xfer c (csn c w 0) (R_REGISTER ||| (REGISTER_MASK &&& reg))).2, ?_⟩
  simp only [rf24_read_register, spi_xfer, csn, read_cmd_lt, List.append_assoc,
    List.singleton_append, List.cons_append, List.nil_append]

/-- C1: over the chip model that stores register writes, after
`rf24_open_reading_pipe(r, 0, A)`, `rf24_open_writing_pipe(r, B)` and
`rf24_start_listening(r)`, the register RX_ADDR_P0 holds the five bytes of `A`
(so it differs from `B` wherever `B` differs from `A`). -/
theorem pipe0_address_restored (s : RegChip) (tr : List Event) (r : rf24) (A B : Nat → Nat) :
    ∃ w1 r1, rf24_open_reading_pipe regChip r ⟨s, tr⟩ 0 A = some (w1, r1) ∧
      (∀ i, i < 5 →
        (rf24_start_listening regChip r1 (rf24_open_writing_pipe regChip r1 w1 B)).chip.regs
          RX_ADDR_P0 i = A i % 256) ∧
      (∀ i, i < 5 → A i % 256 ≠ B i % 256 →
        (rf24_start_listening regChip r1 (rf24_open_writing_pipe regChip r1 w1 B)).chip.regs
          RX_ADDR_P0 i ≠ B i % 256) := by
  have key : ∀ (w : World RegChip) i, i < 5 →
      (rf24_start_listening regChip
        { r with pipe0_reading_address := (List.range 5).map (fun i => A i % 256) } w).chip.regs
          RX_ADDR_P0 i = A i % 256 := by
    intro w i hi
    rw [regChip_start_listening _ _ _ hi]
    have : i = 0 ∨ i = 1 ∨ i = 2 ∨ i = 3 ∨ i = 4 := by omega
    rcases this with h | h | h | h | h <;> subst h <;> simp [List.range_succ]
  refine ⟨_, { r with pipe0_reading_address := (List.range 5).map (fun i => A i % 256) },
    rfl, ?_, ?_⟩
  · intro i hi
    exact key _ i hi
  · intro i hi hne
    rw [key _ i hi]
    exact hne

/-! ### Payload I/O -/

/-- Trace and status of `rf24_write_payload` for every chip, both modes: one
chip-select frame holding the command byte, the first `data_len` caller bytes
and `blank_len` zero bytes. -/
theorem write_payload_trace (c : Chip σ) (r : rf24) (w : World σ) (buf : Nat → Nat) (len : Nat) :
    ∃ (rs : List Nat),
      rs.length = min_t_u8 len r.payload_size +
        (if rf24_has_dynamic_payload r then 0
          else (r.payload_size + 256 - min_t_u8 len r.payload_size) % 256) ∧
      (rf24_write_payload c r w buf len).1.trace =
        w.trace ++ Event.csn 0 :: Event.xfer W_TX_PAYLOAD (rf24_write_payload c r w buf len).2 ::
          (List.zipWith Event.xfer
            ((List.range (min_t_u8 len r.payload_size)).map (fun i => buf i % 256) ++
              List.replicate (if rf24_has_dynamic_payload r then 0
                else (r.payload_size + 256 - min_t_u8 len r.payload_size) % 256) 0) rs
            ++ [Event.csn 1]) := by
  obtain ⟨rs1, hl1, ht1⟩ := xfer_out_trace c (min_t_u8 len r.payload_size)
    (spi_xfer c (csn c w 0) W_TX_PAYLOAD).1 buf 0
  obtain ⟨rs2, hl2, ht2⟩ := xfer_fill_trace c
    (if rf24_has_dynamic_payload r then 0
      else (r.payload_size + 256 - min_t_u8 len r.payload_size) % 256)
    (xfer_out c (min_t_u8 len r.payload_size) (spi_xfer c (csn c w 0) W_TX_PAYLOAD).1 buf 0) 0
  refine ⟨rs1 ++ rs2, by simp [hl1, hl2], ?_⟩
  have hz : List.zipWith Event.xfer
      ((List.range (min_t_u8 len r.payload_size)).map (fun i => buf i % 256) ++
        List.replicate (if rf24_has_dynamic_payload r then 0
          else (r.payload_size + 256 - min_t_u8 len r.payload_size) % 256) 0) (rs1 ++ rs2) =
      List.zipWith Event.xfer
        ((List.range (min_t_u8 len r.payload_size)).map (fun i => buf i % 256)) rs1 ++
      List.zipWith Event.xfer (List.replicate (if rf24_has_dynamic_payload r then 0
          else (r.payload_size + 256 - min_t_u8 len r.payload_size) % 256) 0) rs2 := by
    apply List.zipWith_append
    simp [hl1]
  rw [hz]
  simp only [rf24_write_payload, csn_trace]
  rw [ht2, ht1, spi_xfer_trace, csn_trace]
  simp [W_TX_PAYLOAD]

/-- C2: with the dynamic-payload flag clear and payload size `p`,
`rf24_write_payload` exchanges, inside one chip-select frame, the W_TX_PAYLOAD
command byte followed by exactly `p` data bytes: the first `min len p` caller
bytes in order, then `p - min len p` zero bytes. -/
theorem write_payload_fixed (c : Chip σ) (r : rf24) (w : World σ) (buf : Nat → Nat) (len : Nat)
    (hdyn : rf24_has_dynamic_payload r = false) (hp : r.payload_size < 256) (hlen : len < 256) :
    ∃ (rs : List Nat), rs.length = r.payload_size ∧
      (rf24_write_payload c r w buf len).1.trace =
        w.trace ++ Event.csn 0 :: Event.xfer W_TX_PAYLOAD (rf24_write_payload c r w buf len).2 ::
          (List.zipWith Event.xfer
            ((List.range (min len r.payload_size)).map (fun i => buf i % 256) ++
              List.replicate (r.payload_size - min len r.payload_size) 0) rs
            ++ [Event.csn 1]) := by
  obtain ⟨rs, hl, ht⟩ := write_payload_trace c r w buf len
  have hm := min_t_u8_eq len r.payload_size hlen hp
  have hb : (r.payload_size + 256 - min len r.payload_size) % 256
      = r.payload_size - min len r.payload_size := by omega
  rw [hdyn, hm] at hl ht
  simp only [Bool.false_eq_true, if_false] at hl ht
  rw [hb] at hl ht
  exact ⟨rs, by omega, ht⟩

/-- Witness of C2: payload size 4, two caller bytes, a chip answering 0. -/
theorem write_payload_fixed_witness :
    (rf24_has_dynamic_payload ⟨0, 4, [], 0⟩ = false ∧ (4 : Nat) < 256 ∧ (2 : Nat) < 256) ∧
    ∃ (rs : List Nat), rs.length = 4 ∧
      (rf24_write_payload (constChip 0) ⟨0, 4, [], 0⟩ ⟨(), []⟩ (fun i => i + 7) 2).1.trace =
        [] ++ Event.csn 0 :: Event.xfer W_TX_PAYLOAD
            (rf24_write_payload (constChip 0) ⟨0, 4, [], 0⟩ ⟨(), []⟩ (fun i => i + 7) 2).2 ::
          (List.zipWith Event.xfer
            ((List.range (min 2 4)).map (fun i => (i + 7) % 256) ++
              List.replicate (4 - min 2 4) 0) rs
            ++ [Event.csn 1]) :=
  ⟨by decide, write_payload_fixed (constChip 0) ⟨0, 4, [], 0⟩ ⟨(), []⟩ (fun i => i + 7) 2
    (by decide) (by decide) (by decide)⟩

/-- C3 (amended): with the dynamic-payload flag set, `rf24_write_payload` sends
after the W_TX_PAYLOAD command byte exactly `min len p` data bytes, the first
caller bytes in order, and no padding byte (so exactly `len` bytes whenever
`len ≤ p`). -/
theorem write_payload_dynamic (c : Chip σ) (r : rf24) (w : World σ) (buf : Nat → Nat) (len : Nat)
    (hdyn : rf24_has_dynamic_payload r = true) (hp : r.payload_size < 256) (hlen : len < 256) :
    ∃ (rs : List Nat), rs.length = min len r.payload_size ∧
      (rf24_write_payload c r w buf len).1.trace =
        w.trace ++ Event.csn 0 :: Event.xfer W_TX_PAYLOAD (rf24_write_payload c r w buf len).2 ::
          (List.zipWith Event.xfer
            ((List.range (min len r.payload_size)).map (fun i => buf i % 256)) rs
            ++ [Event.csn 1]) := by
  obtain ⟨rs, hl, ht⟩ := write_payload_trace c r w buf len
  have hm := min_t_u8_eq len r.payload_size hlen hp
  rw [hdyn, hm] at hl ht
  simp only [if_true, List.replicate_zero, List.append_nil, Nat.add_zero] at hl ht
  exact ⟨rs, hl, ht⟩

/-- Witness of C3 (amended): dynamic mode, payload size 32, three caller bytes. -/
theorem write_payload_dynamic_witness :
    (rf24_has_dynamic_payload ⟨RF24_DYNAMIC_PAYLOAD, 32, [], 0⟩ = true ∧ (32 : Nat) < 256 ∧
      (3 : Nat) < 256) ∧
    ∃ (rs : List Nat), rs.length = min 3 32 ∧
      (rf24_write_payload (constChip 0) ⟨RF24_DYNAMIC_PAYLOAD, 32, [], 0⟩ ⟨(), []⟩
          (fun i => i + 7) 3).1.trace =
        [] ++ Event.csn 0 :: Event.xfer W_TX_PAYLOAD
            (rf24_write_payload (constChip 0) ⟨RF24_DYNAMIC_PAYLOAD, 32, [], 0⟩ ⟨(), []⟩
              (fun i => i + 7) 3).2 ::
          (List.zipWith Event.xfer ((List.range (min 3 32)).map (fun i => (i + 7) % 256)) rs
            ++ [Event.csn 1]) :=
  ⟨by decide, write_payload_dynamic (constChip 0) ⟨RF24_DYNAMIC_PAYLOAD, 32, [], 0⟩ ⟨(), []⟩
    (fun i => i + 7) 3 (by decide) (by decide) (by decide)⟩

/-- C3 (counterexample): dynamic-payload flag set, payload size 8, caller length
16 (within 1..32): only 8 data bytes follow the command byte, not 16. -/
theorem write_payload_dynamic_truncates :
    rf24_has_dynamic_payload ⟨RF24_DYNAMIC_PAYLOAD, 8, [], 0⟩ = true ∧
    (rf24_write_payload (constChip 0) ⟨RF24_DYNAMIC_PAYLOAD, 8, [], 0⟩ ⟨(), []⟩
        (fun i => i + 1) 16).1.trace =
      [Event.csn 0, Event.xfer W_TX_PAYLOAD 0,
       Event.xfer 1 0, Event.xfer 2 0, Event.xfer 3 0, Event.xfer 4 0,
       Event.xfer 5 0, Event.xfer 6 0, Event.xfer 7 0, Event.xfer 8 0,
       Event.csn 1] := by
  decide

/-- Trace, status and buffer of `rf24_read_payload` for every chip, both modes. -/
theorem read_payload_trace (c : Chip σ) (r : rf24) (w : World σ) (buf : Nat → Nat) (len : Nat) :
    ∃ (rs : List Nat),
      rs.length = min_t_u8 len r.payload_size +
        (if rf24_has_dynamic_payload r then 0
          else (r.payload_size + 256 - min_t_u8 len r.payload_size) % 256) ∧
      (rf24_read_payload c r w buf len).1.trace =
        w.trace ++ Event.csn 0 ::
          Event.xfer R_RX_PAYLOAD (rf24_read_payload c r w buf len).2.1 ::
          (List.zipWith Event.xfer (List.replicate rs.length 255) rs ++ [Event.csn 1]) ∧
      (∀ i, i < min_t_u8 len r.payload_size →
        (rf24_read_payload c r w buf len).2.2 i = rs.getD i 0) ∧
      (∀ i, min_t_u8 len r.payload_size ≤ i →
        (rf24_read_payload c r w buf len).2.2 i = buf i) := by
  obtain ⟨rs1, hl1, ht1, hin, hout⟩ := xfer_in_trace c (min_t_u8 len r.payload_size)
    (spi_xfer c (csn c w 0) R_RX_PAYLOAD).1 buf 0
  obtain ⟨rs2, hl2, ht2⟩ := xfer_fill_trace c
    (if rf24_has_dynamic_payload r then 0
      else (r.payload_size + 256 - min_t_u8 len r.payload_size) % 256)
    (xfer_in c (min_t_u8 len r.payload_size) (spi_xfer c (csn c w 0) R_RX_PAYLOAD).1 buf 0).1 0xff
  refine ⟨rs1 ++ rs2, by simp [hl1, hl2], ?_, ?_, ?_⟩
  · have hz : List.zipWith Event.xfer (List.replicate (rs1 ++ rs2).length 255) (rs1 ++ rs2) =
        List.zipWith Event.xfer (List.replicate rs1.length 255) rs1 ++
        List.zipWith Event.xfer (List.replicate rs2.length 255) rs2 := by
      rw [List.length_append, List.replicate_add]
      apply List.zipWith_append
      simp
    rw [hz]
    simp only [rf24_read_payload, csn_trace]
    rw [ht2, ht1, spi_xfer_trace, csn_trace, hl1, hl2]
    simp [R_RX_PAYLOAD]
  · intro i hi
    have := hin i hi
    rw [Nat.zero_add] at this
    simp only [rf24_read_payload]
    rw [this, List.getD_append _ _ _ _ (by omega)]
  · intro i hi
    simp only [rf24_read_payload]
    exact hout i (Or.inr (by omega))

/-- C4: with the dynamic-payload flag clear and payload size `p`,
`rf24_read_payload` exchanges the R_RX_PAYLOAD command byte and then exactly
`p` dummy bytes; the first `min len p` replies are stored in the caller's
buffer in order, the others are dropped, and the buffer is untouched from
index `min len p` on. -/
theorem read_payload_fixed (c : Chip σ) (r : rf24) (w : World σ) (buf : Nat → Nat) (len : Nat)
    (hdyn : rf24_has_dynamic_payload r = false) (hp : r.payload_size < 256) (hlen : len < 256) :
    ∃ (rs : List Nat), rs.length = r.payload_size ∧
      (rf24_read_payload c r w buf len).1.trace =
        w.trace ++ Event.csn 0 ::
          Event.xfer R_RX_PAYLOAD (rf24_read_payload c r w buf len).2.1 ::
          (List.zipWith Event.xfer (List.replicate r.payload_size 255) rs ++ [Event.csn 1]) ∧
      (∀ i, i < min len r.payload_size →
        (rf24_read_payload c r w buf len).2.2 i = rs.getD i 0) ∧
      (∀ i, min len r.payload_size ≤ i →
        (rf24_read_payload c r w buf len).2.2 i = buf i) := by
  obtain ⟨rs, hl, ht, hin, hout⟩ := read_payload_trace c r w buf len
  have hm := min_t_u8_eq len r.payload_size hlen hp
  rw [hdyn, hm] at hl
  simp only [Bool.false_eq_true, if_false] at hl
  have hl' : rs.length = r.payload_size := by omega
  rw [hm] at hin hout
  rw [hl'] at ht
  exact ⟨rs, hl', ht, hin, hout⟩

/-- Witness of C4: payload size 4, caller length 2, a chip answering 9. -/
theorem read_payload_fixed_witness :
    (rf24_has_dynamic_payload ⟨0, 4, [], 0⟩ = false ∧ (4 : Nat) < 256 ∧ (2 : Nat) < 256) ∧
    ∃ (rs : List Nat), rs.length = 4 ∧
      (rf24_read_payload (constChip 9) ⟨0, 4, [], 0⟩ ⟨(), []⟩ (fun _ => 0) 2).1.trace =
        [] ++ Event.csn 0 ::
          Event.xfer R_RX_PAYLOAD
            (rf24_read_payload (constChip 9) ⟨0, 4, [], 0⟩ ⟨(), []⟩ (fun _ => 0) 2).2.1 ::
          (List.zipWith Event.xfer (List.replicate 4 255) rs ++ [Event.csn 1]) ∧
      (∀ i, i < min 2 4 →
        (rf24_read_payload (constChip 9) ⟨0, 4, [], 0⟩ ⟨(), []⟩ (fun _ => 0) 2).2.2 i
          = rs.getD i 0) ∧
      (∀ i, min 2 4 ≤ i →
        (rf24_read_payload (constChip 9) ⟨0, 4, [], 0⟩ ⟨(), []⟩ (fun _ => 0) 2).2.2 i
          = (fun _ => 0) i) :=
  ⟨by decide, read_payload_fixed (constChip 9) ⟨0, 4, [], 0⟩ ⟨(), []⟩ (fun _ => 0) 2
    (by decide) (by decide) (by decide)⟩

theorem mem_zipWith_dummy (e : Event) (rs : List Nat) : ∀ n : Nat,
    e ∈ List.zipWith Event.xfer (List.replicate n 255) rs → ∃ x, e = Event.xfer 255 x := by
  induction rs with
  | nil => intro n h; simp at h
  | cons a rs ih =>
    intro n h
    cases n with
    | zero => simp at h
    | succ n =>
      rw [List.replicate_succ, List.zipWith_cons_cons, List.mem_cons] at h
      rcases h with h | h
      · exact ⟨a, h⟩
      · exact ih n h

/-- C5 (amended): with the dynamic-payload flag set, `rf24_read` consumes from
the chip exactly `min len p` payload bytes (caller length capped by the
configured size) and then reads FIFO_STATUS; it never sends the R_RX_PL_WID
query, so the length the chip would report plays no part. -/
theorem read_dynamic (c : Chip σ) (r : rf24) (w : World σ) (buf : Nat → Nat) (len : Nat)
    (hdyn : rf24_has_dynamic_payload r = true) (hp : r.payload_size < 256) (hlen : len < 256) :
    ∃ (rs : List Nat) (st st2 f : Nat) (emitted : List Event),
      rs.length = min len r.payload_size ∧
      (rf24_read c r w buf len).1.trace = w.trace ++ emitted ∧
      emitted = Event.csn 0 :: Event.xfer R_RX_PAYLOAD st ::
          (List.zipWith Event.xfer (List.replicate (min len r.payload_size) 255) rs ++
            [Event.csn 1, Event.csn 0,
             Event.xfer (R_REGISTER ||| (REGISTER_MASK &&& FIFO_STATUS)) st2,
             Event.xfer 255 f, Event.csn 1]) ∧
      (rf24_read c r w buf len).2.1 = f &&& (1 <<< RX_EMPTY) ∧
      (∀ x, Event.xfer R_RX_PL_WID x ∉ emitted) := by
  obtain ⟨rs, hl, ht, -, -⟩ := read_payload_trace c r w buf len
  have hm := min_t_u8_eq len r.payload_size hlen hp
  rw [hdyn, hm] at hl
  simp only [if_true, Nat.add_zero] at hl
  rw [hl] at ht
  obtain ⟨st2, hr⟩ := read_register_trace c (rf24_read_payload c r w buf len).1 FIFO_STATUS
  refine ⟨rs, (rf24_read_payload c r w buf len).2.1, st2,
    (rf24_read_register c (rf24_read_payload c r w buf len).1 FIFO_STATUS).2,
    _, hl, ?_, rfl, rfl, ?_⟩
  · simp only [rf24_read]
    rw [hr, ht]
    simp
  · intro x hx
    simp only [List.mem_cons, List.mem_append, List.mem_singleton, List.not_mem_nil] at hx
    rcases hx with hx | hx | hx | hx | hx | hx | hx | hx
    · cases hx
    · exact absurd (Event.xfer.inj hx).1 (by decide)
    · obtain ⟨y, hy⟩ := mem_zipWith_dummy _ _ _ hx
      exact absurd (Event.xfer.inj hy).1 (by decide)
    · cases hx
    · cases hx
    · exact absurd (Event.xfer.inj hx).1 (by decide)
    · exact absurd (Event.xfer.inj hx).1 (by decide)
    · rcases hx with hx | hx
      · cases hx
      · exact hx

/-- Witness of C5 (amended): dynamic mode, payload size 8, caller length 8. -/
theorem read_dynamic_witness :
    (rf24_has_dynamic_payload ⟨RF24_DYNAMIC_PAYLOAD, 8, [], 0⟩ = true ∧ (8 : Nat) < 256 ∧
      (8 : Nat) < 256) ∧
    ∃ (rs : List Nat) (st st2 f : Nat) (emitted : List Event),
      rs.length = min 8 8 ∧
      (rf24_read (constChip 3) ⟨RF24_DYNAMIC_PAYLOAD, 8, [], 0⟩ ⟨(), []⟩ (fun _ => 0) 8).1.trace
        = [] ++ emitted ∧
      emitted = Event.csn 0 :: Event.xfer R_RX_PAYLOAD st ::
          (List.zipWith Event.xfer (List.replicate (min 8 8) 255) rs ++
            [Event.csn 1, Event.csn 0,
             Event.xfer (R_REGISTER ||| (REGISTER_MASK &&& FIFO_STATUS)) st2,
             Event.xfer 255 f, Event.csn 1]) ∧
      (rf24_read (constChip 3) ⟨RF24_DYNAMIC_PAYLOAD, 8, [], 0⟩ ⟨(), []⟩ (fun _ => 0) 8).2.1
        = f &&& (1 <<< RX_EMPTY) ∧
      (∀ x, Event.xfer R_RX_PL_WID x ∉ emitted) :=
  ⟨by decide, read_dynamic (constChip 3) ⟨RF24_DYNAMIC_PAYLOAD, 8, [], 0⟩ ⟨(), []⟩
    (fun _ => 0) 8 (by decide) (by decide) (by decide)⟩

/-- C5 (counterexample): dynamic-payload flag set, payload size 8, caller length
8, and a chip that reports the width 3 through R_RX_PL_WID: `rf24_read` still
consumes 8 payload bytes, not 3, and sends no R_RX_PL_WID query. -/
theorem read_dynamic_ignores_reported_width :
    rf24_has_dynamic_payload ⟨RF24_DYNAMIC_PAYLOAD, 8, [], 0⟩ = true ∧
    (rf24_get_dynamic_payload_size (constChip 3) ⟨(), []⟩).2 = 3 ∧
    (rf24_read (constChip 3) ⟨RF24_DYNAMIC_PAYLOAD, 8, [], 0⟩ ⟨(), []⟩ (fun _ => 0) 8).1.trace =
      [Event.csn 0, Event.xfer R_RX_PAYLOAD 3,
       Event.xfer 255 3, Event.xfer 255 3, Event.xfer 255 3, Event.xfer 255 3,
       Event.xfer 255 3, Event.xfer 255 3, Event.xfer 255 3, Event.xfer 255 3,
       Event.csn 1,
       Event.csn 0, Event.xfer (R_REGISTER ||| (REGISTER_MASK &&& FIFO_STATUS)) 3,
       Event.xfer 255 3, Event.csn 1] := by
  decide

/-! ### Channel setter -/

/-- C10: for every channel value `ch` in 0..255, `rf24_set_channel` performs
exactly one register write, to RF_CH, with data byte `min ch 127`. -/
theorem set_channel_clamps (c : Chip σ) (w : World σ) (ch : Nat) (hch : ch < 256) :
    ∃ st x, (rf24_set_channel c w ch).trace = w.trace ++
      [Event.csn 0, Event.xfer (W_REGISTER ||| (REGISTER_MASK &&& RF_CH)) st,
       Event.xfer (min ch 127) x, Event.csn 1] := by
  obtain ⟨x, hx⟩ := write_register_trace c w RF_CH (min_t_u8 ch 127)
  refine ⟨(rf24_write_register c w RF_CH (min_t_u8 ch 127)).2, x, ?_⟩
  have hm : min_t_u8 ch 127 % 256 = min ch 127 := by
    rw [min_t_u8_eq ch 127 hch (by decide)]
    omega
  simp only [rf24_set_channel]
  rw [hx, hm]

/-- Witness of C10: `rf24_set_channel(200)` writes 127 to RF_CH. -/
theorem set_channel_clamps_witness :
    (200 : Nat) < 256 ∧
    ∃ st x, (rf24_set_channel (constChip 0) ⟨(), []⟩ 200).trace = [] ++
      [Event.csn 0, Event.xfer (W_REGISTER ||| (REGISTER_MASK &&& RF_CH)) st,
       Event.xfer (min 200 127) x, Event.csn 1] :=
  ⟨by decide, set_channel_clamps (constChip 0) ⟨(), []⟩ 200 (by decide)⟩

/-! ### Feature register -/

theorem toggle_features_trace (c : Chip σ) (w : World σ) :
    ∃ a b, (rf24_toggle_features c w).trace = w.trace ++
      [Event.csn 0, Event.xfer ACTIVATE a, Event.xfer 0x73 b, Event.csn 1] := by
  refine ⟨(spi_xfer c (csn c w 0) ACTIVATE).2,
    (spi_xfer c (spi_xfer c (csn c w 0) ACTIVATE).1 0x73).2, ?_⟩
  simp only [rf24_toggle_features, csn_trace, spi_xfer_trace, List.append_assoc,
    List.singleton_append, List.cons_append, List.nil_append]
  rfl

/-- C9 (amended): `write_feature` writes `v` to FEATURE and reads FEATURE back;
it sends the unlock sequence (ACTIVATE, then 0x73, in one frame) and rewrites
`v` exactly when that first readback is zero; it then reads FEATURE once more
and signals `panic` exactly when this last readback is zero. -/
theorem write_feature_trace (c : Chip σ) (w : World σ) (v : Nat) :
    ∃ (st0 x0 st1 r1 st2 r2 : Nat) (mid fin : List Event),
      (write_feature c w v).trace = w.trace ++
        [Event.csn 0, Event.xfer (W_REGISTER ||| (REGISTER_MASK &&& FEATURE)) st0,
         Event.xfer (v % 256) x0, Event.csn 1,
         Event.csn 0, Event.xfer (R_REGISTER ||| (REGISTER_MASK &&& FEATURE)) st1,
         Event.xfer 255 r1, Event.csn 1] ++ mid ++
        [Event.csn 0, Event.xfer (R_REGISTER ||| (REGISTER_MASK &&& FEATURE)) st2,
         Event.xfer 255 r2, Event.csn 1] ++ fin ∧
      (r1 = 0 → ∃ a b st3 x3, mid =
        [Event.csn 0, Event.xfer ACTIVATE a, Event.xfer 0x73 b, Event.csn 1,
         Event.csn 0, Event.xfer (W_REGISTER ||| (REGISTER_MASK &&& FEATURE)) st3,
         Event.xfer (v % 256) x3, Event.csn 1]) ∧
      (r1 ≠ 0 → mid = []) ∧
      (r2 = 0 → fin = [Event.panic]) ∧
      (r2 ≠ 0 → fin = []) := by
  obtain ⟨x0, h0⟩ := write_register_trace c w FEATURE v
  obtain ⟨st1, h1⟩ := read_register_trace c (rf24_write_register c w FEATURE v).1 FEATURE
  by_cases hr1 : (rf24_read_register c (rf24_write_register c w FEATURE v).1 FEATURE).2 = 0
  · obtain ⟨a, b, ht⟩ := toggle_features_trace c (rf24_read_register c (rf24_write_register c w FEATURE v).1 FEATURE).1
    obtain ⟨x3, h3⟩ := write_register_trace c (rf24_toggle_features c (rf24_read_register c (rf24_write_register c w FEATURE v).1 FEATURE).1) FEATURE v
    obtain ⟨st2, h2⟩ := read_register_trace c (rf24_write_register c (rf24_toggle_features c (rf24_read_register c (rf24_write_register c w FEATURE v).1 FEATURE).1) FEATURE v).1 FEATURE
    by_cases hr2 : (rf24_read_register c (rf24_write_register c (rf24_toggle_features c (rf24_read_register c (rf24_write_register c w FEATURE v).1 FEATURE).1) FEATURE v).1 FEATURE).2 = 0
    · refine ⟨(rf24_write_register c w FEATURE v).2, x0, st1, (rf24_read_register c (rf24_write_register c w FEATURE v).1 FEATURE).2, st2, (rf24_read_register c (rf24_write_register c (rf24_toggle_features c (rf24_read_register c (rf24_write_register c w FEATURE v).1 FEATURE).1) FEATURE v).1 FEATURE).2,
        [Event.csn 0, Event.xfer ACTIVATE a, Event.xfer 0x73 b, Event.csn 1,
         Event.csn 0, Event.xfer (W_REGISTER ||| (REGISTER_MASK &&& FEATURE)) (rf24_write_register c (rf24_toggle_features c (rf24_read_register c (rf24_write_register c w FEATURE v).1 FEATURE).1) FEATURE v).2,
         Event.xfer (v % 256) x3, Event.csn 1], [Event.panic], ?_,
        fun _ => ⟨a, b, (rf24_write_register c (rf24_toggle_features c (rf24_read_register c (rf24_write_register c w FEATURE v).1 FEATURE).1) FEATURE v).2, x3, rfl⟩,
        fun h => absurd hr1 h, fun _ => rfl, fun h => absurd hr2 h⟩
      simp only [write_feature, hr1, hr2, if_true, panic]
      rw [h2, h3, ht, h1, h0]
      simp [hr1, hr2]
    · refine ⟨(rf24_write_register c w FEATURE v).2, x0, st1, (rf24_read_register c (rf24_write_register c w FEATURE v).1 FEATURE).2, st2, (rf24_read_register c (rf24_write_register c (rf24_toggle_features c (rf24_read_register c (rf24_write_register c w FEATURE v).1 FEATURE).1) FEATURE v).1 FEATURE).2,
        [Event.csn 0, Event.xfer ACTIVATE a, Event.xfer 0x73 b, Event.csn 1,
         Event.csn 0, Event.xfer (W_REGISTER ||| (REGISTER_MASK &&& FEATURE)) (rf24_write_register c (rf24_toggle_features c (rf24_read_register c (rf24_write_register c w FEATURE v).1 FEATURE).1) FEATURE v).2,
         Event.xfer (v % 256) x3, Event.csn 1], [], ?_,
        fun _ => ⟨a, b, (rf24_write_register c (rf24_toggle_features c (rf24_read_register c (rf24_write_register c w FEATURE v).1 FEATURE).1) FEATURE v).2, x3, rfl⟩,
        fun h => absurd hr1 h, fun h => absurd h hr2, fun _ => rfl⟩
      simp only [write_feature, hr1, hr2, if_true, if_false]
      rw [h2, h3, ht, h1, h0]
      simp [hr1, hr2]
  · obtain ⟨st2, h2⟩ := read_register_trace c (rf24_read_register c (rf24_write_register c w FEATURE v).1 FEATURE).1 FEATURE
    by_cases hr2 : (rf24_read_register c (rf24_read_register c (rf24_write_register c w FEATURE v).1 FEATURE).1 FEATURE).2 = 0
    · refine ⟨(rf24_write_register c w FEATURE v).2, x0, st1, (rf24_read_register c (rf24_write_register c w FEATURE v).1 FEATURE).2, st2, (rf24_read_register c (rf24_read_register c (rf24_write_register c w FEATURE v).1 FEATURE).1 FEATURE).2, [], [Event.panic], ?_,
        fun h => absurd h hr1, fun _ => rfl, fun _ => rfl, fun h => absurd hr2 h⟩
      simp only [write_feature, hr1, hr2, if_true, if_false, panic]
      rw [h2, h1, h0]
      simp [hr2]
    · refine ⟨(rf24_write_register c w FEATURE v).2, x0, st1, (rf24_read_register c (rf24_write_register c w FEATURE v).1 FEATURE).2, st2, (rf24_read_register c (rf24_read_register c (rf24_write_register c w FEATURE v).1 FEATURE).1 FEATURE).2, [], [], ?_,
        fun h => absurd h hr1, fun _ => rfl, fun h => absurd h hr2, fun _ => rfl⟩
      simp only [write_feature, hr1, hr2, if_false]
      rw [h2, h1, h0]
      simp [hr2]

/-- C9 (counterexample): a chip whose FEATURE register reads 4 before the write
and still reads 4 after `write_feature(6)`: the write did not take effect
(the readback equals the pre-write value), yet no unlock sequence is sent, the
value is not rewritten and no fatal failure is signalled. -/
theorem write_feature_no_unlock_on_nonzero_readback :
    (rf24_read_register (constChip 4) ⟨(), []⟩ FEATURE).2 = 4 ∧
    (write_feature (constChip 4) ⟨(), []⟩ 6).trace =
      [Event.csn 0, Event.xfer (W_REGISTER ||| (REGISTER_MASK &&& FEATURE)) 4,
       Event.xfer 6 4, Event.csn 1,
       Event.csn 0, Event.xfer (R_REGISTER ||| (REGISTER_MASK &&& FEATURE)) 4,
       Event.xfer 255 4, Event.csn 1,
       Event.csn 0, Event.xfer (R_REGISTER ||| (REGISTER_MASK &&& FEATURE)) 4,
       Event.xfer 255 4, Event.csn 1] := by
  decide

/-! ### Reachable chip states -/

theorem Reach.trans {c : Chip σ} {s t u : σ} (h1 : Reach c s t) (h2 : Reach c t u) :
    Reach c s u := by
  induction h2 with
  | refl => exact h1
  | csn t l _ ih => exact Reach.csn t l ih
  | ce t l _ ih => exact Reach.ce t l ih
  | spi_xfer t b _ ih => exact Reach.spi_xfer t b ih
  | delay_ms t n _ ih => exact Reach.delay_ms t n ih
  | delay_us t n _ ih => exact Reach.delay_us t n ih

theorem reach_xfer_in (c : Chip σ) (s : σ) (n : Nat) : ∀ (w : World σ) (buf : Nat → Nat) (i : Nat),
    Reach c s w.chip → Reach c s (xfer_in c n w buf i).1.chip := by
  induction n with
  | zero => intro w buf i h; exact h
  | succ n ih =>
    intro w buf i h
    exact ih _ _ _ (Reach.spi_xfer _ _ h)

theorem reach_readout_register (c : Chip σ) (s : σ) (w : World σ) (reg : Nat) (buf : Nat → Nat)
    (len : Nat) (h : Reach c s w.chip) :
    Reach c s (rf24_readout_register c w reg buf len).1.chip :=
  Reach.csn _ _ (reach_xfer_in c s _ _ _ _ (Reach.spi_xfer _ _ (Reach.csn _ _ h)))

theorem reach_write_register (c : Chip σ) (s : σ) (w : World σ) (reg v : Nat)
    (h : Reach c s w.chip) : Reach c s (rf24_write_register c w reg v).1.chip :=
  Reach.csn _ _ (Reach.spi_xfer _ _ (Reach.spi_xfer _ _ (Reach.csn _ _ h)))

/-! ### Transmit engine -/

theorem status_mask_byte :
    ((1 <<< RX_DR) ||| (1 <<< TX_DS) ||| (1 <<< MAX_RT)) % 256 =
      (1 <<< RX_DR) ||| (1 <<< TX_DS) ||| (1 <<< MAX_RT) := by
  decide

theorem clear_pwr_up_byte (x : Nat) :
    (x &&& (255 ^^^ (1 <<< PWR_UP))) % 256 = x &&& (255 ^^^ (1 <<< PWR_UP)) := by
  apply Nat.mod_eq_of_lt
  have h1 : x &&& (255 ^^^ (1 <<< PWR_UP)) ≤ 255 ^^^ (1 <<< PWR_UP) := Nat.and_le_right
  have h2 : 255 ^^^ (1 <<< PWR_UP) < 256 := by decide
  omega

theorem readout_register_one_trace (c : Chip σ) (w : World σ) (reg : Nat) (buf : Nat → Nat) :
    ∃ o, (rf24_readout_register c w reg buf 1).1.trace = w.trace ++
      [Event.csn 0,
       Event.xfer (R_REGISTER ||| (REGISTER_MASK &&& reg)) (rf24_readout_register c w reg buf 1).2.1,
       Event.xfer 255 o, Event.csn 1] := by
  refine ⟨(spi_xfer c (spi_xfer c (csn c w 0) (R_REGISTER ||| (REGISTER_MASK &&& reg))).1 0xff).2, ?_⟩
  simp only [rf24_readout_register, xfer_in, spi_xfer, csn, read_cmd_lt, List.append_assoc,
    List.singleton_append, List.cons_append, List.nil_append]

theorem readout_register_status (c : Chip σ) (w : World σ) (reg : Nat) (buf : Nat → Nat)
    (len : Nat) :
    (rf24_readout_register c w reg buf len).2.1 =
      statusAt c w.chip (R_REGISTER ||| (REGISTER_MASK &&& reg)) := rfl

theorem write_register_status (c : Chip σ) (w : World σ) (reg v : Nat) :
    (rf24_write_register c w reg v).2 =
      statusAt c w.chip (W_REGISTER ||| (REGISTER_MASK &&& reg)) := rfl

/-- One iteration of the poll loop: the loop stops after it when the status
shows TX_DS or MAX_RT, or when `timeout` is already 0. -/
theorem write_poll_step (c : Chip σ) (t : Nat) (w : World σ) :
    rf24_write_poll c t w =
      if (rf24_readout_register c (delay_ms c w 1) OBSERVE_TX (fun _ => 0) 1).2.1 &&&
          ((1 <<< TX_DS) ||| (1 <<< MAX_RT)) = 0 ∧ t ≠ 0 then
        rf24_write_poll c (t - 1)
          (rf24_readout_register c (delay_ms c w 1) OBSERVE_TX (fun _ => 0) 1).1
      else ((rf24_readout_register c (delay_ms c w 1) OBSERVE_TX (fun _ => 0) 1).1,
        (rf24_readout_register c (delay_ms c w 1) OBSERVE_TX (fun _ => 0) 1).2.1) := by
  cases t with
  | zero => rw [rf24_write_poll]; simp
  | succ t =>
    rw [rf24_write_poll]
    by_cases h : (rf24_readout_register c (delay_ms c w 1) OBSERVE_TX (fun _ => 0) 1).2.1 &&&
          ((1 <<< TX_DS) ||| (1 <<< MAX_RT)) = 0
    · simp [h]
    · simp [h]

theorem power_down_trace (c : Chip σ) (w : World σ) :
    ∃ stc cfg stw xw, (rf24_power_down c w).trace = w.trace ++
      [Event.csn 0, Event.xfer (R_REGISTER ||| (REGISTER_MASK &&& CONFIG)) stc,
       Event.xfer 255 cfg, Event.csn 1,
       Event.csn 0, Event.xfer (W_REGISTER ||| (REGISTER_MASK &&& CONFIG)) stw,
       Event.xfer (cfg &&& (255 ^^^ (1 <<< PWR_UP))) xw, Event.csn 1] := by
  obtain ⟨stc, h1⟩ := read_register_trace c w CONFIG
  obtain ⟨xw, h2⟩ := write_register_trace c (rf24_read_register c w CONFIG).1 CONFIG
    ((rf24_read_register c w CONFIG).2 &&& (255 ^^^ (1 <<< PWR_UP)))
  refine ⟨stc, (rf24_read_register c w CONFIG).2,
    (rf24_write_register c (rf24_read_register c w CONFIG).1 CONFIG
      ((rf24_read_register c w CONFIG).2 &&& (255 ^^^ (1 <<< PWR_UP)))).2, xw, ?_⟩
  simp only [rf24_power_down]
  rw [h2, h1, clear_pwr_up_byte]
  simp

theorem flush_tx_trace (c : Chip σ) (w : World σ) :
    ∃ stf, (rf24_flush_tx c w).1.trace = w.trace ++
      [Event.csn 0, Event.xfer FLUSH_TX stf, Event.csn 1] := by
  refine ⟨(spi_xfer c (csn c w 0) FLUSH_TX).2, ?_⟩
  simp only [rf24_flush_tx, csn_trace, spi_xfer_trace, List.append_assoc,
    List.singleton_append, List.cons_append, List.nil_append]
  rfl

theorem get_dynamic_payload_size_trace (c : Chip σ) (w : World σ) :
    ∃ a, (rf24_get_dynamic_payload_size c w).1.trace = w.trace ++
      [Event.csn 0, Event.xfer R_RX_PL_WID a,
       Event.xfer 255 (rf24_get_dynamic_payload_size c w).2, Event.csn 1] := by
  refine ⟨(spi_xfer c (csn c w 0) R_RX_PL_WID).2, ?_⟩
  simp only [rf24_get_dynamic_payload_size, csn_trace, spi_xfer_trace, List.append_assoc,
    List.singleton_append, List.cons_append, List.nil_append]
  rfl

/-- What `rf24_write` does once the poll loop has ended: the outcome-decoding
STATUS write answered with status `s`, the width query exactly when RX_DR is
set in `s`, the CONFIG read-modify-write clearing PWR_UP, FLUSH_TX; the result
is `s & (1<<TX_DS)`. -/
theorem write_decomp (c : Chip σ) (r : rf24) (w : World σ) (buf : Nat → Nat) (len : Nat)
    (s : Nat)
    (hs : s = statusAt c (rf24_write_poll c 500 (rf24_start_write c r w buf len)).1.chip (W_REGISTER ||| (REGISTER_MASK &&& STATUS))) :
    ∃ (x0 stc cfg stw xw stf : Nat) (mid : List Event),
      (rf24_write c r w buf len).1.trace =
        (rf24_write_poll c 500 (rf24_start_write c r w buf len)).1.trace ++
        [Event.csn 0, Event.xfer (W_REGISTER ||| (REGISTER_MASK &&& STATUS)) s,
         Event.xfer ((1 <<< RX_DR) ||| (1 <<< TX_DS) ||| (1 <<< MAX_RT)) x0, Event.csn 1] ++ mid ++
        [Event.csn 0, Event.xfer (R_REGISTER ||| (REGISTER_MASK &&& CONFIG)) stc,
         Event.xfer 255 cfg, Event.csn 1,
         Event.csn 0, Event.xfer (W_REGISTER ||| (REGISTER_MASK &&& CONFIG)) stw,
         Event.xfer (cfg &&& (255 ^^^ (1 <<< PWR_UP))) xw, Event.csn 1,
         Event.csn 0, Event.xfer FLUSH_TX stf, Event.csn 1] ∧
      (s &&& (1 <<< RX_DR) = 0 → mid = [] ∧ (rf24_write c r w buf len).2.1 = r) ∧
      (s &&& (1 <<< RX_DR) ≠ 0 → ∃ a b, mid =
          [Event.csn 0, Event.xfer R_RX_PL_WID a, Event.xfer 255 b, Event.csn 1] ∧
        (rf24_write c r w buf len).2.1 = { r with ack_payload_length := b }) ∧
      (rf24_write c r w buf len).2.2 = s &&& (1 <<< TX_DS) := by
  have hs' : s = (rf24_write_register c (rf24_write_poll c 500 (rf24_start_write c r w buf len)).1 STATUS ((1 <<< RX_DR) ||| (1 <<< TX_DS) ||| (1 <<< MAX_RT))).2 := hs
  obtain ⟨x0, h0⟩ := write_register_trace c (rf24_write_poll c 500 (rf24_start_write c r w buf len)).1 STATUS ((1 <<< RX_DR) ||| (1 <<< TX_DS) ||| (1 <<< MAX_RT))
  rw [status_mask_byte, ← hs'] at h0
  by_cases hrx : s &&& (1 <<< RX_DR) = 0
  · obtain ⟨stc, cfg, stw, xw, hpd⟩ := power_down_trace c (rf24_write_register c (rf24_write_poll c 500 (rf24_start_write c r w buf len)).1 STATUS ((1 <<< RX_DR) ||| (1 <<< TX_DS) ||| (1 <<< MAX_RT))).1
    obtain ⟨stf, hf⟩ := flush_tx_trace c (rf24_power_down c (rf24_write_register c (rf24_write_poll c 500 (rf24_start_write c r w buf len)).1 STATUS ((1 <<< RX_DR) ||| (1 <<< TX_DS) ||| (1 <<< MAX_RT))).1)
    have e : rf24_write c r w buf len =
        ((rf24_flush_tx c (rf24_power_down c (rf24_write_register c (rf24_write_poll c 500 (rf24_start_write c r w buf len)).1 STATUS ((1 <<< RX_DR) ||| (1 <<< TX_DS) ||| (1 <<< MAX_RT))).1)).1, r, s &&& (1 <<< TX_DS)) := by
      rw [hs'] at hrx ⊢
      simp [rf24_write, rf24_what_happened, hrx]
    refine ⟨x0, stc, cfg, stw, xw, stf, [], ?_, fun _ => ⟨rfl, by rw [e]⟩,
      fun h => absurd hrx h, by rw [e]⟩
    rw [e]
    show (rf24_flush_tx c (rf24_power_down c (rf24_write_register c (rf24_write_poll c 500 (rf24_start_write c r w buf len)).1 STATUS ((1 <<< RX_DR) ||| (1 <<< TX_DS) ||| (1 <<< MAX_RT))).1)).1.trace = _
    rw [hf, hpd, h0]
    simp
  · obtain ⟨a, hd⟩ := get_dynamic_payload_size_trace c (rf24_write_register c (rf24_write_poll c 500 (rf24_start_write c r w buf len)).1 STATUS ((1 <<< RX_DR) ||| (1 <<< TX_DS) ||| (1 <<< MAX_RT))).1
    obtain ⟨stc, cfg, stw, xw, hpd⟩ := power_down_trace c (rf24_get_dynamic_payload_size c (rf24_write_register c (rf24_write_poll c 500 (rf24_start_write c r w buf len)).1 STATUS ((1 <<< RX_DR) ||| (1 <<< TX_DS) ||| (1 <<< MAX_RT))).1).1
    obtain ⟨stf, hf⟩ := flush_tx_trace c (rf24_power_down c (rf24_get_dynamic_payload_size c (rf24_write_register c (rf24_write_poll c 500 (rf24_start_write c r w buf len)).1 STATUS ((1 <<< RX_DR) ||| (1 <<< TX_DS) ||| (1 <<< MAX_RT))).1).1)
    have e : rf24_write c r w buf len =
        ((rf24_flush_tx c (rf24_power_down c (rf24_get_dynamic_payload_size c (rf24_write_register c (rf24_write_poll c 500 (rf24_start_write c r w buf len)).1 STATUS ((1 <<< RX_DR) ||| (1 <<< TX_DS) ||| (1 <<< MAX_RT))).1).1)).1,
          { r with ack_payload_length := (rf24_get_dynamic_payload_size c (rf24_write_register c (rf24_write_poll c 500 (rf24_start_write c r w buf len)).1 STATUS ((1 <<< RX_DR) ||| (1 <<< TX_DS) ||| (1 <<< MAX_RT))).1).2 }, s &&& (1 <<< TX_DS)) := by
      rw [hs'] at hrx ⊢
      simp [rf24_write, rf24_what_happened, hrx]
    refine ⟨x0, stc, cfg, stw, xw, stf,
      [Event.csn 0, Event.xfer R_RX_PL_WID a, Event.xfer 255 (rf24_get_dynamic_payload_size c (rf24_write_register c (rf24_write_poll c 500 (rf24_start_write c r w buf len)).1 STATUS ((1 <<< RX_DR) ||| (1 <<< TX_DS) ||| (1 <<< MAX_RT))).1).2, Event.csn 1], ?_,
      fun h => absurd h hrx, fun _ => ⟨a, (rf24_get_dynamic_payload_size c (rf24_write_register c (rf24_write_poll c 500 (rf24_start_write c r w buf len)).1 STATUS ((1 <<< RX_DR) ||| (1 <<< TX_DS) ||| (1 <<< MAX_RT))).1).2, rfl, by rw [e]⟩, by rw [e]⟩
    rw [e]
    show (rf24_flush_tx c (rf24_power_down c (rf24_get_dynamic_payload_size c (rf24_write_register c (rf24_write_poll c 500 (rf24_start_write c r w buf len)).1 STATUS ((1 <<< RX_DR) ||| (1 <<< TX_DS) ||| (1 <<< MAX_RT))).1).1)).1.trace = _
    rw [hf, hpd, hd, h0]
    simp

/-- C8: for every chip behaviour (hence every outcome), after the
outcome-decoding STATUS write (and the width query that follows it when RX_DR
was set) `rf24_write` reads CONFIG, writes it back with only PWR_UP cleared,
and issues FLUSH_TX as its last transaction. -/
theorem write_powers_down_and_flushes (c : Chip σ) (r : rf24) (w : World σ) (buf : Nat → Nat)
    (len : Nat) :
    ∃ (s x0 stc cfg stw xw stf : Nat) (mid : List Event),
      (rf24_write c r w buf len).1.trace =
        (rf24_write_poll c 500 (rf24_start_write c r w buf len)).1.trace ++
        writeFrame STATUS s ((1 <<< RX_DR) ||| (1 <<< TX_DS) ||| (1 <<< MAX_RT)) x0 ++ mid ++
        (readFrame CONFIG stc cfg ++
          writeFrame CONFIG stw (cfg &&& (255 ^^^ (1 <<< PWR_UP))) xw ++
          commandFrame FLUSH_TX stf) ∧
      (mid = [] ∨ ∃ a b, mid = widthFrame a b) := by
  obtain ⟨x0, stc, cfg, stw, xw, stf, mid, ht, h1, h2, -⟩ :=
    write_decomp c r w buf len _ rfl
  refine ⟨statusAt c (rf24_write_poll c 500 (rf24_start_write c r w buf len)).1.chip (W_REGISTER ||| (REGISTER_MASK &&& STATUS)),
    x0, stc, cfg, stw, xw, stf, mid, ?_, ?_⟩
  · rw [ht]
    simp [writeFrame, readFrame, commandFrame]
  · by_cases hrx : statusAt c (rf24_write_poll c 500 (rf24_start_write c r w buf len)).1.chip (W_REGISTER ||| (REGISTER_MASK &&& STATUS)) &&&
        (1 <<< RX_DR) = 0
    · exact Or.inl (h1 hrx).1
    · obtain ⟨a, b, hm, -⟩ := h2 hrx
      exact Or.inr ⟨a, b, hm⟩

theorem max_rt_in_poll_mask (x : Nat) (h : x &&& (1 <<< MAX_RT) ≠ 0) :
    x &&& ((1 <<< TX_DS) ||| (1 <<< MAX_RT)) ≠ 0 := by
  intro h0
  apply h
  have e : (1 <<< MAX_RT) = ((1 <<< TX_DS) ||| (1 <<< MAX_RT)) &&& (1 <<< MAX_RT) := by decide
  rw [e, ← Nat.and_assoc, h0, Nat.zero_and]

theorem pwr_up_cleared (x : Nat) : (x &&& (255 ^^^ (1 <<< PWR_UP))) &&& (1 <<< PWR_UP) = 0 := by
  have e : (255 ^^^ (1 <<< PWR_UP)) &&& (1 <<< PWR_UP) = 0 := by decide
  rw [Nat.and_assoc, e, Nat.and_zero]

/-- C6: if from the first poll onward every status byte the chip answers has
MAX_RT set and TX_DS clear, `rf24_write` runs the poll loop body exactly once
(one 1 ms delay, one OBSERVE_TX read), returns 0, and its last CONFIG write
has PWR_UP clear, followed only by FLUSH_TX. -/
theorem write_max_rt_first_poll (c : Chip σ) (r : rf24) (w : World σ) (buf : Nat → Nat)
    (len : Nat)
    (hst : ∀ s, Reach c (rf24_start_write c r w buf len).chip s → ∀ b,
      statusAt c s b &&& (1 <<< MAX_RT) ≠ 0 ∧ statusAt c s b &&& (1 <<< TX_DS) = 0) :
    ∃ (st o s x0 stc cfg stw xw stf : Nat) (mid : List Event),
      (rf24_write c r w buf len).1.trace =
        (rf24_start_write c r w buf len).trace ++ pollFrame st o ++
        writeFrame STATUS s ((1 <<< RX_DR) ||| (1 <<< TX_DS) ||| (1 <<< MAX_RT)) x0 ++ mid ++
        (readFrame CONFIG stc cfg ++
          writeFrame CONFIG stw (cfg &&& (255 ^^^ (1 <<< PWR_UP))) xw ++
          commandFrame FLUSH_TX stf) ∧
      (mid = [] ∨ ∃ a b, mid = widthFrame a b) ∧
      (cfg &&& (255 ^^^ (1 <<< PWR_UP))) &&& (1 <<< PWR_UP) = 0 ∧
      (rf24_write c r w buf len).2.2 = 0 := by
  have hr1 : Reach c (rf24_start_write c r w buf len).chip (delay_ms c (rf24_start_write c r w buf len) 1).chip :=
    Reach.delay_ms _ _ Reach.refl
  have hexit : (rf24_readout_register c (delay_ms c (rf24_start_write c r w buf len) 1) OBSERVE_TX (fun _ => 0) 1).2.1 &&& ((1 <<< TX_DS) ||| (1 <<< MAX_RT)) ≠ 0 := by
    rw [readout_register_status]
    exact max_rt_in_poll_mask _ (hst _ hr1 _).1
  have hpoll : rf24_write_poll c 500 (rf24_start_write c r w buf len) = ((rf24_readout_register c (delay_ms c (rf24_start_write c r w buf len) 1) OBSERVE_TX (fun _ => 0) 1).1, (rf24_readout_register c (delay_ms c (rf24_start_write c r w buf len) 1) OBSERVE_TX (fun _ => 0) 1).2.1) := by
    rw [write_poll_step, if_neg (fun h => hexit h.1)]
  have hr2 : Reach c (rf24_start_write c r w buf len).chip (rf24_write_poll c 500 (rf24_start_write c r w buf len)).1.chip := by
    rw [hpoll]
    exact reach_readout_register c _ _ _ _ _ hr1
  obtain ⟨o, ho⟩ := readout_register_one_trace c (delay_ms c (rf24_start_write c r w buf len) 1) OBSERVE_TX (fun _ => 0)
  obtain ⟨x0, stc, cfg, stw, xw, stf, mid, ht, h1, h2, hret⟩ :=
    write_decomp c r w buf len _ rfl
  refine ⟨(rf24_readout_register c (delay_ms c (rf24_start_write c r w buf len) 1) OBSERVE_TX (fun _ => 0) 1).2.1, o,
    statusAt c (rf24_write_poll c 500 (rf24_start_write c r w buf len)).1.chip (W_REGISTER ||| (REGISTER_MASK &&& STATUS)),
    x0, stc, cfg, stw, xw, stf, mid, ?_, ?_, pwr_up_cleared cfg, ?_⟩
  · rw [ht, hpoll]
    show (rf24_readout_register c (delay_ms c (rf24_start_write c r w buf len) 1) OBSERVE_TX (fun _ => 0) 1).1.trace ++ _ ++ _ ++ _ = _
    rw [ho, delay_ms_trace]
    simp [writeFrame, readFrame, commandFrame, pollFrame]
  · by_cases hrx : statusAt c (rf24_write_poll c 500 (rf24_start_write c r w buf len)).1.chip
        (W_REGISTER ||| (REGISTER_MASK &&& STATUS)) &&& (1 <<< RX_DR) = 0
    · exact Or.inl (h1 hrx).1
    · obtain ⟨a, b, hm, -⟩ := h2 hrx
      exact Or.inr ⟨a, b, hm⟩
  · rw [hret]
    exact (hst _ hr2 _).2

/-- Witness of C6: a mock chip that answers 0x10 (MAX_RT set, TX_DS clear) to
every exchange. -/
theorem write_max_rt_first_poll_witness :
    (∀ s, Reach (constChip 16) (rf24_start_write (constChip 16) ⟨0, 32, [0, 0, 0, 0, 0], 0⟩ ⟨(), []⟩ (fun i => i + 1) 1).chip s → ∀ b,
      statusAt (constChip 16) s b &&& (1 <<< MAX_RT) ≠ 0 ∧
      statusAt (constChip 16) s b &&& (1 <<< TX_DS) = 0) ∧
    ∃ (st o s x0 stc cfg stw xw stf : Nat) (mid : List Event),
      (rf24_write (constChip 16) ⟨0, 32, [0, 0, 0, 0, 0], 0⟩ ⟨(), []⟩ (fun i => i + 1) 1).1.trace =
        (rf24_start_write (constChip 16) ⟨0, 32, [0, 0, 0, 0, 0], 0⟩ ⟨(), []⟩ (fun i => i + 1) 1).trace ++ pollFrame st o ++
        writeFrame STATUS s ((1 <<< RX_DR) ||| (1 <<< TX_DS) ||| (1 <<< MAX_RT)) x0 ++ mid ++
        (readFrame CONFIG stc cfg ++
          writeFrame CONFIG stw (cfg &&& (255 ^^^ (1 <<< PWR_UP))) xw ++
          commandFrame FLUSH_TX stf) ∧
      (mid = [] ∨ ∃ a b, mid = widthFrame a b) ∧
      (cfg &&& (255 ^^^ (1 <<< PWR_UP))) &&& (1 <<< PWR_UP) = 0 ∧
      (rf24_write (constChip 16) ⟨0, 32, [0, 0, 0, 0, 0], 0⟩ ⟨(), []⟩ (fun i => i + 1) 1).2.2 = 0 :=
  ⟨fun _ _ _ => ⟨(by decide : 16 % 256 &&& (1 <<< MAX_RT) ≠ 0),
      (by decide : 16 % 256 &&& (1 <<< TX_DS) = 0)⟩,
    write_max_rt_first_poll (constChip 16) ⟨0, 32, [0, 0, 0, 0, 0], 0⟩ ⟨(), []⟩ (fun i => i + 1) 1
      (fun _ _ _ => ⟨(by decide : 16 % 256 &&& (1 <<< MAX_RT) ≠ 0),
        (by decide : 16 % 256 &&& (1 <<< TX_DS) = 0)⟩)⟩

theorem silent_poll_body (w : World Unit) :
    (rf24_readout_register (constChip 0) (delay_ms (constChip 0) w 1) OBSERVE_TX (fun _ => 0) 1).1 = ⟨(), w.trace ++ pollFrame 0 0⟩ ∧ (rf24_readout_register (constChip 0) (delay_ms (constChip 0) w 1) OBSERVE_TX (fun _ => 0) 1).2.1 = 0 := by
  constructor
  · simp [rf24_readout_register, xfer_in, spi_xfer, csn, delay_ms, constChip, pollFrame,
      read_cmd_lt]
  · rfl

/-- On a chip that never sets TX_DS or MAX_RT the poll loop entered with
`timeout = t` runs its body `t + 1` times. -/
theorem write_poll_silent (t : Nat) : ∀ w : World Unit,
    rf24_write_poll (constChip 0) t w =
      (⟨(), w.trace ++ (List.replicate (t + 1) (pollFrame 0 0)).flatten⟩, 0) := by
  induction t with
  | zero =>
    intro w
    rw [write_poll_step, (silent_poll_body w).1, (silent_poll_body w).2]
    simp
  | succ t ih =>
    intro w
    rw [write_poll_step, (silent_poll_body w).1, (silent_poll_body w).2]
    have h0 : (0 : Nat) &&& ((1 <<< TX_DS) ||| (1 <<< MAX_RT)) = 0 := by decide
    rw [if_pos ⟨h0, Nat.succ_ne_zero t⟩, Nat.add_sub_cancel, ih]
    simp [List.replicate_succ (pollFrame 0 0) (t + 1)]

/-- On the chip that answers 0 to everything, the part of `rf24_write` after
the poll loop. -/
theorem silent_write_tail (r : rf24) (p : World Unit × Nat) :
    (let h := rf24_what_happened (constChip 0) p.1
     let a := if h.2.2.2 ≠ 0 then
         ((rf24_get_dynamic_payload_size (constChip 0) h.1).1,
          { r with ack_payload_length := (rf24_get_dynamic_payload_size (constChip 0) h.1).2 })
       else (h.1, r)
     ((rf24_flush_tx (constChip 0) (rf24_power_down (constChip 0) a.1)).1, a.2, h.2.1)) =
    (⟨(), p.1.trace ++ (writeFrame STATUS 0 ((1 <<< RX_DR) ||| (1 <<< TX_DS) ||| (1 <<< MAX_RT)) 0 ++
        readFrame CONFIG 0 0 ++ writeFrame CONFIG 0 0 0 ++ commandFrame FLUSH_TX 0)⟩, r, 0) := by
  simp [rf24_what_happened, rf24_write_register, rf24_read_register, rf24_power_down,
    rf24_flush_tx, spi_xfer, csn, constChip, writeFrame, readFrame, commandFrame,
    write_cmd_lt, read_cmd_lt, status_mask_byte, FLUSH_TX]

/-- C7 (the code at the failing input): on a chip that never sets TX_DS or
MAX_RT, `rf24_write` runs the poll loop body 501 times (501 delays of 1 ms,
501 OBSERVE_TX reads), not 500, before it decodes the outcome, and returns 0. -/
theorem write_silent_chip_polls_501 (r : rf24) (buf : Nat → Nat) (len : Nat) :
    (rf24_write (constChip 0) r ⟨(), []⟩ buf len).1.trace =
      (rf24_start_write (constChip 0) r ⟨(), []⟩ buf len).trace ++
      (List.replicate 501 (pollFrame 0 0)).flatten ++
      (writeFrame STATUS 0 ((1 <<< RX_DR) ||| (1 <<< TX_DS) ||| (1 <<< MAX_RT)) 0 ++
        readFrame CONFIG 0 0 ++ writeFrame CONFIG 0 0 0 ++ commandFrame FLUSH_TX 0) ∧
    (rf24_write (constChip 0) r ⟨(), []⟩ buf len).2.2 = 0 := by
  have e : rf24_write (constChip 0) r ⟨(), []⟩ buf len =
      (⟨(), (rf24_write_poll (constChip 0) 500
          (rf24_start_write (constChip 0) r ⟨(), []⟩ buf len)).1.trace ++
        (writeFrame STATUS 0 ((1 <<< RX_DR) ||| (1 <<< TX_DS) ||| (1 <<< MAX_RT)) 0 ++
          readFrame CONFIG 0 0 ++ writeFrame CONFIG 0 0 0 ++ commandFrame FLUSH_TX 0)⟩, r, 0) :=
    silent_write_tail r _
  rw [e, write_poll_silent]
  exact ⟨rfl, rfl⟩

/-! ### PA level and data rate on the storing chip -/

/-- A register read on the storing chip answers the first stored byte. -/
theorem regChip_read_register_value (w : World RegChip) (reg : Nat) (hreg : reg < 32) :
    (rf24_read_register regChip w reg).2 = w.chip.regs reg 0 % 256 := by
  obtain ⟨hk1, hk2⟩ := read_cmd_byte reg hreg
  simp [rf24_read_register, spi_xfer, csn, regChip, hk1, hk2]

set_option maxRecDepth 100000 in
theorem pa_bits_byte : ∀ x, x < 256 →
    (((x &&& (255 ^^^ ((1 <<< RF_PWR_LOW) ||| (1 <<< RF_PWR_HIGH)))) |||
        ((1 <<< RF_PWR_LOW) ||| (1 <<< RF_PWR_HIGH))) % 256 % 256 &&&
      ((1 <<< RF_PWR_LOW) ||| (1 <<< RF_PWR_HIGH)) = 6) ∧
    (((x &&& (255 ^^^ ((1 <<< RF_PWR_LOW) ||| (1 <<< RF_PWR_HIGH)))) |||
        (1 <<< RF_PWR_HIGH)) % 256 % 256 &&&
      ((1 <<< RF_PWR_LOW) ||| (1 <<< RF_PWR_HIGH)) = 4) ∧
    (((x &&& (255 ^^^ ((1 <<< RF_PWR_LOW) ||| (1 <<< RF_PWR_HIGH)))) |||
        (1 <<< RF_PWR_LOW)) % 256 % 256 &&&
      ((1 <<< RF_PWR_LOW) ||| (1 <<< RF_PWR_HIGH)) = 2) ∧
    ((x &&& (255 ^^^ ((1 <<< RF_PWR_LOW) ||| (1 <<< RF_PWR_HIGH)))) % 256 % 256 &&&
      ((1 <<< RF_PWR_LOW) ||| (1 <<< RF_PWR_HIGH)) = 0) := by
  decide

/-- What `rf24_get_pa_level` returns on the storing chip: the decoding of the
two power bits of the stored RF_SETUP byte. -/
theorem regChip_get_pa_level (w : World RegChip) :
    (rf24_get_pa_level regChip w).2 =
      if w.chip.regs RF_SETUP 0 % 256 &&& ((1 <<< RF_PWR_LOW) ||| (1 <<< RF_PWR_HIGH))
          = ((1 <<< RF_PWR_LOW) ||| (1 <<< RF_PWR_HIGH)) then RF24_PA_MAX
      else if w.chip.regs RF_SETUP 0 % 256 &&& ((1 <<< RF_PWR_LOW) ||| (1 <<< RF_PWR_HIGH))
          = (1 <<< RF_PWR_HIGH) then RF24_PA_HIGH
      else if w.chip.regs RF_SETUP 0 % 256 &&& ((1 <<< RF_PWR_LOW) ||| (1 <<< RF_PWR_HIGH))
          = (1 <<< RF_PWR_LOW) then RF24_PA_LOW
      else RF24_PA_MIN := by
  unfold rf24_get_pa_level
  simp only [regChip_read_register_value _ _ (show RF_SETUP < 32 by decide)]
  split_ifs <;> rfl

/-- C11: over the chip model that stores register writes, for every level among
MIN, LOW, HIGH and MAX and every initial RF_SETUP value, `rf24_get_pa_level`
after `rf24_set_pa_level(level)` returns `level`. -/
theorem pa_level_round_trip (s : RegChip) (tr : List Event) (level : Nat)
    (h : level = RF24_PA_MIN ∨ level = RF24_PA_LOW ∨ level = RF24_PA_HIGH ∨
      level = RF24_PA_MAX) :
    (rf24_get_pa_level regChip (rf24_set_pa_level regChip ⟨s, tr⟩ level)).2 = level := by
  have hx : s.regs RF_SETUP 0 % 256 < 256 := Nat.mod_lt _ (by decide)
  obtain ⟨b1, b2, b3, b4⟩ := pa_bits_byte _ hx
  rw [regChip_get_pa_level]
  rcases h with h | h | h | h <;> subst h
  · simp only [rf24_set_pa_level]
    rw [regChip_write_register _ _ _ (show RF_SETUP < 32 by decide),
      regChip_read_register_value _ _ (show RF_SETUP < 32 by decide)]
    simp only [regChip_read_register _ _ (show RF_SETUP < 32 by decide)]
    have e : (RF24_PA_MIN = RF24_PA_MAX) = False := by decide
    have e2 : (RF24_PA_MIN = RF24_PA_HIGH) = False := by decide
    have e3 : (RF24_PA_MIN = RF24_PA_LOW) = False := by decide
    simp only [e, e2, e3, if_false, if_true, and_self]
    rw [b4]
    decide
  · simp only [rf24_set_pa_level]
    rw [regChip_write_register _ _ _ (show RF_SETUP < 32 by decide),
      regChip_read_register_value _ _ (show RF_SETUP < 32 by decide)]
    have e : (RF24_PA_LOW = RF24_PA_MAX) = False := by decide
    have e2 : (RF24_PA_LOW = RF24_PA_HIGH) = False := by decide
    simp only [e, e2, if_false, if_true, and_self]
    rw [b3]
    decide
  · simp only [rf24_set_pa_level]
    rw [regChip_write_register _ _ _ (show RF_SETUP < 32 by decide),
      regChip_read_register_value _ _ (show RF_SETUP < 32 by decide)]
    have e : (RF24_PA_HIGH = RF24_PA_MAX) = False := by decide
    simp only [e, if_false, if_true, and_self]
    rw [b2]
    decide
  · simp only [rf24_set_pa_level]
    rw [regChip_write_register _ _ _ (show RF_SETUP < 32 by decide),
      regChip_read_register_value _ _ (show RF_SETUP < 32 by decide)]
    simp only [if_true, and_self]
    rw [b1]
    decide

/-- Witness of C11: level HIGH on a storing chip whose registers hold 0. -/
theorem pa_level_round_trip_witness :
    (RF24_PA_HIGH = RF24_PA_MIN ∨ RF24_PA_HIGH = RF24_PA_LOW ∨ RF24_PA_HIGH = RF24_PA_HIGH ∨
      RF24_PA_HIGH = RF24_PA_MAX) ∧
    (rf24_get_pa_level regChip
      (rf24_set_pa_level regChip ⟨⟨fun _ _ => 0, none, 0⟩, []⟩ RF24_PA_HIGH)).2 = RF24_PA_HIGH :=
  ⟨by decide, pa_level_round_trip ⟨fun _ _ => 0, none, 0⟩ [] RF24_PA_HIGH (by decide)⟩

/-! ### Bit algebra of the device flags -/

theorem clear_bits_and_self (x a : Nat) : clear_bits x (2 ^ a) &&& 2 ^ a = 0 := by
  apply Nat.eq_of_testBit_eq
  intro i
  simp only [clear_bits, Nat.testBit_and, Nat.testBit_xor, Nat.testBit_two_pow,
    Nat.zero_testBit]
  by_cases h : a = i <;> cases x.testBit i <;> simp [h]

theorem clear_bits_and_other (x a b : Nat) (hab : a ≠ b) :
    clear_bits x (2 ^ a) &&& 2 ^ b = x &&& 2 ^ b := by
  apply Nat.eq_of_testBit_eq
  intro i
  simp only [clear_bits, Nat.testBit_and, Nat.testBit_xor, Nat.testBit_two_pow]
  by_cases h : b = i
  · have h' : ¬ a = i := fun e => hab (e.trans h.symm)
    cases x.testBit i <;> simp [h, h']
  · simp [h]

theorem or_bit_and_self (x a : Nat) : (x ||| 2 ^ a) &&& 2 ^ a = 2 ^ a := by
  apply Nat.eq_of_testBit_eq
  intro i
  simp only [Nat.testBit_and, Nat.testBit_or, Nat.testBit_two_pow]
  by_cases h : a = i <;> cases x.testBit i <;> simp [h]

theorem or_bit_and_other (x a b : Nat) (hab : a ≠ b) :
    (x ||| 2 ^ a) &&& 2 ^ b = x &&& 2 ^ b := by
  apply Nat.eq_of_testBit_eq
  intro i
  simp only [Nat.testBit_and, Nat.testBit_or, Nat.testBit_two_pow]
  by_cases h : b = i
  · have h' : ¬ a = i := fun e => hab (e.trans h.symm)
    cases x.testBit i <;> simp [h, h']
  · simp [h]

/-- The wide-band bit of the flags `rf24_set_data_rate` computes. -/
theorem dataRateFlags_wide_band (f speed : Nat) :
    dataRateFlags f speed &&& RF24_WIDE_BAND = if speed = RF24_250KBPS then 0 else RF24_WIDE_BAND := by
  unfold dataRateFlags
  split_ifs
  · exact clear_bits_and_self _ 0
  · exact or_bit_and_self _ 0

/-- The other two flag bits are left alone by `rf24_set_data_rate`. -/
theorem dataRateFlags_other (f speed : Nat) :
    dataRateFlags f speed &&& RF24_P_VARIANT = f &&& RF24_P_VARIANT ∧
    dataRateFlags f speed &&& RF24_DYNAMIC_PAYLOAD = f &&& RF24_DYNAMIC_PAYLOAD ∧
    clear_bits (dataRateFlags f speed) RF24_WIDE_BAND &&& RF24_P_VARIANT = f &&& RF24_P_VARIANT ∧
    clear_bits (dataRateFlags f speed) RF24_WIDE_BAND &&& RF24_DYNAMIC_PAYLOAD
      = f &&& RF24_DYNAMIC_PAYLOAD := by
  have c1 : ∀ x, clear_bits x RF24_WIDE_BAND &&& RF24_P_VARIANT = x &&& RF24_P_VARIANT :=
    fun x => clear_bits_and_other x 0 1 (by decide)
  have c2 : ∀ x, clear_bits x RF24_WIDE_BAND &&& RF24_DYNAMIC_PAYLOAD
      = x &&& RF24_DYNAMIC_PAYLOAD :=
    fun x => clear_bits_and_other x 0 2 (by decide)
  have o1 : ∀ x, (x ||| RF24_WIDE_BAND) &&& RF24_P_VARIANT = x &&& RF24_P_VARIANT :=
    fun x => or_bit_and_other x 0 1 (by decide)
  have o2 : ∀ x, (x ||| RF24_WIDE_BAND) &&& RF24_DYNAMIC_PAYLOAD = x &&& RF24_DYNAMIC_PAYLOAD :=
    fun x => or_bit_and_other x 0 2 (by decide)
  unfold dataRateFlags
  split_ifs
  · simp only [c1, c2, and_self]
  · simp only [c1, c2, o1, o2, and_self]

/-! ### Data rate -/

/-- The steps of `rf24_set_data_rate`: read RF_SETUP, write the rate byte, read
RF_SETUP back; `result` is 1 exactly on a matching readback, and on a
mismatch the wide-band flag is removed again. -/
theorem set_data_rate_eq (c : Chip σ) (r : rf24) (w : World σ) (speed : Nat) :
    rf24_set_data_rate c r w speed =
      ((rf24_read_register c (rf24_write_register c (rf24_read_register c w RF_SETUP).1 RF_SETUP (dataRateByte (rf24_read_register c w RF_SETUP).2 speed)).1 RF_SETUP).1,
       { r with flags :=
          if (rf24_read_register c (rf24_write_register c (rf24_read_register c w RF_SETUP).1 RF_SETUP (dataRateByte (rf24_read_register c w RF_SETUP).2 speed)).1 RF_SETUP).2 = (dataRateByte (rf24_read_register c w RF_SETUP).2 speed) then dataRateFlags r.flags speed
          else clear_bits (dataRateFlags r.flags speed) RF24_WIDE_BAND },
       if (rf24_read_register c (rf24_write_register c (rf24_read_register c w RF_SETUP).1 RF_SETUP (dataRateByte (rf24_read_register c w RF_SETUP).2 speed)).1 RF_SETUP).2 = (dataRateByte (rf24_read_register c w RF_SETUP).2 speed) then 1 else 0) := by
  unfold rf24_set_data_rate dataRateByte dataRateFlags
  by_cases h1 : speed = RF24_250KBPS
  · simp only [h1, if_true]
    split_ifs <;> rfl
  · by_cases h2 : speed = RF24_2MBPS
    · simp only [h1, h2, if_true, if_false]
      split_ifs <;> rfl
    · simp only [h1, h2, if_false]
      split_ifs <;> rfl

theorem read_register_lt (c : Chip σ) (w : World σ) (reg : Nat) :
    (rf24_read_register c w reg).2 < 256 :=
  Nat.mod_lt _ (by decide)

set_option maxRecDepth 100000 in
theorem dataRateByte_lt : ∀ s0, s0 < 256 → ∀ speed, speed < 3 → dataRateByte s0 speed < 256 := by
  decide

theorem dataRateByte_byte (s0 speed : Nat) (h : s0 < 256) : dataRateByte s0 speed % 256 = dataRateByte s0 speed := by
  apply Nat.mod_eq_of_lt
  by_cases h3 : speed < 3
  · exact dataRateByte_lt s0 h speed h3
  · have e : dataRateByte s0 speed = dataRateByte s0 0 := by
      have n1 : ¬ speed = RF24_250KBPS := by
        intro e; rw [e] at h3; exact h3 (by decide)
      have n2 : ¬ speed = RF24_2MBPS := by
        intro e; rw [e] at h3; exact h3 (by decide)
      have m1 : ¬ (0 : Nat) = RF24_250KBPS := by decide
      have m2 : ¬ (0 : Nat) = RF24_2MBPS := by decide
      simp only [dataRateByte, n1, n2, m1, m2, if_false]
    rw [e]
    exact dataRateByte_lt s0 h 0 (by decide)

/-- The transport trace of `rf24_set_data_rate` for every chip. -/
theorem set_data_rate_trace (c : Chip σ) (r : rf24) (w : World σ) (speed : Nat) :
    ∃ st1 st2 x st3,
      (rf24_set_data_rate c r w speed).1.trace = w.trace ++
        (readFrame RF_SETUP st1 (rf24_read_register c w RF_SETUP).2 ++
         writeFrame RF_SETUP st2 (dataRateByte (rf24_read_register c w RF_SETUP).2 speed) x ++
         readFrame RF_SETUP st3 (rf24_read_register c (rf24_write_register c (rf24_read_register c w RF_SETUP).1 RF_SETUP (dataRateByte (rf24_read_register c w RF_SETUP).2 speed)).1 RF_SETUP).2) := by
  obtain ⟨st1, h1⟩ := read_register_trace c w RF_SETUP
  obtain ⟨x, h2⟩ := write_register_trace c (rf24_read_register c w RF_SETUP).1 RF_SETUP (dataRateByte (rf24_read_register c w RF_SETUP).2 speed)
  obtain ⟨st3, h3⟩ := read_register_trace c (rf24_write_register c (rf24_read_register c w RF_SETUP).1 RF_SETUP (dataRateByte (rf24_read_register c w RF_SETUP).2 speed)).1 RF_SETUP
  refine ⟨st1, (rf24_write_register c (rf24_read_register c w RF_SETUP).1 RF_SETUP (dataRateByte (rf24_read_register c w RF_SETUP).2 speed)).2, x, st3, ?_⟩
  rw [set_data_rate_eq]
  show (rf24_read_register c (rf24_write_register c (rf24_read_register c w RF_SETUP).1 RF_SETUP (dataRateByte (rf24_read_register c w RF_SETUP).2 speed)).1 RF_SETUP).1.trace = _
  rw [h3, h2, h1, dataRateByte_byte _ _ (read_register_lt c w RF_SETUP)]
  simp [readFrame, writeFrame]

/-- C13: `rf24_set_data_rate` returns 1 exactly when the RF_SETUP readback
equals the byte it wrote; on a mismatch it returns 0 with the wide-band flag
clear; on a match the wide-band flag is set exactly for 1 Mbps and 2 Mbps; the
P-variant and dynamic-payload flags, the payload size, the cached pipe-0
address and the ack-payload length are unchanged in both cases. -/
theorem set_data_rate_result (c : Chip σ) (r : rf24) (w : World σ) (speed : Nat)
    (hs : speed = RF24_250KBPS ∨ speed = RF24_1MBPS ∨ speed = RF24_2MBPS) :
    ∃ st1 s0 st2 x st3 rb,
      (rf24_set_data_rate c r w speed).1.trace = w.trace ++
        (readFrame RF_SETUP st1 s0 ++ writeFrame RF_SETUP st2 (dataRateByte s0 speed) x ++
          readFrame RF_SETUP st3 rb) ∧
      ((rf24_set_data_rate c r w speed).2.2 = 1 ↔ rb = dataRateByte s0 speed) ∧
      (rb ≠ dataRateByte s0 speed →
        (rf24_set_data_rate c r w speed).2.2 = 0 ∧ (rf24_set_data_rate c r w speed).2.1.flags &&& RF24_WIDE_BAND = 0) ∧
      (rb = dataRateByte s0 speed →
        ((rf24_set_data_rate c r w speed).2.1.flags &&& RF24_WIDE_BAND ≠ 0 ↔
          (speed = RF24_1MBPS ∨ speed = RF24_2MBPS))) ∧
      (rf24_set_data_rate c r w speed).2.1.flags &&& RF24_P_VARIANT = r.flags &&& RF24_P_VARIANT ∧
      (rf24_set_data_rate c r w speed).2.1.flags &&& RF24_DYNAMIC_PAYLOAD = r.flags &&& RF24_DYNAMIC_PAYLOAD ∧
      (rf24_set_data_rate c r w speed).2.1.payload_size = r.payload_size ∧
      (rf24_set_data_rate c r w speed).2.1.pipe0_reading_address = r.pipe0_reading_address ∧
      (rf24_set_data_rate c r w speed).2.1.ack_payload_length = r.ack_payload_length := by
  obtain ⟨st1, st2, x, st3, ht⟩ := set_data_rate_trace c r w speed
  obtain ⟨f1, f2, f3, f4⟩ := dataRateFlags_other r.flags speed
  have hwb := dataRateFlags_wide_band r.flags speed
  refine ⟨st1, (rf24_read_register c w RF_SETUP).2, st2, x, st3, (rf24_read_register c (rf24_write_register c (rf24_read_register c w RF_SETUP).1 RF_SETUP (dataRateByte (rf24_read_register c w RF_SETUP).2 speed)).1 RF_SETUP).2, ht, ?_, ?_, ?_, ?_, ?_, ?_, ?_, ?_⟩
  · rw [set_data_rate_eq]
    by_cases h : (rf24_read_register c (rf24_write_register c (rf24_read_register c w RF_SETUP).1 RF_SETUP (dataRateByte (rf24_read_register c w RF_SETUP).2 speed)).1 RF_SETUP).2 = (dataRateByte (rf24_read_register c w RF_SETUP).2 speed)
    · simp [h]
    · simp [h]
  · intro h
    rw [set_data_rate_eq]
    simp only [h, if_false]
    exact ⟨trivial, clear_bits_and_self _ 0⟩
  · intro h
    rw [set_data_rate_eq]
    simp only [h, if_true]
    rw [hwb]
    rcases hs with hs | hs | hs <;> subst hs <;> decide
  · rw [set_data_rate_eq]
    by_cases h : (rf24_read_register c (rf24_write_register c (rf24_read_register c w RF_SETUP).1 RF_SETUP (dataRateByte (rf24_read_register c w RF_SETUP).2 speed)).1 RF_SETUP).2 = (dataRateByte (rf24_read_register c w RF_SETUP).2 speed)
    · simp only [h, if_true]; exact f1
    · simp only [h, if_false]; exact f3
  · rw [set_data_rate_eq]
    by_cases h : (rf24_read_register c (rf24_write_register c (rf24_read_register c w RF_SETUP).1 RF_SETUP (dataRateByte (rf24_read_register c w RF_SETUP).2 speed)).1 RF_SETUP).2 = (dataRateByte (rf24_read_register c w RF_SETUP).2 speed)
    · simp only [h, if_true]; exact f2
    · simp only [h, if_false]; exact f4
  · rw [set_data_rate_eq]
  · rw [set_data_rate_eq]
  · rw [set_data_rate_eq]

/-- Witness of C13: 1 Mbps on a chip that answers 0 to every exchange. -/
theorem set_data_rate_result_witness :
    (RF24_1MBPS = RF24_250KBPS ∨ RF24_1MBPS = RF24_1MBPS ∨ RF24_1MBPS = RF24_2MBPS) ∧
    ∃ st1 s0 st2 x st3 rb,
      (rf24_set_data_rate (constChip 0) (⟨7, 32, [1, 2, 3, 4, 5], 0⟩ : rf24) (⟨(), []⟩ : World Unit) RF24_1MBPS).1.trace = (⟨(), []⟩ : World Unit).trace ++
        (readFrame RF_SETUP st1 s0 ++ writeFrame RF_SETUP st2 (dataRateByte s0 RF24_1MBPS) x ++
          readFrame RF_SETUP st3 rb) ∧
      ((rf24_set_data_rate (constChip 0) (⟨7, 32, [1, 2, 3, 4, 5], 0⟩ : rf24) (⟨(), []⟩ : World Unit) RF24_1MBPS).2.2 = 1 ↔ rb = dataRateByte s0 RF24_1MBPS) ∧
      (rb ≠ dataRateByte s0 RF24_1MBPS →
        (rf24_set_data_rate (constChip 0) (⟨7, 32, [1, 2, 3, 4, 5], 0⟩ : rf24) (⟨(), []⟩ : World Unit) RF24_1MBPS).2.2 = 0 ∧ (rf24_set_data_rate (constChip 0) (⟨7, 32, [1, 2, 3, 4, 5], 0⟩ : rf24) (⟨(), []⟩ : World Unit) RF24_1MBPS).2.1.flags &&& RF24_WIDE_BAND = 0) ∧
      (rb = dataRateByte s0 RF24_1MBPS →
        ((rf24_set_data_rate (constChip 0) (⟨7, 32, [1, 2, 3, 4, 5], 0⟩ : rf24) (⟨(), []⟩ : World Unit) RF24_1MBPS).2.1.flags &&& RF24_WIDE_BAND ≠ 0 ↔
          (RF24_1MBPS = RF24_1MBPS ∨ RF24_1MBPS = RF24_2MBPS))) ∧
      (rf24_set_data_rate (constChip 0) (⟨7, 32, [1, 2, 3, 4, 5], 0⟩ : rf24) (⟨(), []⟩ : World Unit) RF24_1MBPS).2.1.flags &&& RF24_P_VARIANT = (⟨7, 32, [1, 2, 3, 4, 5], 0⟩ : rf24).flags &&& RF24_P_VARIANT ∧
      (rf24_set_data_rate (constChip 0) (⟨7, 32, [1, 2, 3, 4, 5], 0⟩ : rf24) (⟨(), []⟩ : World Unit) RF24_1MBPS).2.1.flags &&& RF24_DYNAMIC_PAYLOAD = (⟨7, 32, [1, 2, 3, 4, 5], 0⟩ : rf24).flags &&& RF24_DYNAMIC_PAYLOAD ∧
      (rf24_set_data_rate (constChip 0) (⟨7, 32, [1, 2, 3, 4, 5], 0⟩ : rf24) (⟨(), []⟩ : World Unit) RF24_1MBPS).2.1.payload_size = (⟨7, 32, [1, 2, 3, 4, 5], 0⟩ : rf24).payload_size ∧
      (rf24_set_data_rate (constChip 0) (⟨7, 32, [1, 2, 3, 4, 5], 0⟩ : rf24) (⟨(), []⟩ : World Unit) RF24_1MBPS).2.1.pipe0_reading_address = (⟨7, 32, [1, 2, 3, 4, 5], 0⟩ : rf24).pipe0_reading_address ∧
      (rf24_set_data_rate (constChip 0) (⟨7, 32, [1, 2, 3, 4, 5], 0⟩ : rf24) (⟨(), []⟩ : World Unit) RF24_1MBPS).2.1.ack_payload_length = (⟨7, 32, [1, 2, 3, 4, 5], 0⟩ : rf24).ack_payload_length :=
  ⟨by decide, set_data_rate_result (constChip 0) (⟨7, 32, [1, 2, 3, 4, 5], 0⟩ : rf24) (⟨(), []⟩ : World Unit) RF24_1MBPS (by decide)⟩

set_option maxRecDepth 100000 in
theorem dataRateByte_bits : ∀ x, x < 256 →
    dataRateByte x RF24_250KBPS &&& ((1 <<< RF_DR_LOW) ||| (1 <<< RF_DR_HIGH)) = 1 <<< RF_DR_LOW ∧
    dataRateByte x RF24_2MBPS &&& ((1 <<< RF_DR_LOW) ||| (1 <<< RF_DR_HIGH)) = 1 <<< RF_DR_HIGH ∧
    dataRateByte x RF24_1MBPS &&& ((1 <<< RF_DR_LOW) ||| (1 <<< RF_DR_HIGH)) = 0 := by
  decide

/-- What `rf24_get_data_rate` returns on the storing chip: the decoding of the
two rate bits of the stored RF_SETUP byte. -/
theorem regChip_get_data_rate (w : World RegChip) :
    (rf24_get_data_rate regChip w).2 =
      if w.chip.regs RF_SETUP 0 % 256 &&& ((1 <<< RF_DR_LOW) ||| (1 <<< RF_DR_HIGH))
          = (1 <<< RF_DR_LOW) then RF24_250KBPS
      else if w.chip.regs RF_SETUP 0 % 256 &&& ((1 <<< RF_DR_LOW) ||| (1 <<< RF_DR_HIGH))
          = (1 <<< RF_DR_HIGH) then RF24_2MBPS
      else RF24_1MBPS := by
  unfold rf24_get_data_rate
  simp only [regChip_read_register_value _ _ (show RF_SETUP < 32 by decide)]
  split_ifs <;> rfl

/-- C12: over the chip model that stores register writes, for every rate among
250 kbps, 1 Mbps and 2 Mbps and every initial RF_SETUP value,
`rf24_set_data_rate(rate)` returns 1 and a following `rf24_get_data_rate`
returns `rate`. -/
theorem data_rate_round_trip (s : RegChip) (tr : List Event) (r : rf24) (rate : Nat)
    (h : rate = RF24_250KBPS ∨ rate = RF24_1MBPS ∨ rate = RF24_2MBPS) :
    (rf24_set_data_rate regChip r ⟨s, tr⟩ rate).2.2 = 1 ∧
    (rf24_get_data_rate regChip (rf24_set_data_rate regChip r ⟨s, tr⟩ rate).1).2 = rate := by
  have hreg : RF_SETUP < 32 := by decide
  have hlt : (rf24_read_register regChip (⟨s, tr⟩ : World RegChip) RF_SETUP).2 < 256 := read_register_lt _ _ _
  have hstored : (rf24_write_register regChip (rf24_read_register regChip (⟨s, tr⟩ : World RegChip) RF_SETUP).1 RF_SETUP (dataRateByte (rf24_read_register regChip (⟨s, tr⟩ : World RegChip) RF_SETUP).2 rate)).1.chip.regs RF_SETUP 0 = (dataRateByte (rf24_read_register regChip (⟨s, tr⟩ : World RegChip) RF_SETUP).2 rate) := by
    rw [regChip_write_register _ _ _ hreg, if_pos ⟨rfl, rfl⟩, dataRateByte_byte _ _ hlt]
  have hback : (rf24_read_register regChip (rf24_write_register regChip (rf24_read_register regChip (⟨s, tr⟩ : World RegChip) RF_SETUP).1 RF_SETUP (dataRateByte (rf24_read_register regChip (⟨s, tr⟩ : World RegChip) RF_SETUP).2 rate)).1 RF_SETUP).2 = (dataRateByte (rf24_read_register regChip (⟨s, tr⟩ : World RegChip) RF_SETUP).2 rate) := by
    rw [regChip_read_register_value _ _ hreg, hstored, dataRateByte_byte _ _ hlt]
  have hregs : (rf24_read_register regChip (rf24_write_register regChip (rf24_read_register regChip (⟨s, tr⟩ : World RegChip) RF_SETUP).1 RF_SETUP (dataRateByte (rf24_read_register regChip (⟨s, tr⟩ : World RegChip) RF_SETUP).2 rate)).1 RF_SETUP).1.chip.regs RF_SETUP 0 = (dataRateByte (rf24_read_register regChip (⟨s, tr⟩ : World RegChip) RF_SETUP).2 rate) := by
    rw [regChip_read_register _ _ hreg, hstored]
  obtain ⟨b1, b2, b3⟩ := dataRateByte_bits _ hlt
  rw [set_data_rate_eq]
  refine ⟨by simp only [hback, if_true], ?_⟩
  show (rf24_get_data_rate regChip (rf24_read_register regChip (rf24_write_register regChip (rf24_read_register regChip (⟨s, tr⟩ : World RegChip) RF_SETUP).1 RF_SETUP (dataRateByte (rf24_read_register regChip (⟨s, tr⟩ : World RegChip) RF_SETUP).2 rate)).1 RF_SETUP).1).2 = rate
  rw [regChip_get_data_rate, hregs, dataRateByte_byte _ _ hlt]
  rcases h with h | h | h <;> subst h
  · rw [b1, if_pos rfl]
  · rw [b3]
    decide
  · rw [b2]
    decide

/-- Witness of C12: 250 kbps on a storing chip whose registers hold 0. -/
theorem data_rate_round_trip_witness :
    (RF24_250KBPS = RF24_250KBPS ∨ RF24_250KBPS = RF24_1MBPS ∨ RF24_250KBPS = RF24_2MBPS) ∧
    (rf24_set_data_rate regChip ⟨0, 32, [], 0⟩ ⟨⟨fun _ _ => 0, none, 0⟩, []⟩ RF24_250KBPS).2.2 = 1 ∧
    (rf24_get_data_rate regChip
      (rf24_set_data_rate regChip ⟨0, 32, [], 0⟩ ⟨⟨fun _ _ => 0, none, 0⟩, []⟩
        RF24_250KBPS).1).2 = RF24_250KBPS :=
  ⟨by decide, data_rate_round_trip ⟨fun _ _ => 0, none, 0⟩ [] ⟨0, 32, [], 0⟩ RF24_250KBPS
    (by decide)⟩

/-! ### Frames of the configuration setters, for every chip -/

theorem write_register_frame (c : Chip σ) (w : World σ) (reg v : Nat) :
    ∃ st x, (rf24_write_register c w reg v).1.trace = w.trace ++ writeFrame reg st (v % 256) x := by
  obtain ⟨x, h⟩ := write_register_trace c w reg v
  exact ⟨(rf24_write_register c w reg v).2, x, h⟩

theorem read_register_frame (c : Chip σ) (w : World σ) (reg : Nat) :
    ∃ st, (rf24_read_register c w reg).1.trace =
      w.trace ++ readFrame reg st (rf24_read_register c w reg).2 :=
  read_register_trace c w reg

theorem flush_rx_trace (c : Chip σ) (w : World σ) :
    ∃ stf, (rf24_flush_rx c w).1.trace = w.trace ++ commandFrame FLUSH_RX stf := by
  refine ⟨(spi_xfer c (csn c w 0) FLUSH_RX).2, ?_⟩
  simp only [rf24_flush_rx, csn_trace, spi_xfer_trace, List.append_assoc,
    List.singleton_append, List.cons_append, List.nil_append, commandFrame]
  rfl

theorem flush_tx_frame (c : Chip σ) (w : World σ) :
    ∃ stf, (rf24_flush_tx c w).1.trace = w.trace ++ commandFrame FLUSH_TX stf :=
  flush_tx_trace c w

theorem byte_of_and (x m : Nat) (hm : m < 256) : (x &&& m) < 256 :=
  lt_of_le_of_lt Nat.and_le_right hm

set_option maxRecDepth 100000 in
theorem paLevelByte_lt : ∀ s0, s0 < 256 → ∀ level, level < 6 → paLevelByte s0 level < 256 := by
  decide

theorem paLevelByte_byte (s0 level : Nat) (h : s0 < 256) :
    paLevelByte s0 level % 256 = paLevelByte s0 level := by
  apply Nat.mod_eq_of_lt
  by_cases h6 : level < 6
  · exact paLevelByte_lt s0 h level h6
  · have e : paLevelByte s0 level = paLevelByte s0 5 := by
      have n1 : ¬ level = RF24_PA_MAX := by
        intro e; rw [e] at h6; exact h6 (by decide)
      have n2 : ¬ level = RF24_PA_HIGH := by
        intro e; rw [e] at h6; exact h6 (by decide)
      have n3 : ¬ level = RF24_PA_LOW := by
        intro e; rw [e] at h6; exact h6 (by decide)
      have n4 : ¬ level = RF24_PA_MIN := by
        intro e; rw [e] at h6; exact h6 (by decide)
      have n5 : ¬ level = RF24_PA_ERROR := by
        intro e; rw [e] at h6; exact h6 (by decide)
      have m1 : ¬ (5 : Nat) = RF24_PA_MAX := by decide
      have m2 : ¬ (5 : Nat) = RF24_PA_HIGH := by decide
      have m3 : ¬ (5 : Nat) = RF24_PA_LOW := by decide
      have m4 : ¬ (5 : Nat) = RF24_PA_MIN := by decide
      have m5 : ¬ (5 : Nat) = RF24_PA_ERROR := by decide
      simp only [paLevelByte, n1, n2, n3, n4, n5, m1, m2, m3, m4, m5, if_false]
    rw [e]
    exact paLevelByte_lt s0 h 5 (by decide)

/-- The steps of `rf24_set_pa_level`: read RF_SETUP, write the level byte. -/
theorem set_pa_level_eq (c : Chip σ) (w : World σ) (level : Nat) :
    rf24_set_pa_level c w level =
      (rf24_write_register c (rf24_read_register c w RF_SETUP).1 RF_SETUP
        (paLevelByte (rf24_read_register c w RF_SETUP).2 level)).1 := by
  unfold rf24_set_pa_level paLevelByte
  rfl

theorem set_pa_level_trace (c : Chip σ) (w : World σ) (level : Nat) :
    ∃ st1 s0 st2 x, (rf24_set_pa_level c w level).trace = w.trace ++
      (readFrame RF_SETUP st1 s0 ++ writeFrame RF_SETUP st2 (paLevelByte s0 level) x) := by
  obtain ⟨st1, h1⟩ := read_register_frame c w RF_SETUP
  obtain ⟨st2, x, h2⟩ := write_register_frame c (rf24_read_register c w RF_SETUP).1 RF_SETUP
    (paLevelByte (rf24_read_register c w RF_SETUP).2 level)
  refine ⟨st1, (rf24_read_register c w RF_SETUP).2, st2, x, ?_⟩
  rw [set_pa_level_eq, h2, h1, paLevelByte_byte _ _ (read_register_lt c w RF_SETUP),
    List.append_assoc]

set_option maxRecDepth 100000 in
theorem crcByte_lt : ∀ c0, c0 < 256 → ∀ length, length < 3 → crcByte c0 length < 256 := by
  decide

theorem crcByte_byte (c0 length : Nat) (h : c0 < 256) :
    crcByte c0 length % 256 = crcByte c0 length := by
  apply Nat.mod_eq_of_lt
  by_cases h3 : length < 3
  · exact crcByte_lt c0 h length h3
  · have e : crcByte c0 length = crcByte c0 2 := by
      have n1 : ¬ length = RF24_CRC_DISABLED := by
        intro e; rw [e] at h3; exact h3 (by decide)
      have n2 : ¬ length = RF24_CRC_8 := by
        intro e; rw [e] at h3; exact h3 (by decide)
      have m1 : ¬ (2 : Nat) = RF24_CRC_DISABLED := by decide
      have m2 : ¬ (2 : Nat) = RF24_CRC_8 := by decide
      simp only [crcByte, n1, n2, m1, m2, if_false]
    rw [e]
    exact crcByte_lt c0 h 2 (by decide)

theorem set_crc_length_eq (c : Chip σ) (w : World σ) (length : Nat) :
    rf24_set_crc_length c w length =
      (rf24_write_register c (rf24_read_register c w CONFIG).1 CONFIG
        (crcByte (rf24_read_register c w CONFIG).2 length)).1 := by
  unfold rf24_set_crc_length crcByte
  rfl

theorem set_crc_length_trace (c : Chip σ) (w : World σ) (length : Nat) :
    ∃ st1 c0 st2 x, (rf24_set_crc_length c w length).trace = w.trace ++
      (readFrame CONFIG st1 c0 ++ writeFrame CONFIG st2 (crcByte c0 length) x) := by
  obtain ⟨st1, h1⟩ := read_register_frame c w CONFIG
  obtain ⟨st2, x, h2⟩ := write_register_frame c (rf24_read_register c w CONFIG).1 CONFIG
    (crcByte (rf24_read_register c w CONFIG).2 length)
  refine ⟨st1, (rf24_read_register c w CONFIG).2, st2, x, ?_⟩
  rw [set_crc_length_eq, h2, h1, crcByte_byte _ _ (read_register_lt c w CONFIG),
    List.append_assoc]

/-- Trace, device instance and result of `rf24_set_data_rate`, for every chip. -/
theorem set_data_rate_full (c : Chip σ) (r : rf24) (w : World σ) (speed : Nat) :
    ∃ st1 s0 st2 x st3 rb,
      (rf24_set_data_rate c r w speed).1.trace = w.trace ++
        (readFrame RF_SETUP st1 s0 ++ writeFrame RF_SETUP st2 (dataRateByte s0 speed) x ++
          readFrame RF_SETUP st3 rb) ∧
      (rf24_set_data_rate c r w speed).2.1 =
        { r with flags :=
            if rb = dataRateByte s0 speed then dataRateFlags r.flags speed
            else clear_bits (dataRateFlags r.flags speed) RF24_WIDE_BAND } ∧
      (rf24_set_data_rate c r w speed).2.2 = if rb = dataRateByte s0 speed then 1 else 0 := by
  obtain ⟨st1, st2, x, st3, ht⟩ := set_data_rate_trace c r w speed
  refine ⟨st1, _, st2, x, st3, _, ht, ?_, ?_⟩
  · rw [set_data_rate_eq]
  · rw [set_data_rate_eq]

/-! ### Bring-up -/

theorem set_channel_frame (c : Chip σ) (w : World σ) (ch : Nat) (hch : ch ≤ 127) :
    ∃ st x, (rf24_set_channel c w ch).trace = w.trace ++ writeFrame RF_CH st ch x := by
  obtain ⟨st, x, h⟩ := write_register_frame c w RF_CH (min_t_u8 ch 127)
  refine ⟨st, x, ?_⟩
  have hm : min_t_u8 ch 127 % 256 = ch := by
    rw [min_t_u8_eq ch 127 (by omega) (by decide)]
    omega
  simp only [rf24_set_channel]
  rw [h, hm]

/-- Trace and device instance of `rf24_init`, for every chip. -/
theorem init_spec (c : Chip σ) (r : rf24) (w : World σ) :
    ∃ a0 a1 a2 s0 a3 a4 a5 s1 a6 a7 a8 rb1 a9 s2 a10 a11 a12 rb2 a13 c0 a14 a15 a16 a17 a18 a19 a20 a21 a22 a23,
      (rf24_init c r w).1.trace = w.trace ++
        ([Event.ce 0, Event.delay_ms 5] ++ writeFrame SETUP_RETR a0 ((0b0100 <<< ARD) ||| (0b1111 <<< ARC)) a1 ++
          (readFrame RF_SETUP a2 s0 ++ writeFrame RF_SETUP a3 (paLevelByte s0 RF24_PA_MAX) a4) ++
          (readFrame RF_SETUP a5 s1 ++ writeFrame RF_SETUP a6 (dataRateByte s1 RF24_250KBPS) a7 ++
            readFrame RF_SETUP a8 rb1) ++
          (readFrame RF_SETUP a9 s2 ++ writeFrame RF_SETUP a10 (dataRateByte s2 RF24_1MBPS) a11 ++
            readFrame RF_SETUP a12 rb2) ++
          (readFrame CONFIG a13 c0 ++ writeFrame CONFIG a14 (crcByte c0 RF24_CRC_16) a15) ++
          writeFrame DYNPD a16 0 a17 ++
          writeFrame STATUS a18 ((1 <<< RX_DR) ||| (1 <<< TX_DS) ||| (1 <<< MAX_RT)) a19 ++
          writeFrame RF_CH a20 76 a21 ++ commandFrame FLUSH_RX a22 ++ commandFrame FLUSH_TX a23) ∧
      (rf24_init c r w).2 =
        { flags :=
            if rb2 = dataRateByte s2 RF24_1MBPS then dataRateFlags (if (if rb1 = dataRateByte s1 RF24_250KBPS then 1 else 0) ≠ 0 then (if rb1 = dataRateByte s1 RF24_250KBPS then dataRateFlags RF24_WIDE_BAND RF24_250KBPS else clear_bits (dataRateFlags RF24_WIDE_BAND RF24_250KBPS) RF24_WIDE_BAND) ||| RF24_P_VARIANT else (if rb1 = dataRateByte s1 RF24_250KBPS then dataRateFlags RF24_WIDE_BAND RF24_250KBPS else clear_bits (dataRateFlags RF24_WIDE_BAND RF24_250KBPS) RF24_WIDE_BAND)) RF24_1MBPS
            else clear_bits (dataRateFlags (if (if rb1 = dataRateByte s1 RF24_250KBPS then 1 else 0) ≠ 0 then (if rb1 = dataRateByte s1 RF24_250KBPS then dataRateFlags RF24_WIDE_BAND RF24_250KBPS else clear_bits (dataRateFlags RF24_WIDE_BAND RF24_250KBPS) RF24_WIDE_BAND) ||| RF24_P_VARIANT else (if rb1 = dataRateByte s1 RF24_250KBPS then dataRateFlags RF24_WIDE_BAND RF24_250KBPS else clear_bits (dataRateFlags RF24_WIDE_BAND RF24_250KBPS) RF24_WIDE_BAND)) RF24_1MBPS) RF24_WIDE_BAND,
          payload_size := 32,
          pipe0_reading_address := [0, 0, 0, 0, 0],
          ack_payload_length := 0 } := by
  have e0 : (delay_ms c (ce c w 0) 5).trace = w.trace ++ [Event.ce 0, Event.delay_ms 5] := by
    simp [delay_ms_trace, ce_trace]
  have hinit : rf24_init c r w =
      ((rf24_flush_tx c (rf24_flush_rx c (rf24_set_channel c
        (rf24_write_register c (rf24_write_register c (rf24_set_crc_length c
          (rf24_set_data_rate c
            (if (rf24_set_data_rate c ⟨RF24_WIDE_BAND, 32, [0, 0, 0, 0, 0], 0⟩
                (rf24_set_pa_level c (rf24_write_register c (delay_ms c (ce c w 0) 5)
                  SETUP_RETR ((0b0100 <<< ARD) ||| (0b1111 <<< ARC))).1 RF24_PA_MAX) RF24_250KBPS).2.2 ≠ 0 then
              { (rf24_set_data_rate c ⟨RF24_WIDE_BAND, 32, [0, 0, 0, 0, 0], 0⟩
                (rf24_set_pa_level c (rf24_write_register c (delay_ms c (ce c w 0) 5)
                  SETUP_RETR ((0b0100 <<< ARD) ||| (0b1111 <<< ARC))).1 RF24_PA_MAX) RF24_250KBPS).2.1 with
                flags := (rf24_set_data_rate c ⟨RF24_WIDE_BAND, 32, [0, 0, 0, 0, 0], 0⟩
                  (rf24_set_pa_level c (rf24_write_register c (delay_ms c (ce c w 0) 5)
                    SETUP_RETR ((0b0100 <<< ARD) ||| (0b1111 <<< ARC))).1 RF24_PA_MAX) RF24_250KBPS).2.1.flags |||
                  RF24_P_VARIANT }
             else (rf24_set_data_rate c ⟨RF24_WIDE_BAND, 32, [0, 0, 0, 0, 0], 0⟩
                (rf24_set_pa_level c (rf24_write_register c (delay_ms c (ce c w 0) 5)
                  SETUP_RETR ((0b0100 <<< ARD) ||| (0b1111 <<< ARC))).1 RF24_PA_MAX) RF24_250KBPS).2.1)
            (rf24_set_data_rate c ⟨RF24_WIDE_BAND, 32, [0, 0, 0, 0, 0], 0⟩
                (rf24_set_pa_level c (rf24_write_register c (delay_ms c (ce c w 0) 5)
                  SETUP_RETR ((0b0100 <<< ARD) ||| (0b1111 <<< ARC))).1 RF24_PA_MAX) RF24_250KBPS).1
            RF24_1MBPS).1 RF24_CRC_16) DYNPD 0).1 STATUS ((1 <<< RX_DR) ||| (1 <<< TX_DS) ||| (1 <<< MAX_RT))).1 76)).1).1,
       (rf24_set_data_rate c
            (if (rf24_set_data_rate c ⟨RF24_WIDE_BAND, 32, [0, 0, 0, 0, 0], 0⟩
                (rf24_set_pa_level c (rf24_write_register c (delay_ms c (ce c w 0) 5)
                  SETUP_RETR ((0b0100 <<< ARD) ||| (0b1111 <<< ARC))).1 RF24_PA_MAX) RF24_250KBPS).2.2 ≠ 0 then
              { (rf24_set_data_rate c ⟨RF24_WIDE_BAND, 32, [0, 0, 0, 0, 0], 0⟩
                (rf24_set_pa_level c (rf24_write_register c (delay_ms c (ce c w 0) 5)
                  SETUP_RETR ((0b0100 <<< ARD) ||| (0b1111 <<< ARC))).1 RF24_PA_MAX) RF24_250KBPS).2.1 with
                flags := (rf24_set_data_rate c ⟨RF24_WIDE_BAND, 32, [0, 0, 0, 0, 0], 0⟩
                  (rf24_set_pa_level c (rf24_write_register c (delay_ms c (ce c w 0) 5)
                    SETUP_RETR ((0b0100 <<< ARD) ||| (0b1111 <<< ARC))).1 RF24_PA_MAX) RF24_250KBPS).2.1.flags |||
                  RF24_P_VARIANT }
             else (rf24_set_data_rate c ⟨RF24_WIDE_BAND, 32, [0, 0, 0, 0, 0], 0⟩
                (rf24_set_pa_level c (rf24_write_register c (delay_ms c (ce c w 0) 5)
                  SETUP_RETR ((0b0100 <<< ARD) ||| (0b1111 <<< ARC))).1 RF24_PA_MAX) RF24_250KBPS).2.1)
            (rf24_set_data_rate c ⟨RF24_WIDE_BAND, 32, [0, 0, 0, 0, 0], 0⟩
                (rf24_set_pa_level c (rf24_write_register c (delay_ms c (ce c w 0) 5)
                  SETUP_RETR ((0b0100 <<< ARD) ||| (0b1111 <<< ARC))).1 RF24_PA_MAX) RF24_250KBPS).1
            RF24_1MBPS).2.1) := rfl
  rw [hinit]
  generalize delay_ms c (ce c w 0) 5 = W0 at e0 ⊢
  obtain ⟨a0, a1, e1⟩ := write_register_frame c W0 SETUP_RETR ((0b0100 <<< ARD) ||| (0b1111 <<< ARC))
  generalize (rf24_write_register c W0 SETUP_RETR ((0b0100 <<< ARD) ||| (0b1111 <<< ARC))).1 = W1 at e1 ⊢
  obtain ⟨a2, s0, a3, a4, e2⟩ := set_pa_level_trace c W1 RF24_PA_MAX
  generalize rf24_set_pa_level c W1 RF24_PA_MAX = W2 at e2 ⊢
  obtain ⟨a5, s1, a6, a7, a8, rb1, e3, r3, q3⟩ :=
    set_data_rate_full c ⟨RF24_WIDE_BAND, 32, [0, 0, 0, 0, 0], 0⟩ W2 RF24_250KBPS
  generalize rf24_set_data_rate c ⟨RF24_WIDE_BAND, 32, [0, 0, 0, 0, 0], 0⟩ W2 RF24_250KBPS = D
    at e3 r3 q3 ⊢
  obtain ⟨a9, s2, a10, a11, a12, rb2, e4, r4, -⟩ := set_data_rate_full c
    (if D.2.2 ≠ 0 then { D.2.1 with flags := D.2.1.flags ||| RF24_P_VARIANT } else D.2.1)
    D.1 RF24_1MBPS
  generalize rf24_set_data_rate c
    (if D.2.2 ≠ 0 then { D.2.1 with flags := D.2.1.flags ||| RF24_P_VARIANT } else D.2.1)
    D.1 RF24_1MBPS = E at e4 r4 ⊢
  obtain ⟨a13, c0, a14, a15, e5⟩ := set_crc_length_trace c E.1 RF24_CRC_16
  generalize rf24_set_crc_length c E.1 RF24_CRC_16 = W5 at e5 ⊢
  obtain ⟨a16, a17, e6⟩ := write_register_frame c W5 DYNPD 0
  generalize (rf24_write_register c W5 DYNPD 0).1 = W6 at e6 ⊢
  obtain ⟨a18, a19, e7⟩ := write_register_frame c W6 STATUS ((1 <<< RX_DR) ||| (1 <<< TX_DS) ||| (1 <<< MAX_RT))
  generalize (rf24_write_register c W6 STATUS ((1 <<< RX_DR) ||| (1 <<< TX_DS) ||| (1 <<< MAX_RT))).1 = W7 at e7 ⊢
  obtain ⟨a20, a21, e8⟩ := set_channel_frame c W7 76 (by decide)
  generalize rf24_set_channel c W7 76 = W8 at e8 ⊢
  obtain ⟨a22, e9⟩ := flush_rx_trace c W8
  generalize (rf24_flush_rx c W8).1 = W9 at e9 ⊢
  obtain ⟨a23, e10⟩ := flush_tx_frame c W9
  refine ⟨a0, a1, a2, s0, a3, a4, a5, s1, a6, a7, a8, rb1, a9, s2, a10, a11, a12, rb2, a13, c0, a14, a15, a16, a17, a18, a19, a20, a21, a22, a23, ?_, ?_⟩
  · show (rf24_flush_tx c W9).1.trace = _
    rw [e10, e9, e8, e7, e6, e5, e4, e3, e2, e1, e0, status_mask_byte]
    have z : (0 : Nat) % 256 = 0 := rfl
    have y : ((0b0100 <<< ARD) ||| (0b1111 <<< ARC)) % 256 = ((0b0100 <<< ARD) ||| (0b1111 <<< ARC)) := by decide
    rw [z, y]
    simp only [List.append_assoc]
  · show E.2.1 = _
    rw [r4]
    have hD : D.2.1 = ⟨(if rb1 = dataRateByte s1 RF24_250KBPS then dataRateFlags RF24_WIDE_BAND RF24_250KBPS else clear_bits (dataRateFlags RF24_WIDE_BAND RF24_250KBPS) RF24_WIDE_BAND), 32, [0, 0, 0, 0, 0], 0⟩ := r3
    rw [q3, hD]
    split_ifs <;> rfl

/-- C15: for every chip behaviour the transport trace of `rf24_init` is, in this
order: chip-enable low; a 5 ms delay; the SETUP_RETR write with delay field 4
and count field 15; the RF_SETUP read-modify-write setting both power bits; the
250 kbps attempt (read, write with RF_DR_LOW only, readback); the 1 Mbps set
(read, write with both rate bits clear, readback); the CONFIG read-modify-write
setting EN_CRC and CRCO; DYNPD := 0; STATUS := RX_DR|TX_DS|MAX_RT; RF_CH := 76;
FLUSH_RX; FLUSH_TX. -/
theorem init_trace (c : Chip σ) (r : rf24) (w : World σ) :
    ∃ a0 a1 a2 s0 a3 a4 a5 s1 a6 a7 a8 rb1 a9 s2 a10 a11 a12 rb2 a13 c0 a14 a15 a16 a17 a18 a19 a20 a21 a22 a23,
      (rf24_init c r w).1.trace = w.trace ++
        ([Event.ce 0, Event.delay_ms 5] ++ writeFrame SETUP_RETR a0 ((0b0100 <<< ARD) ||| (0b1111 <<< ARC)) a1 ++
          (readFrame RF_SETUP a2 s0 ++ writeFrame RF_SETUP a3 ((s0 &&& (255 ^^^ ((1 <<< RF_PWR_LOW) ||| (1 <<< RF_PWR_HIGH)))) ||| ((1 <<< RF_PWR_LOW) ||| (1 <<< RF_PWR_HIGH))) a4) ++
          (readFrame RF_SETUP a5 s1 ++ writeFrame RF_SETUP a6 ((s1 &&& (255 ^^^ ((1 <<< RF_DR_LOW) ||| (1 <<< RF_DR_HIGH)))) ||| (1 <<< RF_DR_LOW)) a7 ++
            readFrame RF_SETUP a8 rb1) ++
          (readFrame RF_SETUP a9 s2 ++ writeFrame RF_SETUP a10 (s2 &&& (255 ^^^ ((1 <<< RF_DR_LOW) ||| (1 <<< RF_DR_HIGH)))) a11 ++
            readFrame RF_SETUP a12 rb2) ++
          (readFrame CONFIG a13 c0 ++ writeFrame CONFIG a14 (((c0 &&& (255 ^^^ ((1 <<< CRCO) ||| (1 <<< EN_CRC)))) ||| (1 <<< EN_CRC)) ||| (1 <<< CRCO)) a15) ++
          writeFrame DYNPD a16 0 a17 ++
          writeFrame STATUS a18 ((1 <<< RX_DR) ||| (1 <<< TX_DS) ||| (1 <<< MAX_RT)) a19 ++
          writeFrame RF_CH a20 76 a21 ++ commandFrame FLUSH_RX a22 ++ commandFrame FLUSH_TX a23) := by
  obtain ⟨a0, a1, a2, s0, a3, a4, a5, s1, a6, a7, a8, rb1, a9, s2, a10, a11, a12, rb2, a13, c0, a14, a15, a16, a17, a18, a19, a20, a21, a22, a23, ht, -⟩ := init_spec c r w
  exact ⟨a0, a1, a2, s0, a3, a4, a5, s1, a6, a7, a8, rb1, a9, s2, a10, a11, a12, rb2, a13, c0, a14, a15, a16, a17, a18, a19, a20, a21, a22, a23, ht⟩

/-- C16: after `rf24_init`, whatever the device fields held before, the
P-variant flag is set exactly when the readback of the 250 kbps probe equals
the byte the probe wrote; the dynamic-payload flag is clear, the payload size
is 32, the cached pipe-0 address is five zero bytes and the ack-payload length
is 0. -/
theorem init_device_state (c : Chip σ) (r : rf24) (w : World σ) :
    ∃ a0 a1 a2 s0 a3 a4 a5 s1 a6 a7 a8 rb1 a9 s2 a10 a11 a12 rb2 a13 c0 a14 a15 a16 a17 a18 a19 a20 a21 a22 a23,
      (rf24_init c r w).1.trace = w.trace ++
        ([Event.ce 0, Event.delay_ms 5] ++ writeFrame SETUP_RETR a0 ((0b0100 <<< ARD) ||| (0b1111 <<< ARC)) a1 ++
          (readFrame RF_SETUP a2 s0 ++ writeFrame RF_SETUP a3 ((s0 &&& (255 ^^^ ((1 <<< RF_PWR_LOW) ||| (1 <<< RF_PWR_HIGH)))) ||| ((1 <<< RF_PWR_LOW) ||| (1 <<< RF_PWR_HIGH))) a4) ++
          (readFrame RF_SETUP a5 s1 ++ writeFrame RF_SETUP a6 ((s1 &&& (255 ^^^ ((1 <<< RF_DR_LOW) ||| (1 <<< RF_DR_HIGH)))) ||| (1 <<< RF_DR_LOW)) a7 ++
            readFrame RF_SETUP a8 rb1) ++
          (readFrame RF_SETUP a9 s2 ++ writeFrame RF_SETUP a10 (s2 &&& (255 ^^^ ((1 <<< RF_DR_LOW) ||| (1 <<< RF_DR_HIGH)))) a11 ++
            readFrame RF_SETUP a12 rb2) ++
          (readFrame CONFIG a13 c0 ++ writeFrame CONFIG a14 (((c0 &&& (255 ^^^ ((1 <<< CRCO) ||| (1 <<< EN_CRC)))) ||| (1 <<< EN_CRC)) ||| (1 <<< CRCO)) a15) ++
          writeFrame DYNPD a16 0 a17 ++
          writeFrame STATUS a18 ((1 <<< RX_DR) ||| (1 <<< TX_DS) ||| (1 <<< MAX_RT)) a19 ++
          writeFrame RF_CH a20 76 a21 ++ commandFrame FLUSH_RX a22 ++ commandFrame FLUSH_TX a23) ∧
      ((rf24_init c r w).2.flags &&& RF24_P_VARIANT ≠ 0 ↔ rb1 = ((s1 &&& (255 ^^^ ((1 <<< RF_DR_LOW) ||| (1 <<< RF_DR_HIGH)))) ||| (1 <<< RF_DR_LOW))) ∧
      (rf24_init c r w).2.flags &&& RF24_DYNAMIC_PAYLOAD = 0 ∧
      rf24_has_dynamic_payload (rf24_init c r w).2 = false ∧
      (rf24_init c r w).2.payload_size = 32 ∧
      (rf24_init c r w).2.pipe0_reading_address = [0, 0, 0, 0, 0] ∧
      (rf24_init c r w).2.ack_payload_length = 0 := by
  obtain ⟨a0, a1, a2, s0, a3, a4, a5, s1, a6, a7, a8, rb1, a9, s2, a10, a11, a12, rb2, a13, c0, a14, a15, a16, a17, a18, a19, a20, a21, a22, a23, ht, hr⟩ := init_spec c r w
  have h250 : dataRateByte s1 RF24_250KBPS = ((s1 &&& (255 ^^^ ((1 <<< RF_DR_LOW) ||| (1 <<< RF_DR_HIGH)))) ||| (1 <<< RF_DR_LOW)) := rfl
  rw [h250] at hr
  refine ⟨a0, a1, a2, s0, a3, a4, a5, s1, a6, a7, a8, rb1, a9, s2, a10, a11, a12, rb2, a13, c0, a14, a15, a16, a17, a18, a19, a20, a21, a22, a23, ht, ?_, ?_, ?_, ?_, ?_, ?_⟩
  · rw [hr]
    by_cases p1 : rb1 = ((s1 &&& (255 ^^^ ((1 <<< RF_DR_LOW) ||| (1 <<< RF_DR_HIGH)))) ||| (1 <<< RF_DR_LOW)) <;> by_cases p2 : rb2 = dataRateByte s2 RF24_1MBPS <;>
      simp only [p1, p2, if_true, if_false, iff_true, iff_false, not_not] <;> decide
  · rw [hr]
    by_cases p1 : rb1 = ((s1 &&& (255 ^^^ ((1 <<< RF_DR_LOW) ||| (1 <<< RF_DR_HIGH)))) ||| (1 <<< RF_DR_LOW)) <;> by_cases p2 : rb2 = dataRateByte s2 RF24_1MBPS <;>
      simp only [p1, p2, if_true, if_false] <;> decide
  · rw [hr]
    by_cases p1 : rb1 = ((s1 &&& (255 ^^^ ((1 <<< RF_DR_LOW) ||| (1 <<< RF_DR_HIGH)))) ||| (1 <<< RF_DR_LOW)) <;> by_cases p2 : rb2 = dataRateByte s2 RF24_1MBPS <;>
      simp only [p1, p2, if_true, if_false] <;> decide
  · rw [hr]
  · rw [hr]
  · rw [hr]

/-! ### Retries -/

theorem retries_byte (delay count : Nat) :
    (((delay &&& 0xf) <<< ARD) ||| ((count &&& 0xf) <<< ARC)) % 256 =
      ((delay &&& 0xf) <<< ARD) ||| ((count &&& 0xf) <<< ARC) := by
  apply Nat.mod_eq_of_lt
  have h1 : delay &&& 0xf ≤ 0xf := Nat.and_le_right
  have h2 : count &&& 0xf ≤ 0xf := Nat.and_le_right
  have h3 : (delay &&& 0xf) <<< ARD < 2 ^ 8 := by
    rw [Nat.shiftLeft_eq, show (2 : Nat) ^ ARD = 16 from by decide]
    omega
  have h4 : (count &&& 0xf) <<< ARC < 2 ^ 8 := by
    rw [Nat.shiftLeft_eq, show (2 : Nat) ^ ARC = 1 from by decide]
    omega
  exact Nat.or_lt_two_pow h3 h4

/-- C14 (amended): for every delay and count in 0..255, `rf24_set_retries`
writes to SETUP_RETR the byte `((delay & 15) << ARD) | ((count & 15) << ARC)`:
each parameter is reduced to its low four bits (its value modulo 16)
independently of the other, which is the value itself for 0..15. -/
theorem set_retries_masks (c : Chip σ) (w : World σ) (delay count : Nat)
    (hd : delay < 256) (hc : count < 256) :
    ∃ st x, (rf24_set_retries c w delay count).trace = w.trace ++
        writeFrame SETUP_RETR st (((delay &&& 0xf) <<< ARD) ||| ((count &&& 0xf) <<< ARC)) x ∧
      delay &&& 0xf = delay % 16 ∧ count &&& 0xf = count % 16 ∧
      (delay ≤ 15 → count ≤ 15 →
        ((delay &&& 0xf) <<< ARD) ||| ((count &&& 0xf) <<< ARC) =
          ((min delay 15) <<< ARD) ||| ((min count 15) <<< ARC)) := by
  obtain ⟨st, x, h⟩ := write_register_frame c w SETUP_RETR
    ((((delay % 256) &&& 0xf) <<< ARD) ||| (((count % 256) &&& 0xf) <<< ARC))
  have e1 : delay &&& 0xf = delay % 16 := Nat.and_pow_two_sub_one_eq_mod delay 4
  have e2 : count &&& 0xf = count % 16 := Nat.and_pow_two_sub_one_eq_mod count 4
  refine ⟨st, x, ?_, e1, e2, ?_⟩
  · simp only [rf24_set_retries]
    rw [h, Nat.mod_eq_of_lt hd, Nat.mod_eq_of_lt hc, retries_byte]
  · intro h1 h2
    rw [e1, e2, Nat.mod_eq_of_lt (by omega), Nat.mod_eq_of_lt (by omega),
      Nat.min_eq_left h1, Nat.min_eq_left h2]

/-- Witness of C14 (amended): delay 16, count 3. -/
theorem set_retries_masks_witness :
    ((16 : Nat) < 256 ∧ (3 : Nat) < 256) ∧
    ∃ st x, (rf24_set_retries (constChip 0) ⟨(), []⟩ 16 3).trace = [] ++
        writeFrame SETUP_RETR st (((16 &&& 0xf) <<< ARD) ||| ((3 &&& 0xf) <<< ARC)) x ∧
      16 &&& 0xf = 16 % 16 ∧ 3 &&& 0xf = 3 % 16 ∧
      (16 ≤ 15 → 3 ≤ 15 →
        ((16 &&& 0xf) <<< ARD) ||| ((3 &&& 0xf) <<< ARC) =
          ((min 16 15) <<< ARD) ||| ((min 3 15) <<< ARC)) :=
  ⟨by decide, set_retries_masks (constChip 0) ⟨(), []⟩ 16 3 (by decide) (by decide)⟩

/-- C14 (counterexample): `rf24_set_retries(16, 3)` writes 0x03 to SETUP_RETR
(delay field 0), while clamping would give `(15 << ARD) | (3 << ARC)` = 0xF3. -/
theorem set_retries_wraps_delay :
    (rf24_set_retries (constChip 0) ⟨(), []⟩ 16 3).trace = writeFrame SETUP_RETR 0 3 0 ∧
    ((min 16 15) <<< ARD) ||| ((min 3 15) <<< ARC) = 0xF3 := by
  decide

/-! ### Listening -/

theorem writeout_register_frame (c : Chip σ) (w : World σ) (reg : Nat) (buf : Nat → Nat)
    (len : Nat) (hlen : len < 256) :
    ∃ st rs, rs.length = len ∧
      (rf24_writeout_register c w reg buf len).1.trace = w.trace ++
        burstWriteFrame reg st ((List.range len).map (fun i => buf i % 256)) rs := by
  obtain ⟨rs, hl, ht⟩ := xfer_out_trace c (len % 256)
    (spi_xfer c (csn c w 0) (W_REGISTER ||| (REGISTER_MASK &&& reg))).1 buf 0
  rw [Nat.mod_eq_of_lt hlen] at hl ht
  refine ⟨(spi_xfer c (csn c w 0) (W_REGISTER ||| (REGISTER_MASK &&& reg))).2, rs, hl, ?_⟩
  simp only [rf24_writeout_register, csn_trace, Nat.mod_eq_of_lt hlen]
  rw [ht, spi_xfer_trace, csn_trace, write_cmd_lt]
  simp [burstWriteFrame]

theorem listen_config_byte (c0 : Nat) (h : c0 < 256) :
    (c0 ||| (1 <<< PWR_UP) ||| (1 <<< PRIM_RX)) % 256 = c0 ||| (1 <<< PWR_UP) ||| (1 <<< PRIM_RX) := by
  apply Nat.mod_eq_of_lt
  have h1 : c0 < 2 ^ 8 := h
  exact Nat.or_lt_two_pow (Nat.or_lt_two_pow h1 (by decide)) (by decide)

/-- C17 (amended): the transport trace of `rf24_start_listening` is, in this
order: the CONFIG read-modify-write setting PWR_UP and PRIM_RX; the STATUS
write clearing RX_DR, TX_DS and MAX_RT; the write of the 5 cached pipe-0
address bytes to RX_ADDR_P0; FLUSH_RX; FLUSH_TX; chip-enable raised; a delay
of 130 µs.  The pipe-0 address write follows the CONFIG write and precedes
the raising of chip-enable. -/
theorem start_listening_trace (c : Chip σ) (r : rf24) (w : World σ) :
    ∃ a0 c0 a1 a2 a3 a4 a5 a6 a7, ∃ rs : List Nat, rs.length = 5 ∧
      (rf24_start_listening c r w).trace = w.trace ++
        (readFrame CONFIG a0 c0 ++
          writeFrame CONFIG a1 (c0 ||| (1 <<< PWR_UP) ||| (1 <<< PRIM_RX)) a2 ++
          writeFrame STATUS a3 ((1 <<< RX_DR) ||| (1 <<< TX_DS) ||| (1 <<< MAX_RT)) a4 ++
          burstWriteFrame RX_ADDR_P0 a5
            ((List.range 5).map (fun i => r.pipe0_reading_address.getD i 0 % 256)) rs ++
          commandFrame FLUSH_RX a6 ++ commandFrame FLUSH_TX a7 ++
          [Event.ce 1, Event.delay_us 130]) := by
  have hs : rf24_start_listening c r w =
      delay_us c (ce c (rf24_flush_tx c (rf24_flush_rx c (rf24_writeout_register c
        (rf24_write_register c (rf24_write_register c (rf24_read_register c w CONFIG).1 CONFIG
          ((rf24_read_register c w CONFIG).2 ||| (1 <<< PWR_UP) ||| (1 <<< PRIM_RX))).1
          STATUS ((1 <<< RX_DR) ||| (1 <<< TX_DS) ||| (1 <<< MAX_RT))).1
        RX_ADDR_P0 (fun i => r.pipe0_reading_address.getD i 0) 5).1).1).1 1) 130 := rfl
  rw [hs]
  obtain ⟨a0, e0⟩ := read_register_frame c w CONFIG
  have hc0 := read_register_lt c w CONFIG
  generalize rf24_read_register c w CONFIG = R0 at e0 hc0 ⊢
  obtain ⟨a1, a2, e1⟩ := write_register_frame c R0.1 CONFIG
    (R0.2 ||| (1 <<< PWR_UP) ||| (1 <<< PRIM_RX))
  generalize (rf24_write_register c R0.1 CONFIG
    (R0.2 ||| (1 <<< PWR_UP) ||| (1 <<< PRIM_RX))).1 = W1 at e1 ⊢
  obtain ⟨a3, a4, e2⟩ := write_register_frame c W1 STATUS ((1 <<< RX_DR) ||| (1 <<< TX_DS) ||| (1 <<< MAX_RT))
  generalize (rf24_write_register c W1 STATUS ((1 <<< RX_DR) ||| (1 <<< TX_DS) ||| (1 <<< MAX_RT))).1 = W2 at e2 ⊢
  obtain ⟨a5, rs, hl, e3⟩ := writeout_register_frame c W2 RX_ADDR_P0
    (fun i => r.pipe0_reading_address.getD i 0) 5 (by decide)
  generalize (rf24_writeout_register c W2 RX_ADDR_P0
    (fun i => r.pipe0_reading_address.getD i 0) 5).1 = W3 at e3 ⊢
  obtain ⟨a6, e4⟩ := flush_rx_trace c W3
  generalize (rf24_flush_rx c W3).1 = W4 at e4 ⊢
  obtain ⟨a7, e5⟩ := flush_tx_frame c W4
  generalize (rf24_flush_tx c W4).1 = W5 at e5 ⊢
  refine ⟨a0, R0.2, a1, a2, a3, a4, a5, a6, a7, rs, hl, ?_⟩
  rw [delay_us_trace, ce_trace, e5, e4, e3, e2, e1, e0, status_mask_byte,
    listen_config_byte _ hc0]
  simp only [List.append_assoc, List.singleton_append, List.cons_append, List.nil_append]

/-- C17 (counterexample): on a chip answering 0, with cached pipe-0 address
1,2,3,4,5, the trace of `rf24_start_listening` begins with the CONFIG
read-modify-write and the STATUS write; the RX_ADDR_P0 write comes only after
the CONFIG write that sets PRIM_RX, not before it. -/
theorem start_listening_config_before_address :
    (rf24_start_listening (constChip 0) ⟨0, 32, [1, 2, 3, 4, 5], 0⟩ ⟨(), []⟩).trace =
      readFrame CONFIG 0 0 ++
      writeFrame CONFIG 0 ((1 <<< PWR_UP) ||| (1 <<< PRIM_RX)) 0 ++
      writeFrame STATUS 0 ((1 <<< RX_DR) ||| (1 <<< TX_DS) ||| (1 <<< MAX_RT)) 0 ++
      burstWriteFrame RX_ADDR_P0 0 [1, 2, 3, 4, 5] [0, 0, 0, 0, 0] ++
      commandFrame FLUSH_RX 0 ++ commandFrame FLUSH_TX 0 ++
      [Event.ce 1, Event.delay_us 130] := by
  decide

/-! ### Availability check and outcome decoding -/

theorem and_bit_ne_zero_iff (x n : Nat) : x &&& (1 <<< n) ≠ 0 ↔ x.testBit n = true := by
  rw [Nat.one_shiftLeft, Nat.and_two_pow]
  cases x.testBit n <;> simp

theorem get_status_trace (c : Chip σ) (w : World σ) :
    (rf24_get_status c w).1.trace = w.trace ++ commandFrame NOP (rf24_get_status c w).2 := by
  simp only [rf24_get_status, csn_trace, spi_xfer_trace, List.append_assoc,
    List.singleton_append, List.cons_append, List.nil_append, commandFrame]
  rfl

theorem status_bit_bytes :
    (1 <<< RX_DR) % 256 = 1 <<< RX_DR ∧ (1 <<< TX_DS) % 256 = 1 <<< TX_DS := by
  decide

/-- C18: `rf24_available` reads the status byte `s` with one NOP transaction and
returns non-zero exactly when RX_DR is set in `s`.  When it is set, the pipe
number `(s >> RX_P_NO) & 7` is stored through a non-null `pipe_num`, STATUS is
written with only the RX_DR bit and, exactly when TX_DS is also set in `s`,
then with only the TX_DS bit.  When RX_DR is clear nothing is written and
`pipe_num` is left untouched. -/
theorem available_spec (c : Chip σ) (w : World σ) (pipe_num : Option Nat) :
    ∃ (s : Nat) (tail : List Event),
      (rf24_available c w pipe_num).1.trace = w.trace ++ commandFrame NOP s ++ tail ∧
      ((rf24_available c w pipe_num).2.1 ≠ 0 ↔ s.testBit RX_DR = true) ∧
      (s.testBit RX_DR = true →
        (rf24_available c w pipe_num).2.2 =
          pipe_num.map (fun _ => (s >>> RX_P_NO) &&& 0b111)) ∧
      (s.testBit RX_DR = true → s.testBit TX_DS = true → ∃ a1 a2 a3 a4,
        tail = writeFrame STATUS a1 (1 <<< RX_DR) a2 ++ writeFrame STATUS a3 (1 <<< TX_DS) a4) ∧
      (s.testBit RX_DR = true → s.testBit TX_DS = false → ∃ a1 a2,
        tail = writeFrame STATUS a1 (1 <<< RX_DR) a2) ∧
      (s.testBit RX_DR = false →
        tail = [] ∧ (rf24_available c w pipe_num).2.2 = pipe_num) := by
  have e0 := get_status_trace c w
  by_cases hrx : (rf24_get_status c w).2 &&& (1 <<< RX_DR) ≠ 0
  · have hb : (rf24_get_status c w).2.testBit RX_DR = true := (and_bit_ne_zero_iff _ _).1 hrx
    obtain ⟨a1, a2, e1⟩ := write_register_frame c (rf24_get_status c w).1 STATUS (1 <<< RX_DR)
    rw [status_bit_bytes.1] at e1
    by_cases htx : (rf24_get_status c w).2 &&& (1 <<< TX_DS) ≠ 0
    · have hb2 : (rf24_get_status c w).2.testBit TX_DS = true :=
        (and_bit_ne_zero_iff _ _).1 htx
      obtain ⟨a3, a4, e2⟩ := write_register_frame c
        (rf24_write_register c (rf24_get_status c w).1 STATUS (1 <<< RX_DR)).1 STATUS
        (1 <<< TX_DS)
      rw [status_bit_bytes.2] at e2
      have e : rf24_available c w pipe_num =
          ((rf24_write_register c
              (rf24_write_register c (rf24_get_status c w).1 STATUS (1 <<< RX_DR)).1 STATUS
              (1 <<< TX_DS)).1,
            (rf24_get_status c w).2 &&& (1 <<< RX_DR),
            pipe_num.map (fun _ => ((rf24_get_status c w).2 >>> RX_P_NO) &&& 0b111)) := by
        simp only [rf24_available]
        rw [if_pos hrx, if_pos htx]
      refine ⟨(rf24_get_status c w).2,
        writeFrame STATUS a1 (1 <<< RX_DR) a2 ++ writeFrame STATUS a3 (1 <<< TX_DS) a4,
        ?_, ?_, ?_, ?_, ?_, ?_⟩
      · rw [e]
        show (rf24_write_register c _ STATUS (1 <<< TX_DS)).1.trace = _
        rw [e2, e1, e0]
        simp only [List.append_assoc]
      · rw [e]
        exact and_bit_ne_zero_iff _ _
      · intro _
        rw [e]
      · intro _ _
        exact ⟨a1, a2, a3, a4, rfl⟩
      · intro _ h
        rw [hb2] at h
        exact absurd h (by decide)
      · intro h
        rw [hb] at h
        exact absurd h (by decide)
    · have hb2 : (rf24_get_status c w).2.testBit TX_DS = false := by
        cases hx : (rf24_get_status c w).2.testBit TX_DS
        · rfl
        · exact absurd ((and_bit_ne_zero_iff _ _).2 hx) htx
      have e : rf24_available c w pipe_num =
          ((rf24_write_register c (rf24_get_status c w).1 STATUS (1 <<< RX_DR)).1,
            (rf24_get_status c w).2 &&& (1 <<< RX_DR),
            pipe_num.map (fun _ => ((rf24_get_status c w).2 >>> RX_P_NO) &&& 0b111)) := by
        simp only [rf24_available]
        rw [if_pos hrx, if_neg htx]
      refine ⟨(rf24_get_status c w).2, writeFrame STATUS a1 (1 <<< RX_DR) a2,
        ?_, ?_, ?_, ?_, ?_, ?_⟩
      · rw [e]
        show (rf24_write_register c _ STATUS (1 <<< RX_DR)).1.trace = _
        rw [e1, e0]
      · rw [e]
        exact and_bit_ne_zero_iff _ _
      · intro _
        rw [e]
      · intro _ h
        rw [hb2] at h
        exact absurd h (by decide)
      · intro _ _
        exact ⟨a1, a2, rfl⟩
      · intro h
        rw [hb] at h
        exact absurd h (by decide)
  · have hb : (rf24_get_status c w).2.testBit RX_DR = false := by
      cases hx : (rf24_get_status c w).2.testBit RX_DR
      · rfl
      · exact absurd ((and_bit_ne_zero_iff _ _).2 hx) hrx
    have e : rf24_available c w pipe_num =
        ((rf24_get_status c w).1, (rf24_get_status c w).2 &&& (1 <<< RX_DR), pipe_num) := by
      simp only [rf24_available]
      rw [if_neg hrx]
    refine ⟨(rf24_get_status c w).2, [], ?_, ?_, ?_, ?_, ?_, ?_⟩
    · rw [e]
      show (rf24_get_status c w).1.trace = _
      rw [e0, List.append_nil]
    · rw [e]
      exact and_bit_ne_zero_iff _ _
    · intro h
      rw [hb] at h
      exact absurd h (by decide)
    · intro h
      rw [hb] at h
      exact absurd h (by decide)
    · intro h
      rw [hb] at h
      exact absurd h (by decide)
    · intro _
      exact ⟨rfl, by rw [e]⟩

/-- C19: `rf24_what_happened` performs exactly one transaction, the write of
RX_DR|TX_DS|MAX_RT to STATUS; with `s` the status answered to its command
byte, `tx_ok` is non-zero iff TX_DS is set in `s`, `tx_fail` iff MAX_RT, and
`rx_ready` iff RX_DR.  The function reaches the device instance only for
the transport, so it has no device field in its result. -/
theorem what_happened_spec (c : Chip σ) (w : World σ) :
    ∃ s x,
      (rf24_what_happened c w).1.trace = w.trace ++ writeFrame STATUS s ((1 <<< RX_DR) ||| (1 <<< TX_DS) ||| (1 <<< MAX_RT)) x ∧
      ((rf24_what_happened c w).2.1 ≠ 0 ↔ s.testBit TX_DS = true) ∧
      ((rf24_what_happened c w).2.2.1 ≠ 0 ↔ s.testBit MAX_RT = true) ∧
      ((rf24_what_happened c w).2.2.2 ≠ 0 ↔ s.testBit RX_DR = true) := by
  obtain ⟨x, h⟩ := write_register_trace c w STATUS ((1 <<< RX_DR) ||| (1 <<< TX_DS) ||| (1 <<< MAX_RT))
  rw [status_mask_byte] at h
  exact ⟨(rf24_write_register c w STATUS ((1 <<< RX_DR) ||| (1 <<< TX_DS) ||| (1 <<< MAX_RT))).2, x, h,
    and_bit_ne_zero_iff _ _, and_bit_ne_zero_iff _ _, and_bit_ne_zero_iff _ _⟩

/-! ### Opening a reading pipe -/

theorem pipe_tables : ∀ child, child < 6 →
    child_pipe.get? child = some (RX_ADDR_P0 + child) ∧
    child_payload_size.get? child = some (RX_PW_P0 + child) ∧
    child_pipe_enable.get? child = some (1 <<< child) := by
  decide

/-- The steps of `rf24_open_reading_pipe` for a pipe id in 0..5. -/
theorem open_reading_pipe_eq (c : Chip σ) (r : rf24) (w : World σ) (child : Nat)
    (A : Nat → Nat) (hc : child < 6) :
    rf24_open_reading_pipe c r w child A =
      some ((rf24_write_register c
          (rf24_read_register c
            (rf24_write_register c
              (rf24_writeout_register c w (RX_ADDR_P0 + child) A (if child < 2 then 5 else 1)).1
              (RX_PW_P0 + child) r.payload_size).1 EN_RXADDR).1
          EN_RXADDR
          ((rf24_read_register c
            (rf24_write_register c
              (rf24_writeout_register c w (RX_ADDR_P0 + child) A (if child < 2 then 5 else 1)).1
              (RX_PW_P0 + child) r.payload_size).1 EN_RXADDR).2 ||| (1 <<< child))).1,
        if child = 0 then
          { r with pipe0_reading_address := (List.range 5).map (fun i => A i % 256) }
        else r) := by
  obtain ⟨t1, t2, t3⟩ := pipe_tables child hc
  have hm : child % 256 = child := Nat.mod_eq_of_lt (by omega)
  unfold rf24_open_reading_pipe
  simp only [hm, t1, t2, t3]
  rw [if_pos (by omega : child ≤ 6)]
  by_cases h0 : child = 0
  · subst h0
    rfl
  · by_cases h2 : child < 2
    · simp only [h0, h2, if_true, if_false]
    · simp only [h0, h2, if_false]

theorem or_bit_byte (en child : Nat) (h : en < 256) (hc : child < 6) :
    (en ||| (1 <<< child)) % 256 = en ||| (1 <<< child) := by
  apply Nat.mod_eq_of_lt
  have h1 : en < 2 ^ 8 := h
  have h2 : 1 <<< child < 2 ^ 8 := by
    rw [Nat.one_shiftLeft]
    exact Nat.pow_lt_pow_right (by decide) (by omega)
  exact Nat.or_lt_two_pow h1 h2

theorem or_bit_testBit_other (en child j : Nat) (h : j ≠ child) :
    (en ||| (1 <<< child)).testBit j = en.testBit j := by
  rw [Nat.testBit_or, Nat.one_shiftLeft, Nat.testBit_two_pow]
  have : ¬ child = j := fun e => h e.symm
  simp [this]

/-- C20: for every pipe id in 0..5, `rf24_open_reading_pipe` writes to
RX_ADDR_P<id> the full 5 address bytes when id is 0 or 1 and only the first
address byte when id is 2..5; writes the configured payload size to
RX_PW_P<id>; reads EN_RXADDR and writes it back OR'd with the bit of that pipe,
so every other enable bit is as read.  The cached pipe-0 address becomes the
given address when id = 0 and is unchanged otherwise. -/
theorem open_reading_pipe_spec (c : Chip σ) (r : rf24) (w : World σ) (child : Nat)
    (A : Nat → Nat) (hc : child < 6) (hp : r.payload_size < 256) :
    ∃ w1 st a1 a2 a3 en a4 a5, ∃ rs : List Nat,
      rf24_open_reading_pipe c r w child A =
        some (w1, if child = 0 then
          { r with pipe0_reading_address := (List.range 5).map (fun i => A i % 256) }
          else r) ∧
      rs.length = (if child < 2 then 5 else 1) ∧
      w1.trace = w.trace ++
        (burstWriteFrame (RX_ADDR_P0 + child) st
            ((List.range (if child < 2 then 5 else 1)).map (fun i => A i % 256)) rs ++
          writeFrame (RX_PW_P0 + child) a1 r.payload_size a2 ++
          readFrame EN_RXADDR a3 en ++
          writeFrame EN_RXADDR a4 (en ||| (1 <<< child)) a5) ∧
      (∀ j, j ≠ child → (en ||| (1 <<< child)).testBit j = en.testBit j) := by
  have hn : (if child < 2 then 5 else 1) < 256 := by split_ifs <;> decide
  obtain ⟨st, rs, hl, e1⟩ := writeout_register_frame c w (RX_ADDR_P0 + child) A
    (if child < 2 then 5 else 1) hn
  have heq := open_reading_pipe_eq c r w child A hc
  generalize (rf24_writeout_register c w (RX_ADDR_P0 + child) A
    (if child < 2 then 5 else 1)).1 = W1 at e1 heq
  obtain ⟨a1, a2, e2⟩ := write_register_frame c W1 (RX_PW_P0 + child) r.payload_size
  rw [Nat.mod_eq_of_lt hp] at e2
  generalize (rf24_write_register c W1 (RX_PW_P0 + child) r.payload_size).1 = W2 at e2 heq
  obtain ⟨a3, e3⟩ := read_register_frame c W2 EN_RXADDR
  have hen := read_register_lt c W2 EN_RXADDR
  generalize rf24_read_register c W2 EN_RXADDR = R3 at e3 hen heq
  obtain ⟨a4, a5, e4⟩ := write_register_frame c R3.1 EN_RXADDR (R3.2 ||| (1 <<< child))
  rw [or_bit_byte _ _ hen hc] at e4
  refine ⟨_, st, a1, a2, a3, R3.2, a4, a5, rs, heq, hl, ?_,
    fun j hj => or_bit_testBit_other _ _ _ hj⟩
  rw [e4, e3, e2, e1]
  simp only [List.append_assoc]

/-- Witness of C20: pipe 3 on a chip answering 0. -/
theorem open_reading_pipe_spec_witness :
    ((3 : Nat) < 6 ∧ (⟨0, 32, [0, 0, 0, 0, 0], 0⟩ : rf24).payload_size < 256) ∧
    ∃ w1 st a1 a2 a3 en a4 a5, ∃ rs : List Nat,
      rf24_open_reading_pipe (constChip 0) (⟨0, 32, [0, 0, 0, 0, 0], 0⟩ : rf24) (⟨(), []⟩ : World Unit) 3 (fun i => i + 1) =
        some (w1, if 3 = 0 then
          { (⟨0, 32, [0, 0, 0, 0, 0], 0⟩ : rf24) with pipe0_reading_address := (List.range 5).map (fun i => (fun i => i + 1) i % 256) }
          else (⟨0, 32, [0, 0, 0, 0, 0], 0⟩ : rf24)) ∧
      rs.length = (if 3 < 2 then 5 else 1) ∧
      w1.trace = (⟨(), []⟩ : World Unit).trace ++
        (burstWriteFrame (RX_ADDR_P0 + 3) st
            ((List.range (if 3 < 2 then 5 else 1)).map (fun i => (fun i => i + 1) i % 256)) rs ++
          writeFrame (RX_PW_P0 + 3) a1 (⟨0, 32, [0, 0, 0, 0, 0], 0⟩ : rf24).payload_size a2 ++
          readFrame EN_RXADDR a3 en ++
          writeFrame EN_RXADDR a4 (en ||| (1 <<< 3)) a5) ∧
      (∀ j, j ≠ 3 → (en ||| (1 <<< 3)).testBit j = en.testBit j) :=
  ⟨by decide, open_reading_pipe_spec (constChip 0) (⟨0, 32, [0, 0, 0, 0, 0], 0⟩ : rf24) (⟨(), []⟩ : World Unit) 3 (fun i => i + 1) (by decide) (by decide)⟩

/-! ### Register access primitives -/

theorem readout_register_frame (c : Chip σ) (w : World σ) (reg : Nat) (buf : Nat → Nat)
    (len : Nat) (hlen : len < 256) :
    ∃ rs : List Nat, rs.length = len ∧
      (rf24_readout_register c w reg buf len).1.trace = w.trace ++
        burstReadFrame reg (rf24_readout_register c w reg buf len).2.1 rs ∧
      (∀ i, i < len → (rf24_readout_register c w reg buf len).2.2 i = rs.getD i 0) ∧
      (∀ i, len ≤ i → (rf24_readout_register c w reg buf len).2.2 i = buf i) := by
  obtain ⟨rs, hl, ht, hin, hout⟩ := xfer_in_trace c (len % 256)
    (spi_xfer c (csn c w 0) (R_REGISTER ||| (REGISTER_MASK &&& reg))).1 buf 0
  rw [Nat.mod_eq_of_lt hlen] at hl ht hin hout
  refine ⟨rs, hl, ?_, ?_, ?_⟩
  · simp only [rf24_readout_register, csn_trace, Nat.mod_eq_of_lt hlen]
    rw [ht, spi_xfer_trace, csn_trace, read_cmd_lt]
    simp [burstReadFrame, hl]
  · intro i hi
    have := hin i hi
    rw [Nat.zero_add] at this
    simp only [rf24_readout_register, Nat.mod_eq_of_lt hlen]
    exact this
  · intro i hi
    simp only [rf24_readout_register, Nat.mod_eq_of_lt hlen]
    exact hout i (Or.inr (by omega))

theorem writeout_register_status_frame (c : Chip σ) (w : World σ) (reg : Nat)
    (buf : Nat → Nat) (len : Nat) (hlen : len < 256) :
    ∃ rs : List Nat, rs.length = len ∧
      (rf24_writeout_register c w reg buf len).1.trace = w.trace ++
        burstWriteFrame reg (rf24_writeout_register c w reg buf len).2
          ((List.range len).map (fun i => buf i % 256)) rs := by
  obtain ⟨rs, hl, ht⟩ := xfer_out_trace c (len % 256)
    (spi_xfer c (csn c w 0) (W_REGISTER ||| (REGISTER_MASK &&& reg))).1 buf 0
  rw [Nat.mod_eq_of_lt hlen] at hl ht
  refine ⟨rs, hl, ?_⟩
  simp only [rf24_writeout_register, csn_trace, Nat.mod_eq_of_lt hlen]
  rw [ht, spi_xfer_trace, csn_trace, write_cmd_lt]
  simp [burstWriteFrame]

/-- C21: for every register address, buffer and length in 0..255, each
register-access primitive produces exactly: chip-select low, one command byte
(`R_REGISTER | (reg & REGISTER_MASK)` for reads, `W_REGISTER | (reg &
REGISTER_MASK)` for writes), `len` data exchanges (one for the single-byte
forms), chip-select high.  The multi-byte forms and `rf24_write_register`
return the byte answered to the command byte, `rf24_read_register` returns the
data reply, and `rf24_readout_register` stores the `len` replies in order. -/
theorem register_access_frames (c : Chip σ) (w : World σ) (reg : Nat) (buf : Nat → Nat)
    (len v : Nat) (hlen : len < 256) :
    (∃ rs : List Nat, rs.length = len ∧
        (rf24_readout_register c w reg buf len).1.trace = w.trace ++ burstReadFrame reg (rf24_readout_register c w reg buf len).2.1 rs ∧
        (∀ i, i < len → (rf24_readout_register c w reg buf len).2.2 i = rs.getD i 0) ∧
        (∀ i, len ≤ i → (rf24_readout_register c w reg buf len).2.2 i = buf i)) ∧
    (∃ rs : List Nat, rs.length = len ∧
        (rf24_writeout_register c w reg buf len).1.trace = w.trace ++
          burstWriteFrame reg (rf24_writeout_register c w reg buf len).2 ((List.range len).map (fun i => buf i % 256)) rs) ∧
    (∃ x, (rf24_write_register c w reg v).1.trace = w.trace ++ writeFrame reg (rf24_write_register c w reg v).2 (v % 256) x) ∧
    (∃ st, (rf24_read_register c w reg).1.trace = w.trace ++ readFrame reg st (rf24_read_register c w reg).2) := by
  refine ⟨readout_register_frame c w reg buf len hlen,
    writeout_register_status_frame c w reg buf len hlen, ?_, read_register_frame c w reg⟩
  obtain ⟨x, h⟩ := write_register_trace c w reg v
  exact ⟨x, h⟩

/-- Witness of C21: register 0x0A, three bytes, on a chip answering 9. -/
theorem register_access_frames_witness :
    (3 : Nat) < 256 ∧
    ((∃ rs : List Nat, rs.length = 3 ∧
        (rf24_readout_register (constChip 9) (⟨(), []⟩ : World Unit) RX_ADDR_P0 (fun i => i + 1) 3).1.trace = (⟨(), []⟩ : World Unit).trace ++ burstReadFrame RX_ADDR_P0 (rf24_readout_register (constChip 9) (⟨(), []⟩ : World Unit) RX_ADDR_P0 (fun i => i + 1) 3).2.1 rs ∧
        (∀ i, i < 3 → (rf24_readout_register (constChip 9) (⟨(), []⟩ : World Unit) RX_ADDR_P0 (fun i => i + 1) 3).2.2 i = rs.getD i 0) ∧
        (∀ i, 3 ≤ i → (rf24_readout_register (constChip 9) (⟨(), []⟩ : World Unit) RX_ADDR_P0 (fun i => i + 1) 3).2.2 i = (fun i => i + 1) i)) ∧
    (∃ rs : List Nat, rs.length = 3 ∧
        (rf24_writeout_register (constChip 9) (⟨(), []⟩ : World Unit) RX_ADDR_P0 (fun i => i + 1) 3).1.trace = (⟨(), []⟩ : World Unit).trace ++
          burstWriteFrame RX_ADDR_P0 (rf24_writeout_register (constChip 9) (⟨(), []⟩ : World Unit) RX_ADDR_P0 (fun i => i + 1) 3).2 ((List.range 3).map (fun i => (fun i => i + 1) i % 256)) rs) ∧
    (∃ x, (rf24_write_register (constChip 9) (⟨(), []⟩ : World Unit) RX_ADDR_P0 7).1.trace = (⟨(), []⟩ : World Unit).trace ++ writeFrame RX_ADDR_P0 (rf24_write_register (constChip 9) (⟨(), []⟩ : World Unit) RX_ADDR_P0 7).2 (7 % 256) x) ∧
    (∃ st, (rf24_read_register (constChip 9) (⟨(), []⟩ : World Unit) RX_ADDR_P0).1.trace = (⟨(), []⟩ : World Unit).trace ++ readFrame RX_ADDR_P0 st (rf24_read_register (constChip 9) (⟨(), []⟩ : World Unit) RX_ADDR_P0).2)) :=
  ⟨by decide, register_access_frames (constChip 9) (⟨(), []⟩ : World Unit) RX_ADDR_P0 (fun i => i + 1) 3 7 (by decide)⟩

/-! ### Power state -/

theorem byte_testBit_high (x j : Nat) (hx : x < 256) (hj : 8 ≤ j) : x.testBit j = false := by
  apply Nat.testBit_lt_two_pow
  calc x < 2 ^ 8 := hx
    _ ≤ 2 ^ j := Nat.pow_le_pow_right (by decide) hj

/-- Clearing bit `b` of a byte leaves every other bit as it was. -/
theorem clear_bit_testBit (x b j : Nat) (hx : x < 256) :
    (x &&& (255 ^^^ (1 <<< b))).testBit j = (x.testBit j && decide (j ≠ b)) := by
  rw [Nat.testBit_and, Nat.testBit_xor, Nat.one_shiftLeft, Nat.testBit_two_pow,
    show (255 : Nat) = 2 ^ 8 - 1 from rfl, Nat.testBit_two_pow_sub_one]
  by_cases hj : j < 8
  · by_cases hjb : b = j
    · subst hjb
      simp [hj]
    · have : j ≠ b := fun e => hjb e.symm
      simp [hj, hjb, this]
  · rw [byte_testBit_high x j hx (by omega)]
    simp

theorem power_up_byte (c0 : Nat) (h : c0 < 256) :
    (c0 ||| (1 <<< PWR_UP)) % 256 = c0 ||| (1 <<< PWR_UP) := by
  apply Nat.mod_eq_of_lt
  have h1 : c0 < 2 ^ 8 := h
  exact Nat.or_lt_two_pow h1 (by decide)

theorem power_up_trace (c : Chip σ) (w : World σ) :
    ∃ st1 c0 st2 x, c0 < 256 ∧ (rf24_power_up c w).trace = w.trace ++
      (readFrame CONFIG st1 c0 ++ writeFrame CONFIG st2 (c0 ||| (1 <<< PWR_UP)) x) := by
  obtain ⟨st1, h1⟩ := read_register_frame c w CONFIG
  obtain ⟨st2, x, h2⟩ := write_register_frame c (rf24_read_register c w CONFIG).1 CONFIG
    ((rf24_read_register c w CONFIG).2 ||| (1 <<< PWR_UP))
  refine ⟨st1, (rf24_read_register c w CONFIG).2, st2, x, read_register_lt c w CONFIG, ?_⟩
  simp only [rf24_power_up]
  rw [h2, h1, power_up_byte _ (read_register_lt c w CONFIG), List.append_assoc]

theorem power_down_frames (c : Chip σ) (w : World σ) :
    ∃ st1 c0 st2 x, c0 < 256 ∧ (rf24_power_down c w).trace = w.trace ++
      (readFrame CONFIG st1 c0 ++ writeFrame CONFIG st2 (c0 &&& (255 ^^^ (1 <<< PWR_UP))) x) := by
  obtain ⟨st1, h1⟩ := read_register_frame c w CONFIG
  obtain ⟨st2, x, h2⟩ := write_register_frame c (rf24_read_register c w CONFIG).1 CONFIG
    ((rf24_read_register c w CONFIG).2 &&& (255 ^^^ (1 <<< PWR_UP)))
  refine ⟨st1, (rf24_read_register c w CONFIG).2, st2, x, read_register_lt c w CONFIG, ?_⟩
  simp only [rf24_power_down]
  rw [h2, h1, clear_pwr_up_byte, List.append_assoc]

set_option maxRecDepth 100000 in
theorem power_cycle_byte : ∀ x, x < 256 →
    (((x &&& (255 ^^^ (1 <<< PWR_UP))) % 256 % 256) ||| (1 <<< PWR_UP)) % 256
      = x ||| (1 <<< PWR_UP) := by
  decide

/-- On the storing chip, `rf24_power_down` then `rf24_power_up` leaves in CONFIG
the byte that was there with PWR_UP set, and every other register as it was. -/
theorem regChip_power_cycle (s : RegChip) (tr : List Event) (reg i : Nat) :
    (rf24_power_up regChip (rf24_power_down regChip (⟨s, tr⟩ : World RegChip))).chip.regs reg i =
      if reg = CONFIG ∧ i = 0 then (s.regs CONFIG 0 % 256) ||| (1 <<< PWR_UP)
      else s.regs reg i := by
  have hreg : CONFIG < 32 := by decide
  have e1 : ∀ (w : World RegChip) (v r i : Nat),
      (rf24_write_register regChip w CONFIG v).1.chip.regs r i =
        if r = CONFIG ∧ i = 0 then v % 256 else w.chip.regs r i :=
    fun w v r i => regChip_write_register w CONFIG v hreg r i
  have e2 : ∀ w : World RegChip,
      (rf24_read_register regChip w CONFIG).2 = w.chip.regs CONFIG 0 % 256 :=
    fun w => regChip_read_register_value w CONFIG hreg
  have e3 : ∀ w : World RegChip,
      (rf24_read_register regChip w CONFIG).1.chip.regs = w.chip.regs :=
    fun w => regChip_read_register w CONFIG hreg
  have hb := power_cycle_byte (s.regs CONFIG 0 % 256) (Nat.mod_lt _ (by decide))
  simp only [rf24_power_up, rf24_power_down, e1, e2, e3]
  by_cases h : reg = CONFIG ∧ i = 0
  · simp only [h, and_self, if_true]
    exact hb
  · simp only [h, if_false]

theorem frames_csn_count (r1 st1 v1 r2 st2 v2 x : Nat) (level : Nat) :
    (readFrame r1 st1 v1 ++ writeFrame r2 st2 v2 x).count (Event.csn level) =
      if level = 0 ∨ level = 1 then 2 else 0 := by
  simp only [readFrame, writeFrame, List.cons_append, List.nil_append, List.count_cons,
    List.count_nil]
  by_cases h0 : level = 0
  · subst h0
    simp
  · by_cases h1 : level = 1
    · subst h1
      simp
    · have e0 : ¬ (0 = level) := fun h => h0 h.symm
      have e1 : ¬ (1 = level) := fun h => h1 h.symm
      simp [h0, h1, e0, e1]

/-- C22 (amended): for every CONFIG value `c0` read from the chip,
`rf24_power_down` performs exactly the read of CONFIG and the write of `c0`
with only PWR_UP cleared, and `rf24_power_up` exactly the read of CONFIG and
the write of `c0` with only PWR_UP set: no other register is accessed, the
chip-enable line is never driven, and chip-select is driven low and high
exactly twice, once around each of the two register transactions.  Over the
storing chip, power-down followed by power-up leaves every CONFIG bit other
than PWR_UP, and every other register, as it was. -/
theorem power_state_frame (c : Chip σ) (w : World σ) (s : RegChip) (tr : List Event) :
    (∃ st1 c0 st2 x, (rf24_power_down c w).trace = w.trace ++
        (readFrame CONFIG st1 c0 ++
          writeFrame CONFIG st2 (c0 &&& (255 ^^^ (1 <<< PWR_UP))) x) ∧
      (c0 &&& (255 ^^^ (1 <<< PWR_UP))).testBit PWR_UP = false ∧
      (∀ j, j ≠ PWR_UP → (c0 &&& (255 ^^^ (1 <<< PWR_UP))).testBit j = c0.testBit j) ∧
      (∀ level, Event.ce level ∉ readFrame CONFIG st1 c0 ++
          writeFrame CONFIG st2 (c0 &&& (255 ^^^ (1 <<< PWR_UP))) x) ∧
      ∀ level, (readFrame CONFIG st1 c0 ++
          writeFrame CONFIG st2 (c0 &&& (255 ^^^ (1 <<< PWR_UP))) x).count (Event.csn level) =
        if level = 0 ∨ level = 1 then 2 else 0) ∧
    (∃ st1 c0 st2 x, (rf24_power_up c w).trace = w.trace ++
        (readFrame CONFIG st1 c0 ++ writeFrame CONFIG st2 (c0 ||| (1 <<< PWR_UP)) x) ∧
      (c0 ||| (1 <<< PWR_UP)).testBit PWR_UP = true ∧
      (∀ j, j ≠ PWR_UP → (c0 ||| (1 <<< PWR_UP)).testBit j = c0.testBit j) ∧
      (∀ level, Event.ce level ∉ readFrame CONFIG st1 c0 ++
          writeFrame CONFIG st2 (c0 ||| (1 <<< PWR_UP)) x) ∧
      ∀ level, (readFrame CONFIG st1 c0 ++
          writeFrame CONFIG st2 (c0 ||| (1 <<< PWR_UP)) x).count (Event.csn level) =
        if level = 0 ∨ level = 1 then 2 else 0) ∧
    (∀ j, j ≠ PWR_UP →
      ((rf24_power_up regChip (rf24_power_down regChip ⟨s, tr⟩)).chip.regs CONFIG 0).testBit j =
        (s.regs CONFIG 0 % 256).testBit j) ∧
    (∀ reg i, ¬ (reg = CONFIG ∧ i = 0) →
      (rf24_power_up regChip (rf24_power_down regChip ⟨s, tr⟩)).chip.regs reg i =
        s.regs reg i) := by
  refine ⟨?_, ?_, ?_, ?_⟩
  · obtain ⟨st1, c0, st2, x, hc0, ht⟩ := power_down_frames c w
    refine ⟨st1, c0, st2, x, ht, ?_, ?_, ?_, ?_⟩
    · rw [clear_bit_testBit _ _ _ hc0]
      simp
    · intro j hj
      rw [clear_bit_testBit _ _ _ hc0]
      simp [hj]
    · intro level
      simp [readFrame, writeFrame]
    · intro level
      exact frames_csn_count _ _ _ _ _ _ _ level
  · obtain ⟨st1, c0, st2, x, -, ht⟩ := power_up_trace c w
    refine ⟨st1, c0, st2, x, ht, ?_, ?_, ?_, ?_⟩
    · rw [Nat.testBit_or, Nat.one_shiftLeft, Nat.testBit_two_pow_self]
      simp
    · intro j hj
      exact or_bit_testBit_other _ _ _ hj
    · intro level
      simp [readFrame, writeFrame]
    · intro level
      exact frames_csn_count _ _ _ _ _ _ _ level
  · intro j hj
    rw [regChip_power_cycle, if_pos ⟨rfl, rfl⟩]
    exact or_bit_testBit_other _ _ _ hj
  · intro reg i h
    rw [regChip_power_cycle, if_neg h]

/-- C22 (counterexample): on a chip answering 0 to every byte, the transport
trace of `rf24_power_down` and of `rf24_power_up` from an empty trace holds
chip-select events: the line is driven low and high around the CONFIG read and
again around the CONFIG write, so a control line is touched by both. -/
theorem power_state_drives_chip_select :
    (rf24_power_down (constChip 0) ⟨(), []⟩).trace =
      [Event.csn 0, Event.xfer (R_REGISTER ||| (REGISTER_MASK &&& CONFIG)) 0,
        Event.xfer 255 0, Event.csn 1,
       Event.csn 0, Event.xfer (W_REGISTER ||| (REGISTER_MASK &&& CONFIG)) 0,
        Event.xfer 0 0, Event.csn 1] ∧
    (rf24_power_up (constChip 0) ⟨(), []⟩).trace =
      [Event.csn 0, Event.xfer (R_REGISTER ||| (REGISTER_MASK &&& CONFIG)) 0,
        Event.xfer 255 0, Event.csn 1,
       Event.csn 0, Event.xfer (W_REGISTER ||| (REGISTER_MASK &&& CONFIG)) 0,
        Event.xfer (1 <<< PWR_UP) 0, Event.csn 1] ∧
    Event.csn 0 ∈ (rf24_power_down (constChip 0) ⟨(), []⟩).trace ∧
    Event.csn 1 ∈ (rf24_power_down (constChip 0) ⟨(), []⟩).trace ∧
    Event.csn 0 ∈ (rf24_power_up (constChip 0) ⟨(), []⟩).trace ∧
    Event.csn 1 ∈ (rf24_power_up (constChip 0) ⟨(), []⟩).trace := by
  decide

/-! ### PA level outside the four valid levels -/

theorem or_and_self_mask (y m : Nat) : (y ||| m) &&& m = m := by
  apply Nat.eq_of_testBit_eq
  intro i
  rw [Nat.testBit_and, Nat.testBit_or]
  cases y.testBit i <;> cases m.testBit i <;> rfl

theorem and_clear_and_mask (x m : Nat) (hm : m < 256) : (x &&& (255 ^^^ m)) &&& m = 0 := by
  apply Nat.eq_of_testBit_eq
  intro i
  rw [Nat.testBit_and, Nat.testBit_and, Nat.testBit_xor, Nat.zero_testBit,
    show (255 : Nat) = 2 ^ 8 - 1 from rfl, Nat.testBit_two_pow_sub_one]
  by_cases hi : i < 8
  · cases x.testBit i <;> cases m.testBit i <;> simp [hi]
  · rw [byte_testBit_high m i hm (by omega)]
    simp

/-- C23 (amended): for the level RF24_PA_ERROR, `rf24_set_pa_level` writes
RF_SETUP with both power bits set (the maximum level); for a value outside the
five values of the level enumeration it writes RF_SETUP with both power bits
clear (the minimum level). -/
theorem set_pa_level_invalid (c : Chip σ) (w : World σ) (level : Nat) :
    ∃ st1 s0 st2 x v,
      (rf24_set_pa_level c w level).trace = w.trace ++
        (readFrame RF_SETUP st1 s0 ++ writeFrame RF_SETUP st2 v x) ∧
      (level = RF24_PA_ERROR →
        v = (s0 &&& (255 ^^^ ((1 <<< RF_PWR_LOW) ||| (1 <<< RF_PWR_HIGH)))) ||| ((1 <<< RF_PWR_LOW) ||| (1 <<< RF_PWR_HIGH)) ∧ v &&& ((1 <<< RF_PWR_LOW) ||| (1 <<< RF_PWR_HIGH)) = ((1 <<< RF_PWR_LOW) ||| (1 <<< RF_PWR_HIGH))) ∧
      (level ≠ RF24_PA_MIN → level ≠ RF24_PA_LOW → level ≠ RF24_PA_HIGH →
        level ≠ RF24_PA_MAX → level ≠ RF24_PA_ERROR →
        v = s0 &&& (255 ^^^ ((1 <<< RF_PWR_LOW) ||| (1 <<< RF_PWR_HIGH))) ∧ v &&& ((1 <<< RF_PWR_LOW) ||| (1 <<< RF_PWR_HIGH)) = 0) := by
  obtain ⟨st1, s0, st2, x, ht⟩ := set_pa_level_trace c w level
  refine ⟨st1, s0, st2, x, paLevelByte s0 level, ht, ?_, ?_⟩
  · intro h
    subst h
    have e : paLevelByte s0 RF24_PA_ERROR = (s0 &&& (255 ^^^ ((1 <<< RF_PWR_LOW) ||| (1 <<< RF_PWR_HIGH)))) ||| ((1 <<< RF_PWR_LOW) ||| (1 <<< RF_PWR_HIGH)) := rfl
    rw [e]
    exact ⟨rfl, or_and_self_mask _ _⟩
  · intro h1 h2 h3 h4 h5
    have e : paLevelByte s0 level = s0 &&& (255 ^^^ ((1 <<< RF_PWR_LOW) ||| (1 <<< RF_PWR_HIGH))) := by
      simp only [paLevelByte, h1, h2, h3, h4, h5, if_false]
    rw [e]
    exact ⟨rfl, and_clear_and_mask _ _ (by decide)⟩

/-- C23 (counterexample): the level value 5 is none of MIN, LOW, HIGH, MAX (nor
RF24_PA_ERROR); on a chip whose RF_SETUP reads 0xFF, `rf24_set_pa_level(5)`
writes 0xF9: both power bits clear, not set. -/
theorem set_pa_level_out_of_range_is_min :
    (5 ≠ RF24_PA_MIN ∧ 5 ≠ RF24_PA_LOW ∧ 5 ≠ RF24_PA_HIGH ∧ 5 ≠ RF24_PA_MAX) ∧
    (rf24_set_pa_level (constChip 255) ⟨(), []⟩ 5).trace =
      readFrame RF_SETUP 255 255 ++ writeFrame RF_SETUP 255 0xF9 255 ∧
    0xF9 &&& ((1 <<< RF_PWR_LOW) ||| (1 <<< RF_PWR_HIGH)) = 0 := by
  decide

/-! ### The payload size over sequences of operations -/

theorem min_t_u8_le_right (a b : Nat) (hb : b < 256) : min_t_u8 a b ≤ b := by
  unfold min_t_u8
  rw [Nat.mod_eq_of_lt hb]
  split_ifs with h
  · exact Nat.le_of_lt h
  · exact Nat.le_refl b

theorem open_reading_pipe_payload_size (c : Chip σ) (r : rf24) (w : World σ) (child : Nat)
    (A : Nat → Nat) (s1 : World σ × rf24)
    (h : rf24_open_reading_pipe c r w child A = some s1) :
    s1.2.payload_size = r.payload_size := by
  unfold rf24_open_reading_pipe at h
  split_ifs at h with h0 h6
  all_goals first
    | (split at h
       · injection h with h
         rw [← h]
       · exact absurd h (by simp))
    | (injection h with h
       rw [← h])

theorem write_payload_size (c : Chip σ) (r : rf24) (w : World σ) (buf : Nat → Nat) (len : Nat) :
    (rf24_write c r w buf len).2.1.payload_size = r.payload_size := by
  unfold rf24_write
  simp only
  split_ifs <;> rfl

/-- Every operation other than `rf24_init` and `rf24_set_payload_size` leaves
the payload size as it was. -/
theorem applyOp_payload_size (c : Chip σ) (op : DriverOp σ) (s s1 : World σ × rf24)
    (h : applyOp c op s = some s1)
    (hinit : op ≠ DriverOp.init) (hset : ∀ size, op ≠ DriverOp.set_payload_size size) :
    s1.2.payload_size = s.2.payload_size := by
  cases op with
  | init => exact absurd rfl hinit
  | set_payload_size size => exact absurd rfl (hset size)
  | open_reading_pipe child address =>
    exact open_reading_pipe_payload_size c s.2 s.1 child address s1 h
  | set_data_rate speed =>
    simp only [applyOp] at h
    injection h with h
    rw [← h, set_data_rate_eq]
  | write buf len =>
    simp only [applyOp] at h
    injection h with h
    rw [← h]
    exact write_payload_size c s.2 s.1 buf len
  | enable_dynamic_payloads =>
    simp only [applyOp] at h
    injection h with h
    rw [← h]
    rfl
  | transport f =>
    simp only [applyOp] at h
    injection h with h
    rw [← h]

theorem init_payload_size (c : Chip σ) (r : rf24) (w : World σ) :
    (rf24_init c r w).2.payload_size = 32 := by
  obtain ⟨a0, a1, a2, s0, a3, a4, a5, s1, a6, a7, a8, rb1, a9, s2, a10, a11, a12, rb2, a13, c0,
    a14, a15, a16, a17, a18, a19, a20, a21, a22, a23, -, hr⟩ := init_spec c r w
  rw [hr]

theorem applyOp_payload_size_le (c : Chip σ) (op : DriverOp σ) (s s1 : World σ × rf24)
    (h : applyOp c op s = some s1) (hs : s.2.payload_size ≤ 32) : s1.2.payload_size ≤ 32 := by
  by_cases hinit : op = DriverOp.init
  · subst hinit
    simp only [applyOp] at h
    injection h with h
    rw [← h, init_payload_size]
  · by_cases hset : ∃ size, op = DriverOp.set_payload_size size
    · obtain ⟨size, hop⟩ := hset
      subst hop
      simp only [applyOp] at h
      injection h with h
      rw [← h]
      exact min_t_u8_le_right size 32 (by decide)
    · rw [applyOp_payload_size c op s s1 h hinit (fun size e => hset ⟨size, e⟩)]
      exact hs

theorem runOps_payload_size_le (c : Chip σ) (ops : List (DriverOp σ)) :
    ∀ (s s1 : World σ × rf24), runOps c ops s = some s1 → s.2.payload_size ≤ 32 →
      s1.2.payload_size ≤ 32 := by
  induction ops with
  | nil =>
    intro s s1 h hs
    simp only [runOps] at h
    injection h with h
    rw [← h]
    exact hs
  | cons op ops ih =>
    intro s s1 h hs
    simp only [runOps] at h
    cases hop : applyOp c op s with
    | none => rw [hop] at h; exact absurd h (by simp)
    | some s2 =>
      rw [hop] at h
      exact ih s2 s1 h (applyOp_payload_size_le c op s s2 hop hs)

/-- C24: in every state reached from `rf24_init` by any sequence of driver
operations the payload size is at most 32: `rf24_init` sets it to 32,
`rf24_set_payload_size(size)` sets it to `min size 32`, and every other
operation leaves it as it was. -/
theorem payload_size_invariant (c : Chip σ) (w : World σ) (r : rf24)
    (ops : List (DriverOp σ)) (s : World σ × rf24)
    (h : runOps c ops (rf24_init c r w) = some s) :
    s.2.payload_size ≤ 32 ∧
    (rf24_init c r w).2.payload_size = 32 ∧
    (∀ (r1 : rf24) (size : Nat), size < 256 →
      (rf24_set_payload_size r1 size).payload_size = min size 32) ∧
    (∀ (op : DriverOp σ) (s1 s2 : World σ × rf24), op ≠ DriverOp.init →
      (∀ size, op ≠ DriverOp.set_payload_size size) → applyOp c op s1 = some s2 →
      s2.2.payload_size = s1.2.payload_size) := by
  refine ⟨runOps_payload_size_le c ops _ s h (by rw [init_payload_size]),
    init_payload_size c r w, ?_, ?_⟩
  · intro r1 size hsize
    exact min_t_u8_eq size 32 hsize (by decide)
  · intro op s1 s2 hinit hset hop
    exact applyOp_payload_size c op s1 s2 hop hinit hset

/-- Witness of C24: bring-up, then `rf24_set_payload_size(200)` and a channel
change, on a chip answering 0. -/
theorem payload_size_invariant_witness :
    runOps (constChip 0) [DriverOp.set_payload_size 200, DriverOp.transport (fun w => rf24_set_channel (constChip 0) w 76)]
      (rf24_init (constChip 0) (⟨7, 99, [], 5⟩ : rf24) (⟨(), []⟩ : World Unit)) = some ((rf24_set_channel (constChip 0) (rf24_init (constChip 0) (⟨7, 99, [], 5⟩ : rf24) (⟨(), []⟩ : World Unit)).1 76, rf24_set_payload_size (rf24_init (constChip 0) (⟨7, 99, [], 5⟩ : rf24) (⟨(), []⟩ : World Unit)).2 200) : World Unit × rf24) ∧
    (((rf24_set_channel (constChip 0) (rf24_init (constChip 0) (⟨7, 99, [], 5⟩ : rf24) (⟨(), []⟩ : World Unit)).1 76, rf24_set_payload_size (rf24_init (constChip 0) (⟨7, 99, [], 5⟩ : rf24) (⟨(), []⟩ : World Unit)).2 200) : World Unit × rf24).2.payload_size ≤ 32 ∧
    (rf24_init (constChip 0) (⟨7, 99, [], 5⟩ : rf24) (⟨(), []⟩ : World Unit)).2.payload_size = 32 ∧
    (∀ (r1 : rf24) (size : Nat), size < 256 →
      (rf24_set_payload_size r1 size).payload_size = min size 32) ∧
    (∀ (op : DriverOp Unit) (s1 s2 : World Unit × rf24), op ≠ DriverOp.init →
      (∀ size, op ≠ DriverOp.set_payload_size size) → applyOp (constChip 0) op s1 = some s2 →
      s2.2.payload_size = s1.2.payload_size)) :=
  ⟨rfl, payload_size_invariant (constChip 0) (⟨(), []⟩ : World Unit) (⟨7, 99, [], 5⟩ : rf24) [DriverOp.set_payload_size 200, DriverOp.transport (fun w => rf24_set_channel (constChip 0) w 76)]
    ((rf24_set_channel (constChip 0) (rf24_init (constChip 0) (⟨7, 99, [], 5⟩ : rf24) (⟨(), []⟩ : World Unit)).1 76, rf24_set_payload_size (rf24_init (constChip 0) (⟨7, 99, [], 5⟩ : rf24) (⟨(), []⟩ : World Unit)).2 200) : World Unit × rf24) rfl⟩

/-! ### Non-blocking write -/

theorem commandBytesAux_xfers (outs : List Nat) : ∀ (rs : List Nat) (rest : List Event),
    commandBytesAux false (List.zipWith Event.xfer outs rs ++ rest) =
      commandBytesAux false rest := by
  induction outs with
  | nil => intro rs rest; simp
  | cons o outs ih =>
    intro rs rest
    cases rs with
    | nil => simp
    | cons a rs =>
      rw [List.zipWith_cons_cons, List.cons_append, commandBytesAux, ih]

theorem start_config_byte (c0 : Nat) :
    ((c0 ||| (1 <<< PWR_UP)) &&& (255 ^^^ (1 <<< PRIM_RX))) % 256 =
      (c0 ||| (1 <<< PWR_UP)) &&& (255 ^^^ (1 <<< PRIM_RX)) := by
  apply Nat.mod_eq_of_lt
  exact byte_of_and _ _ (by decide)

theorem write_payload_frame (c : Chip σ) (r : rf24) (w : World σ) (buf : Nat → Nat) (len : Nat) :
    ∃ st, ∃ rs : List Nat,
      rs.length = ((List.range (min_t_u8 len r.payload_size)).map (fun i => buf i % 256) ++ List.replicate (if rf24_has_dynamic_payload r then 0 else (r.payload_size + 256 - min_t_u8 len r.payload_size) % 256) 0).length ∧
      (rf24_write_payload c r w buf len).1.trace = w.trace ++
        payloadFrame st ((List.range (min_t_u8 len r.payload_size)).map (fun i => buf i % 256) ++ List.replicate (if rf24_has_dynamic_payload r then 0 else (r.payload_size + 256 - min_t_u8 len r.payload_size) % 256) 0) rs := by
  obtain ⟨rs, hl, ht⟩ := write_payload_trace c r w buf len
  refine ⟨(rf24_write_payload c r w buf len).2, rs, ?_, ht⟩
  rw [hl]
  simp

/-- C25: the trace of `rf24_start_write` is exactly: read CONFIG as `c0`; write
CONFIG with `(c0 | PWR_UP)` and PRIM_RX cleared; a delay of 150 µs; the
payload write of `rf24_write_payload`; chip-enable high; a delay of 15 µs;
chip-enable low.  Its command bytes are the CONFIG read, the CONFIG write and
W_TX_PAYLOAD only: no STATUS write and no OBSERVE_TX read. -/
theorem start_write_trace (c : Chip σ) (r : rf24) (w : World σ) (buf : Nat → Nat) (len : Nat) :
    ∃ a0 c0 a1 a2 st, ∃ rs : List Nat, ∃ emitted : List Event,
      (rf24_start_write c r w buf len).trace = w.trace ++ emitted ∧
      emitted = readFrame CONFIG a0 c0 ++ writeFrame CONFIG a1 ((c0 ||| (1 <<< PWR_UP)) &&& (255 ^^^ (1 <<< PRIM_RX))) a2 ++
        [Event.delay_us 150] ++
        payloadFrame st ((List.range (min_t_u8 len r.payload_size)).map (fun i => buf i % 256) ++ List.replicate (if rf24_has_dynamic_payload r then 0 else (r.payload_size + 256 - min_t_u8 len r.payload_size) % 256) 0) rs ++
        [Event.ce 1, Event.delay_us 15, Event.ce 0] ∧
      rs.length = ((List.range (min_t_u8 len r.payload_size)).map (fun i => buf i % 256) ++ List.replicate (if rf24_has_dynamic_payload r then 0 else (r.payload_size + 256 - min_t_u8 len r.payload_size) % 256) 0).length ∧
      commandBytes emitted =
        [R_REGISTER ||| (REGISTER_MASK &&& CONFIG), W_REGISTER ||| (REGISTER_MASK &&& CONFIG),
         W_TX_PAYLOAD] ∧
      W_REGISTER ||| (REGISTER_MASK &&& STATUS) ∉ commandBytes emitted ∧
      R_REGISTER ||| (REGISTER_MASK &&& OBSERVE_TX) ∉ commandBytes emitted := by
  have hs : rf24_start_write c r w buf len =
      ce c (delay_us c (ce c (rf24_write_payload c r (delay_us c
        (rf24_write_register c (rf24_read_register c w CONFIG).1 CONFIG
          (((rf24_read_register c w CONFIG).2 ||| (1 <<< PWR_UP)) &&&
            (255 ^^^ (1 <<< PRIM_RX)))).1 150) buf len).1 1) 15) 0 := rfl
  obtain ⟨a0, e0⟩ := read_register_frame c w CONFIG
  generalize rf24_read_register c w CONFIG = R0 at e0 hs
  obtain ⟨a1, a2, e1⟩ := write_register_frame c R0.1 CONFIG
    ((R0.2 ||| (1 <<< PWR_UP)) &&& (255 ^^^ (1 <<< PRIM_RX)))
  rw [start_config_byte] at e1
  generalize (rf24_write_register c R0.1 CONFIG
    ((R0.2 ||| (1 <<< PWR_UP)) &&& (255 ^^^ (1 <<< PRIM_RX)))).1 = W1 at e1 hs
  obtain ⟨st, rs, hl, e2⟩ := write_payload_frame c r (delay_us c W1 150) buf len
  generalize (rf24_write_payload c r (delay_us c W1 150) buf len).1 = W2 at e2 hs
  have hcmd : commandBytes (readFrame CONFIG a0 R0.2 ++
      writeFrame CONFIG a1 ((R0.2 ||| (1 <<< PWR_UP)) &&& (255 ^^^ (1 <<< PRIM_RX))) a2 ++
      [Event.delay_us 150] ++ payloadFrame st ((List.range (min_t_u8 len r.payload_size)).map (fun i => buf i % 256) ++ List.replicate (if rf24_has_dynamic_payload r then 0 else (r.payload_size + 256 - min_t_u8 len r.payload_size) % 256) 0) rs ++
      [Event.ce 1, Event.delay_us 15, Event.ce 0]) =
      [R_REGISTER ||| (REGISTER_MASK &&& CONFIG), W_REGISTER ||| (REGISTER_MASK &&& CONFIG),
       W_TX_PAYLOAD] := by
    simp only [readFrame, writeFrame, payloadFrame, List.cons_append,
      List.nil_append, List.append_assoc]
    simp only [commandBytes, commandBytesAux, commandBytesAux_xfers]
  refine ⟨a0, R0.2, a1, a2, st, rs, _, ?_, rfl, hl, hcmd, ?_, ?_⟩
  · rw [hs, ce_trace, delay_us_trace, ce_trace, e2, delay_us_trace, e1, e0]
    simp only [List.append_assoc, List.singleton_append, List.cons_append, List.nil_append]
  · rw [hcmd]
    decide
  · rw [hcmd]
    decide

/-! ### The pipe-id guard -/

/-- C26 (the code at the failing input): the guards `child <= 6` and
`pipe <= 6` admit the id 6.  `rf24_open_reading_pipe(r, 6, a)` goes on to look
up index 6 in its 6-entry tables, past their end, and
`rf24_set_pipe_auto_ack(r, 6, 1)` reads EN_AA and writes it back with bit 6
set.  Only for ids 7..255 is there no transport activity. -/
theorem pipe_guard_admits_six (c : Chip σ) (r : rf24) (w : World σ) (A : Nat → Nat) :
    rf24_open_reading_pipe c r w 6 A = none ∧
    (child_pipe.length = 6 ∧ child_pipe.get? 6 = none ∧ child_payload_size.get? 6 = none ∧
      child_pipe_enable.get? 6 = none) ∧
    (∃ st1 en st2 x, (rf24_set_pipe_auto_ack c w 6 1).trace = w.trace ++
      (readFrame EN_AA st1 en ++ writeFrame EN_AA st2 (en ||| (1 <<< 6)) x)) ∧
    (∀ id, 7 ≤ id → id < 256 →
      rf24_open_reading_pipe c r w id A = some (w, r) ∧
      ∀ enable, rf24_set_pipe_auto_ack c w id enable = w) := by
  refine ⟨rfl, by decide, ?_, ?_⟩
  · obtain ⟨st1, h1⟩ := read_register_frame c w EN_AA
    have hen := read_register_lt c w EN_AA
    obtain ⟨st2, x, h2⟩ := write_register_frame c (rf24_read_register c w EN_AA).1 EN_AA
      (((rf24_read_register c w EN_AA).2 ||| (1 <<< 6)) % 256)
    have hb : ((rf24_read_register c w EN_AA).2 ||| (1 <<< 6)) % 256 =
        (rf24_read_register c w EN_AA).2 ||| (1 <<< 6) := by
      apply Nat.mod_eq_of_lt
      have h8 : (rf24_read_register c w EN_AA).2 < 2 ^ 8 := hen
      exact Nat.or_lt_two_pow h8 (by decide)
    rw [hb, hb] at h2
    have e : rf24_set_pipe_auto_ack c w 6 1 =
        (rf24_write_register c (rf24_read_register c w EN_AA).1 EN_AA
          (((rf24_read_register c w EN_AA).2 ||| (1 <<< 6)) % 256)).1 := rfl
    rw [hb] at e
    refine ⟨st1, (rf24_read_register c w EN_AA).2, st2, x, ?_⟩
    rw [e, h2, h1, List.append_assoc]
  · intro id h7 h256
    have hm : id % 256 = id := Nat.mod_eq_of_lt h256
    constructor
    · unfold rf24_open_reading_pipe
      have h0 : ¬ id % 256 = 0 := by omega
      have h6 : ¬ id % 256 ≤ 6 := by omega
      simp only [h0, h6, if_false]
    · intro enable
      unfold rf24_set_pipe_auto_ack
      have h6 : ¬ id % 256 ≤ 6 := by omega
      simp only [h6, if_false]

/-! ### PA level and data rate do not disturb each other -/

theorem paLevelByte_ge (s0 level : Nat) (h : 6 ≤ level) :
    paLevelByte s0 level = paLevelByte s0 5 := by
  have n1 : ¬ level = RF24_PA_MAX := by
    intro e; rw [e] at h; exact absurd h (by decide)
  have n2 : ¬ level = RF24_PA_HIGH := by
    intro e; rw [e] at h; exact absurd h (by decide)
  have n3 : ¬ level = RF24_PA_LOW := by
    intro e; rw [e] at h; exact absurd h (by decide)
  have n4 : ¬ level = RF24_PA_MIN := by
    intro e; rw [e] at h; exact absurd h (by decide)
  have n5 : ¬ level = RF24_PA_ERROR := by
    intro e; rw [e] at h; exact absurd h (by decide)
  have m1 : ¬ (5 : Nat) = RF24_PA_MAX := by decide
  have m2 : ¬ (5 : Nat) = RF24_PA_HIGH := by decide
  have m3 : ¬ (5 : Nat) = RF24_PA_LOW := by decide
  have m4 : ¬ (5 : Nat) = RF24_PA_MIN := by decide
  have m5 : ¬ (5 : Nat) = RF24_PA_ERROR := by decide
  simp only [paLevelByte, n1, n2, n3, n4, n5, m1, m2, m3, m4, m5, if_false]

theorem dataRateByte_ge (s0 speed : Nat) (h : 3 ≤ speed) :
    dataRateByte s0 speed = dataRateByte s0 0 := by
  have n1 : ¬ speed = RF24_250KBPS := by
    intro e; rw [e] at h; exact absurd h (by decide)
  have n2 : ¬ speed = RF24_2MBPS := by
    intro e; rw [e] at h; exact absurd h (by decide)
  have m1 : ¬ (0 : Nat) = RF24_250KBPS := by decide
  have m2 : ¬ (0 : Nat) = RF24_2MBPS := by decide
  simp only [dataRateByte, n1, n2, m1, m2, if_false]

set_option maxRecDepth 100000 in
theorem paLevelByte_frame_small : ∀ x, x < 256 → ∀ level, level < 6 →
    paLevelByte x level &&& (255 ^^^ ((1 <<< RF_PWR_LOW) ||| (1 <<< RF_PWR_HIGH))) = x &&& (255 ^^^ ((1 <<< RF_PWR_LOW) ||| (1 <<< RF_PWR_HIGH))) ∧
    paLevelByte x level % 256 % 256 &&& ((1 <<< RF_DR_LOW) ||| (1 <<< RF_DR_HIGH)) = x &&& ((1 <<< RF_DR_LOW) ||| (1 <<< RF_DR_HIGH)) := by
  decide

set_option maxRecDepth 100000 in
theorem dataRateByte_frame_small : ∀ x, x < 256 → ∀ speed, speed < 3 →
    dataRateByte x speed &&& (255 ^^^ ((1 <<< RF_DR_LOW) ||| (1 <<< RF_DR_HIGH))) = x &&& (255 ^^^ ((1 <<< RF_DR_LOW) ||| (1 <<< RF_DR_HIGH))) ∧
    dataRateByte x speed &&& ((1 <<< RF_DR_LOW) ||| (1 <<< RF_DR_HIGH)) ≠ ((1 <<< RF_DR_LOW) ||| (1 <<< RF_DR_HIGH)) ∧
    dataRateByte x speed % 256 % 256 &&& ((1 <<< RF_PWR_LOW) ||| (1 <<< RF_PWR_HIGH)) = x &&& ((1 <<< RF_PWR_LOW) ||| (1 <<< RF_PWR_HIGH)) := by
  decide

theorem paLevelByte_frame (x level : Nat) (hx : x < 256) :
    paLevelByte x level &&& (255 ^^^ ((1 <<< RF_PWR_LOW) ||| (1 <<< RF_PWR_HIGH))) = x &&& (255 ^^^ ((1 <<< RF_PWR_LOW) ||| (1 <<< RF_PWR_HIGH))) ∧
    paLevelByte x level % 256 % 256 &&& ((1 <<< RF_DR_LOW) ||| (1 <<< RF_DR_HIGH)) = x &&& ((1 <<< RF_DR_LOW) ||| (1 <<< RF_DR_HIGH)) := by
  by_cases h : level < 6
  · exact paLevelByte_frame_small x hx level h
  · rw [paLevelByte_ge x level (by omega)]
    exact paLevelByte_frame_small x hx 5 (by decide)

theorem dataRateByte_frame (x speed : Nat) (hx : x < 256) :
    dataRateByte x speed &&& (255 ^^^ ((1 <<< RF_DR_LOW) ||| (1 <<< RF_DR_HIGH))) = x &&& (255 ^^^ ((1 <<< RF_DR_LOW) ||| (1 <<< RF_DR_HIGH))) ∧
    dataRateByte x speed &&& ((1 <<< RF_DR_LOW) ||| (1 <<< RF_DR_HIGH)) ≠ ((1 <<< RF_DR_LOW) ||| (1 <<< RF_DR_HIGH)) ∧
    dataRateByte x speed % 256 % 256 &&& ((1 <<< RF_PWR_LOW) ||| (1 <<< RF_PWR_HIGH)) = x &&& ((1 <<< RF_PWR_LOW) ||| (1 <<< RF_PWR_HIGH)) := by
  by_cases h : speed < 3
  · exact dataRateByte_frame_small x hx speed h
  · rw [dataRateByte_ge x speed (by omega)]
    exact dataRateByte_frame_small x hx 0 (by decide)

/-- C27: the byte `rf24_set_pa_level` writes to RF_SETUP equals the byte it read
outside the two power bits, and the byte `rf24_set_data_rate` writes equals
the byte it read outside the two rate bits, which are never both set.  Hence
over the storing chip `rf24_set_pa_level` does not change the result of
`rf24_get_data_rate`, and `rf24_set_data_rate` does not change the result of
`rf24_get_pa_level`. -/
theorem pa_level_data_rate_frame (c : Chip σ) (r : rf24) (w : World σ) (level speed : Nat)
    (s : RegChip) (tr : List Event) :
    (∃ st1 s0 st2 x v,
      (rf24_set_pa_level c w level).trace = w.trace ++
        (readFrame RF_SETUP st1 s0 ++ writeFrame RF_SETUP st2 v x) ∧
      v &&& (255 ^^^ ((1 <<< RF_PWR_LOW) ||| (1 <<< RF_PWR_HIGH))) = s0 &&& (255 ^^^ ((1 <<< RF_PWR_LOW) ||| (1 <<< RF_PWR_HIGH)))) ∧
    (∃ st1 s0 st2 x v st3 rb,
      (rf24_set_data_rate c r w speed).1.trace = w.trace ++
        (readFrame RF_SETUP st1 s0 ++ writeFrame RF_SETUP st2 v x ++
          readFrame RF_SETUP st3 rb) ∧
      v &&& (255 ^^^ ((1 <<< RF_DR_LOW) ||| (1 <<< RF_DR_HIGH))) = s0 &&& (255 ^^^ ((1 <<< RF_DR_LOW) ||| (1 <<< RF_DR_HIGH))) ∧
      v &&& ((1 <<< RF_DR_LOW) ||| (1 <<< RF_DR_HIGH)) ≠ ((1 <<< RF_DR_LOW) ||| (1 <<< RF_DR_HIGH))) ∧
    (rf24_get_data_rate regChip (rf24_set_pa_level regChip (⟨s, tr⟩ : World RegChip) level)).2 =
      (rf24_get_data_rate regChip (⟨s, tr⟩ : World RegChip)).2 ∧
    (rf24_get_pa_level regChip (rf24_set_data_rate regChip r (⟨s, tr⟩ : World RegChip) speed).1).2 =
      (rf24_get_pa_level regChip (⟨s, tr⟩ : World RegChip)).2 := by
  have hreg : RF_SETUP < 32 := by decide
  refine ⟨?_, ?_, ?_, ?_⟩
  · obtain ⟨st1, h1⟩ := read_register_frame c w RF_SETUP
    have hlt := read_register_lt c w RF_SETUP
    obtain ⟨st2, x, h2⟩ := write_register_frame c (rf24_read_register c w RF_SETUP).1 RF_SETUP
      (paLevelByte (rf24_read_register c w RF_SETUP).2 level)
    refine ⟨st1, (rf24_read_register c w RF_SETUP).2, st2, x,
      paLevelByte (rf24_read_register c w RF_SETUP).2 level, ?_,
      (paLevelByte_frame _ level hlt).1⟩
    rw [set_pa_level_eq, h2, h1, paLevelByte_byte _ _ hlt, List.append_assoc]
  · obtain ⟨st1, st2, x, st3, ht⟩ := set_data_rate_trace c r w speed
    have hlt := read_register_lt c w RF_SETUP
    exact ⟨st1, _, st2, x, _, st3, _, ht, (dataRateByte_frame _ speed hlt).1,
      (dataRateByte_frame _ speed hlt).2.1⟩
  · have hregs : (rf24_set_pa_level regChip (⟨s, tr⟩ : World RegChip) level).chip.regs RF_SETUP 0 =
        paLevelByte (s.regs RF_SETUP 0 % 256) level % 256 := by
      rw [set_pa_level_eq, regChip_write_register _ _ _ hreg,
        regChip_read_register_value _ _ hreg]
      exact if_pos ⟨rfl, rfl⟩
    rw [regChip_get_data_rate, regChip_get_data_rate, hregs,
      (paLevelByte_frame _ level (Nat.mod_lt _ (by decide))).2]
  · have hregs : (rf24_set_data_rate regChip r (⟨s, tr⟩ : World RegChip) speed).1.chip.regs RF_SETUP 0 =
        dataRateByte (s.regs RF_SETUP 0 % 256) speed % 256 := by
      rw [set_data_rate_eq]
      show (rf24_read_register regChip _ RF_SETUP).1.chip.regs RF_SETUP 0 = _
      rw [regChip_read_register _ _ hreg, regChip_write_register _ _ _ hreg,
        regChip_read_register_value _ _ hreg]
      exact if_pos ⟨rfl, rfl⟩
    rw [regChip_get_pa_level, regChip_get_pa_level, hregs,
      (dataRateByte_frame _ speed (Nat.mod_lt _ (by decide))).2.2]

/-! ### The result of the blocking write -/

/-- C28: the value `rf24_write` returns is determined by the status byte `s`
answered to the outcome-decoding STATUS write alone, whatever the poll loop
did before: it is non-zero iff TX_DS is set in `s`.  The ack-payload length of
the device instance is replaced by the answer to the R_RX_PL_WID query exactly
when RX_DR is set in `s`; otherwise no query is sent and the device instance
is unchanged. -/
theorem write_result_from_status (c : Chip σ) (r : rf24) (w : World σ) (buf : Nat → Nat)
    (len : Nat) :
    ∃ (s x0 stc cfg stw xw stf : Nat) (mid : List Event),
      (rf24_write c r w buf len).1.trace =
        (rf24_write_poll c 500 (rf24_start_write c r w buf len)).1.trace ++
        writeFrame STATUS s ((1 <<< RX_DR) ||| (1 <<< TX_DS) ||| (1 <<< MAX_RT)) x0 ++ mid ++
        (readFrame CONFIG stc cfg ++
          writeFrame CONFIG stw (cfg &&& (255 ^^^ (1 <<< PWR_UP))) xw ++
          commandFrame FLUSH_TX stf) ∧
      ((rf24_write c r w buf len).2.2 ≠ 0 ↔ s.testBit TX_DS = true) ∧
      (rf24_write c r w buf len).2.2 = s &&& (1 <<< TX_DS) ∧
      (s.testBit RX_DR = true → ∃ a b, mid = widthFrame a b ∧
        (rf24_write c r w buf len).2.1 = { r with ack_payload_length := b }) ∧
      (s.testBit RX_DR = false → mid = [] ∧ (rf24_write c r w buf len).2.1 = r) := by
  obtain ⟨x0, stc, cfg, stw, xw, stf, mid, ht, h1, h2, hret⟩ :=
    write_decomp c r w buf len _ rfl
  refine ⟨statusAt c (rf24_write_poll c 500 (rf24_start_write c r w buf len)).1.chip (W_REGISTER ||| (REGISTER_MASK &&& STATUS)),
    x0, stc, cfg, stw, xw, stf, mid, ?_, ?_, hret, ?_, ?_⟩
  · rw [ht]
    simp [writeFrame, readFrame, commandFrame]
  · rw [hret]
    exact and_bit_ne_zero_iff _ _
  · intro hb
    obtain ⟨a, b, hm, hr⟩ := h2 ((and_bit_ne_zero_iff _ _).2 hb)
    exact ⟨a, b, hm, hr⟩
  · intro hb
    apply h1
    by_contra hne
    rw [(and_bit_ne_zero_iff _ _).1 hne] at hb
    exact absurd hb (by decide)

end RF24
